import Mathlib

set_option maxRecDepth 1000000

/-!
Shallow embedding of the mesh-simplification engine of
src/simplification-worker.js (class MeshSimplifier together with its
Quadric and Vector3 helpers and the worker message handler), and of the
main-thread duplicate of the same engine.

JavaScript numbers are idealised as exact rational numbers.  To keep every
definition kernel-computable we represent a rational as an integer pair
with positive denominator (the invariant is maintained by all operations
the engine performs on values it creates).  All branch decisions of the
engine compare rationals by value, so the unnormalised representation is
observationally identical to mathematical rationals.  Math.sqrt is
modelled by an exact integer square root lifted to fractions; on every
mesh considered concretely in this file all square roots are taken of
perfect rational squares, where this model agrees with the real (and the
IEEE) square root.
-/

/-- Exact rational value, numerator and denominator, denominator positive
for every value the engine constructs. -/
structure JNum where
  n : Int
  d : Int
deriving DecidableEq

instance : Inhabited JNum := ⟨⟨0, 1⟩⟩

/-- Embed an integer. -/
def JNum.ofInt (k : Int) : JNum := ⟨k, 1⟩

/-- Embed a natural number. -/
def JNum.ofNat (k : Nat) : JNum := ⟨(k : Int), 1⟩

def jzero : JNum := ⟨0, 1⟩

def jone : JNum := ⟨1, 1⟩

def jhalf : JNum := ⟨1, 2⟩

def jten : JNum := ⟨10, 1⟩

/-- Reduce a fraction to lowest terms (value preserving; keeps the sign
of the denominator).  Arithmetic results are normalised so that the
kernel works with small numbers, exactly as mathematical rationals. -/
def JNum.norm (a : JNum) : JNum :=
  let g : Int := (Int.gcd a.n a.d : Int)
  if g ≤ 1 then a else ⟨a.n / g, a.d / g⟩

def JNum.add (a b : JNum) : JNum := JNum.norm ⟨a.n * b.d + b.n * a.d, a.d * b.d⟩

def JNum.sub (a b : JNum) : JNum := JNum.norm ⟨a.n * b.d - b.n * a.d, a.d * b.d⟩

def JNum.mul (a b : JNum) : JNum := JNum.norm ⟨a.n * b.n, a.d * b.d⟩

def JNum.neg (a : JNum) : JNum := ⟨-a.n, a.d⟩

/-- Reciprocal; the engine only inverts strictly positive values. -/
def JNum.inv (a : JNum) : JNum := ⟨a.d, a.n⟩

/-- Value comparison a < b (for positive denominators), as a Bool. -/
def JNum.blt (a b : JNum) : Bool := decide (a.n * b.d < b.n * a.d)

/-- Value comparison a < b as a proposition. -/
def JNum.lt (a b : JNum) : Prop := a.n * b.d < b.n * a.d

/-- Value comparison a ≤ b as a proposition. -/
def JNum.le (a b : JNum) : Prop := a.n * b.d ≤ b.n * a.d

/-- Value equality (two representations denote the same rational). -/
def JNum.equiv (a b : JNum) : Prop := a.n * b.d = b.n * a.d

instance (a b : JNum) : Decidable (JNum.lt a b) := by unfold JNum.lt; infer_instance

instance (a b : JNum) : Decidable (JNum.le a b) := by unfold JNum.le; infer_instance

instance (a b : JNum) : Decidable (JNum.equiv a b) := by unfold JNum.equiv; infer_instance

/-- Math.floor on an exact rational with positive denominator. -/
def JNum.floorQ (a : JNum) : Int := Int.fdiv a.n a.d

/-- Absolute value (for positive denominators). -/
def JNum.abs (a : JNum) : JNum := ⟨|a.n|, a.d⟩

/-- Positive-denominator well-formedness of a rational representation. -/
def JNum.wf (a : JNum) : Prop := 0 < a.d

/-- The rational value denoted by a representation (used only in
specifications and proofs, never by the embedded engine). -/
def JNum.val (a : JNum) : Rat := (a.n : Rat) / (a.d : Rat)

/-- Fuel-driven integer square root (structural recursion so that the
kernel can evaluate it); exact on perfect squares. -/
def isqrtFuel : Nat → Nat → Nat
  | 0, _ => 0
  | f + 1, m =>
    if m < 2 then m
    else
      let r := 2 * isqrtFuel f (m / 4)
      if (r + 1) * (r + 1) ≤ m then r + 1 else r

def isqrt (m : Nat) : Nat := isqrtFuel m m

/-- Square root of a nonnegative rational: sqrt (n/d) = sqrt (n*d) / d.
Exact whenever the value of the argument is the square of a rational whose
reduced denominator divides d, which is the case for every square root the
engine takes on the meshes evaluated in this file. -/
def JNum.sqrtQ (a : JNum) : JNum := ⟨(isqrt (a.n * a.d).toNat : Int), a.d⟩

/-- Vector3 of src/simplification-worker.js, restricted to the operations
the simplifier uses. -/
structure Vec3 where
  x : JNum
  y : JNum
  z : JNum
deriving DecidableEq

instance : Inhabited Vec3 := ⟨⟨jzero, jzero, jzero⟩⟩

/-- Vector3.subVectors. -/
def vsub (a b : Vec3) : Vec3 := ⟨a.x.sub b.x, a.y.sub b.y, a.z.sub b.z⟩

/-- Vector3.addVectors. -/
def vadd (a b : Vec3) : Vec3 := ⟨a.x.add b.x, a.y.add b.y, a.z.add b.z⟩

/-- Vector3.multiplyScalar. -/
def vsmul (s : JNum) (a : Vec3) : Vec3 := ⟨a.x.mul s, a.y.mul s, a.z.mul s⟩

/-- Vector3.crossVectors. -/
def vcross (a b : Vec3) : Vec3 :=
  ⟨(a.y.mul b.z).sub (a.z.mul b.y),
   (a.z.mul b.x).sub (a.x.mul b.z),
   (a.x.mul b.y).sub (a.y.mul b.x)⟩

/-- Vector3.dot. -/
def vdot (a b : Vec3) : JNum := ((a.x.mul b.x).add (a.y.mul b.y)).add (a.z.mul b.z)

/-- Vector3.length. -/
def vlength (a : Vec3) : JNum :=
  JNum.sqrtQ (((a.x.mul a.x).add (a.y.mul a.y)).add (a.z.mul a.z))

/-- Vector3.normalize: divide by the length when it is positive. -/
def vnormalize (a : Vec3) : Vec3 :=
  let len := vlength a
  if jzero.blt len then vsmul len.inv a else a

/-- Quadric of src/simplification-worker.js: symmetric 4 x 4 matrix stored
as 10 coefficients. -/
structure Quadric where
  a11 : JNum
  a12 : JNum
  a13 : JNum
  a14 : JNum
  a22 : JNum
  a23 : JNum
  a24 : JNum
  a33 : JNum
  a34 : JNum
  a44 : JNum
deriving DecidableEq

/-- Quadric constructor state: all coefficients zero. -/
def Quadric.zeroQ : Quadric :=
  ⟨jzero, jzero, jzero, jzero, jzero, jzero, jzero, jzero, jzero, jzero⟩

instance : Inhabited Quadric := ⟨Quadric.zeroQ⟩

/-- Quadric.fromPlane. -/
def Quadric.fromPlane (a b c d : JNum) : Quadric :=
  ⟨a.mul a, a.mul b, a.mul c, a.mul d,
   b.mul b, b.mul c, b.mul d,
   c.mul c, c.mul d,
   d.mul d⟩

/-- Quadric.add (functional form). -/
def Quadric.add (p q : Quadric) : Quadric :=
  ⟨p.a11.add q.a11, p.a12.add q.a12, p.a13.add q.a13, p.a14.add q.a14,
   p.a22.add q.a22, p.a23.add q.a23, p.a24.add q.a24,
   p.a33.add q.a33, p.a34.add q.a34,
   p.a44.add q.a44⟩

/-- Quadric.multiplyScalar (functional form). -/
def Quadric.scale (s : JNum) (q : Quadric) : Quadric :=
  ⟨q.a11.mul s, q.a12.mul s, q.a13.mul s, q.a14.mul s,
   q.a22.mul s, q.a23.mul s, q.a24.mul s,
   q.a33.mul s, q.a34.mul s,
   q.a44.mul s⟩

/-- Quadric.evaluate at (x, y, z). -/
def Quadric.evalAt (q : Quadric) (x y z : JNum) : JNum :=
  let two : JNum := ⟨2, 1⟩
  ((((((((( (q.a11.mul x).mul x ).add (((two.mul q.a12).mul x).mul y)
    ).add (((two.mul q.a13).mul x).mul z)
    ).add ((two.mul q.a14).mul x)
    ).add ((q.a22.mul y).mul y)
    ).add (((two.mul q.a23).mul y).mul z)
    ).add ((two.mul q.a24).mul y)
    ).add ((q.a33.mul z).mul z)
    ).add ((two.mul q.a34).mul z)
    ).add q.a44

/-- Vertex record of the simplifier: position, incident face indices,
incident edge indices (edge objects are stored in a central array, so the
JavaScript object references become indices), accumulated quadric, and the
tombstone flag. -/
structure Vertex where
  position : Vec3
  faces : List Nat
  edges : List Nat
  quadric : Quadric
  deleted : Bool
deriving DecidableEq

instance : Inhabited Vertex :=
  ⟨⟨default, [], [], Quadric.zeroQ, true⟩⟩

/-- Face record: three vertex indices, tombstone flag, cached normal
(none before computeFaceNormal has run, mirroring the null initialiser)
and cached area. -/
structure Face where
  v0 : Nat
  v1 : Nat
  v2 : Nat
  deleted : Bool
  normal : Option Vec3
  area : JNum
deriving DecidableEq

instance : Inhabited Face := ⟨⟨0, 0, 0, true, none, jzero⟩⟩

/-- Edge record: canonical vertex pair (lower index first), incident face
indices, cached cost (none encodes the JavaScript Infinity sentinel; a
finite cost is some value), cached collapse target and tombstone flag. -/
structure Edge where
  v0 : Nat
  v1 : Nat
  faces : List Nat
  cost : Option JNum
  target : Option Vec3
  deleted : Bool
deriving DecidableEq

instance : Inhabited Edge := ⟨⟨0, 0, [], none, none, true⟩⟩

/-- Mutable containers of one MeshSimplifier instance. -/
structure SimState where
  vertices : List Vertex
  faces : List Face
  edges : List Edge
deriving DecidableEq

/-- Indexed read with the default element (out-of-range indices never
occur on the engine path; defaults are tombstoned records). -/
def getI {α : Type} [Inhabited α] (l : List α) (i : Nat) : α := l.getD i default

/-- Functional update at an index (no-op when out of range, mirroring the
fact that the engine only writes to existing records). -/
def updAt {α : Type} : List α → Nat → (α → α) → List α
  | [], _, _ => []
  | a :: l, 0, f => f a :: l
  | a :: l, i + 1, f => a :: updAt l i f

def vtx (s : SimState) (i : Nat) : Vertex := getI s.vertices i

def fce (s : SimState) (i : Nat) : Face := getI s.faces i

def edg (s : SimState) (i : Nat) : Edge := getI s.edges i

def updVtx (s : SimState) (i : Nat) (f : Vertex → Vertex) : SimState :=
  { s with vertices := updAt s.vertices i f }

def updFace (s : SimState) (i : Nat) (f : Face → Face) : SimState :=
  { s with faces := updAt s.faces i f }

def updEdge (s : SimState) (i : Nat) (f : Edge → Edge) : SimState :=
  { s with edges := updAt s.edges i f }

/-- Number of faces not flagged deleted (the countActiveFaces helper of
simplify). -/
def liveFaceCount (s : SimState) : Nat := s.faces.countP (fun f => !f.deleted)

/-- Key of one coordinate in the vertex-deduplication map: the toFixed(6)
string of a number x is determined by its sign and by the integer nearest
to abs x scaled by 10^6 (ties toward the larger integer), so the key is
modelled as that pair.  Note that a negative x rounding to magnitude 0
yields the string -0.000000, distinct from 0.000000, which the Bool
component captures. -/
def coordKey (x : JNum) : Bool × Int :=
  if x.blt jzero then (true, (x.neg.mul ⟨1000000, 1⟩).add jhalf |>.floorQ)
  else (false, (x.mul ⟨1000000, 1⟩).add jhalf |>.floorQ)

/-- Full vertex key, one coordinate key per component, mirroring the
comma-separated toFixed(6) string key of extractMeshData. -/
def vertexKey (p : Vec3) : (Bool × Int) × (Bool × Int) × (Bool × Int) :=
  (coordKey p.x, coordKey p.y, coordKey p.z)

abbrev VKey := (Bool × Int) × (Bool × Int) × (Bool × Int)

/-- Association-list lookup for the vertex map (JavaScript Map.get). -/
def alookup (k : VKey) : List (VKey × Nat) → Option Nat
  | [] => none
  | (k2, i) :: rest => if k = k2 then some i else alookup k rest

/-- Working state of extractMeshData: the vertex and face containers being
filled plus the key-to-index map. -/
structure ExtractSt where
  vertices : List Vertex
  faces : List Face
  vmap : List (VKey × Nat)
deriving DecidableEq

/-- Fresh vertex record as extractMeshData pushes it. -/
def newVertexRec (p : Vec3) : Vertex :=
  ⟨p, [], [], Quadric.zeroQ, false⟩

/-- getVertexIndex of extractMeshData: reuse the index of an existing key,
or push a fresh vertex and register its key. -/
def getVertexIndex (st : ExtractSt) (p : Vec3) : Nat × ExtractSt :=
  match alookup (vertexKey p) st.vmap with
  | some i => (i, st)
  | none =>
    let i := st.vertices.length
    (i, { st with vertices := st.vertices ++ [newVertexRec p],
                  vmap := (vertexKey p, i) :: st.vmap })

/-- computeFaceNormal: cross product of two edge vectors, half its length
as area, normalised only when the area is above the 0.0001 threshold. -/
def computeFaceNormal (vertices : List Vertex) (face : Face) : Face :=
  let p0 := (getI vertices face.v0).position
  let p1 := (getI vertices face.v1).position
  let p2 := (getI vertices face.v2).position
  let e1 := vsub p1 p0
  let e2 := vsub p2 p0
  let nrm := vcross e1 e2
  let area := (vlength nrm).mul jhalf
  let nrm2 := if JNum.blt ⟨1, 10000⟩ area then vnormalize nrm else nrm
  { face with normal := some nrm2, area := area }

/-- One source triangle of the extraction loop: resolve the three corner
indices (creating vertices as needed), then either drop the triangle when
two resolved indices coincide or append the face and register it on its
three vertices. -/
def extractTri (st : ExtractSt) (t : Vec3 × Vec3 × Vec3) : ExtractSt :=
  let r0 := getVertexIndex st t.1
  let r1 := getVertexIndex r0.2 t.2.1
  let r2 := getVertexIndex r1.2 t.2.2
  let i0 := r0.1
  let i1 := r1.1
  let i2 := r2.1
  let st2 := r2.2
  if i0 = i1 ∨ i1 = i2 ∨ i2 = i0 then st2
  else
    let face0 : Face := ⟨i0, i1, i2, false, none, jzero⟩
    let face := computeFaceNormal st2.vertices face0
    let fi := st2.faces.length
    let addRef := fun (vs : List Vertex) (vi : Nat) =>
      updAt vs vi (fun v => { v with faces := v.faces ++ [fi] })
    { vertices := addRef (addRef (addRef st2.vertices i0) i1) i2,
      faces := st2.faces ++ [face],
      vmap := st2.vmap }

/-- The three resolved corner indices of a triangle against a given
extraction state (what getVertexIndex returns for the three corners in
order). -/
def resolvedTriple (st : ExtractSt) (t : Vec3 × Vec3 × Vec3) : Nat × Nat × Nat :=
  let r0 := getVertexIndex st t.1
  let r1 := getVertexIndex r0.2 t.2.1
  let r2 := getVertexIndex r1.2 t.2.2
  (r0.1, r1.1, r2.1)

/-- Split the flat position stream into stride-9 triangles (the loop
header for i in steps of 9); a trailing fragment shorter than one full
triangle is outside the modelled domain (the spec requires the length to
be a multiple of 9 and makes the host validate it). -/
def chunks9 : List JNum → List (Vec3 × Vec3 × Vec3)
  | x0 :: x1 :: x2 :: x3 :: x4 :: x5 :: x6 :: x7 :: x8 :: rest =>
    (⟨x0, x1, x2⟩, ⟨x3, x4, x5⟩, ⟨x6, x7, x8⟩) :: chunks9 rest
  | _ => []

/-- Whole extraction run, keeping the final vertex map. -/
def extractFull (positions : List JNum) : ExtractSt :=
  (chunks9 positions).foldl extractTri ⟨[], [], []⟩

/-- extractMeshData: reset the containers and fill vertices and faces. -/
def extractMeshData (positions : List JNum) : SimState :=
  let st := extractFull positions
  ⟨st.vertices, st.faces, []⟩

/-- All corner points of the input stream, in stream order. -/
def cornersOf (positions : List JNum) : List Vec3 :=
  (chunks9 positions).flatMap (fun t => [t.1, t.2.1, t.2.2])

/-- Final resolved index of a point: the index its key maps to after the
whole extraction (stable from the moment the key first appears). -/
def resolveIdx (positions : List JNum) (p : Vec3) : Option Nat :=
  alookup (vertexKey p) (extractFull positions).vmap

/-- The three vertex-pair keys of a face, in the order buildEdges visits
them. -/
def facePairs (f : Face) : List (Nat × Nat) := [(f.v0, f.v1), (f.v1, f.v2), (f.v2, f.v0)]

/-- One pair of the buildEdges loop: find the canonical edge, creating and
registering it on both endpoint vertices when the key is new, then append
the face index to the incident list of the edge. -/
def addEdgePair (fi : Nat) (s : SimState) (pr : Nat × Nat) : SimState :=
  let k0 := min pr.1 pr.2
  let k1 := max pr.1 pr.2
  match s.edges.findIdx? (fun e => e.v0 == k0 && e.v1 == k1) with
  | some ei => updEdge s ei (fun e => { e with faces := e.faces ++ [fi] })
  | none =>
    let ei := s.edges.length
    let s2 := { s with edges := s.edges ++ [⟨k0, k1, [], some jzero, none, false⟩] }
    let s3 := updVtx (updVtx s2 pr.1 (fun v => { v with edges := v.edges ++ [ei] }))
                     pr.2 (fun v => { v with edges := v.edges ++ [ei] })
    updEdge s3 ei (fun e => { e with faces := e.faces ++ [fi] })

/-- buildEdges: reset the edge container, then derive the three edges of
every live face in face order.  The JavaScript Map keyed by the sorted
index pair is realised by searching the edge list for the canonical pair:
the two are observationally identical because an edge with a given
canonical pair is created at most once. -/
def buildEdges (s : SimState) : SimState :=
  let s0 : SimState := { s with edges := [] }
  (s.faces.enum).foldl
    (fun acc fp =>
      if fp.2.deleted then acc
      else (facePairs fp.2).foldl (addEdgePair fp.1) acc)
    s0

/-- Add a quadric into the accumulated quadric of one vertex. -/
def addQuadricTo (s : SimState) (vi : Nat) (q : Quadric) : SimState :=
  updVtx s vi (fun v => { v with quadric := v.quadric.add q })

/-- The plane quadric one face feeds into its vertices: fromPlane of the
stored normal and plane offset, scaled by the stored area.  Faces flagged
deleted or whose normal was never computed contribute nothing (the
JavaScript guard is on the null normal, not on its length). -/
def faceContrib (s : SimState) (face : Face) : Quadric :=
  if face.deleted then Quadric.zeroQ
  else
    match face.normal with
    | none => Quadric.zeroQ
    | some nrm =>
      let p0 := (vtx s face.v0).position
      let d := (vdot nrm p0).neg
      Quadric.scale face.area (Quadric.fromPlane nrm.x nrm.y nrm.z d)

/-- computeQuadrics: reset every vertex quadric to zero, then add each
live face's area-scaled plane quadric into its three vertices. -/
def computeQuadrics (s : SimState) : SimState :=
  let s0 : SimState :=
    { s with vertices := s.vertices.map (fun v => { v with quadric := Quadric.zeroQ }) }
  s0.faces.foldl
    (fun acc face =>
      if face.deleted || face.normal == none then acc
      else
        let q := faceContrib acc face
        addQuadricTo (addQuadricTo (addQuadricTo acc face.v0 q) face.v1 q) face.v2 q)
    s0

/-- Midpoint of the two endpoint positions (the collapse target). -/
def edgeMidpoint (a b : Vec3) : Vec3 := vsmul jhalf (vadd a b)

/-- The per-edge body of computeEdgeCosts: skip deleted edges, set the
cost to Infinity when an endpoint is gone, otherwise cache the midpoint
target and the combined quadric evaluated there, with the times-10
boundary penalty when the incident-face list is shorter than 2. -/
def edgeCostUpdate (s : SimState) (e : Edge) : Edge :=
  if e.deleted then e
  else
    let w0 := vtx s e.v0
    let w1 := vtx s e.v1
    if w0.deleted || w1.deleted then { e with cost := none }
    else
      let q := Quadric.add w0.quadric w1.quadric
      let t := edgeMidpoint w0.position w1.position
      let c := q.evalAt t.x t.y t.z
      let c2 := if e.faces.length < 2 then c.mul jten else c
      { e with target := some t, cost := some c2 }

/-- computeEdgeCosts: apply the per-edge cost computation to the whole
edge list (the vertex containers are only read). -/
def computeEdgeCosts (s : SimState) : SimState :=
  { s with edges := s.edges.map (edgeCostUpdate s) }

/-- JavaScript comparison cost < minCost where none is Infinity. -/
def costLt : Option JNum → Option JNum → Bool
  | none, _ => false
  | some _, none => true
  | some a, some b => a.blt b

/-- getMinimumCostEdge: linear scan over the edge list skipping deleted
edges and edges with a deleted endpoint; strict comparison, so the first
edge of minimal cost in construction order wins. -/
def getMinimumCostEdge (s : SimState) : Option Nat :=
  (s.edges.enum.foldl
    (fun acc ie =>
      if ie.2.deleted then acc
      else if (vtx s ie.2.v0).deleted || (vtx s ie.2.v1).deleted then acc
      else if costLt ie.2.cost acc.2 then (some ie.1, ie.2.cost) else acc)
    ((none, none) : Option Nat × Option JNum)).1

/-- Replace every occurrence of vOld in the vertex slots of a face. -/
def replaceVert (f : Face) (vOld vNew : Nat) : Face :=
  { f with v0 := if f.v0 = vOld then vNew else f.v0,
           v1 := if f.v1 = vOld then vNew else f.v1,
           v2 := if f.v2 = vOld then vNew else f.v2 }

/-- Live incident faces of an edge (the activeFaceCount filter of the
local cost recomputation). -/
def liveEdgeFaceCount (s : SimState) (e : Edge) : Nat :=
  e.faces.countP (fun f => !(fce s f).deleted)

/-- Local cost recomputation over one affected vertex: walk its edge list,
tombstone edges whose other endpoint is dead, otherwise refresh target and
cost (with the boundary penalty counted on live incident faces). -/
def recomputeVertexEdges (s : SimState) (vi : Nat) : SimState :=
  let vert := vtx s vi
  if vert.deleted then s
  else
    vert.edges.foldl
      (fun acc ej =>
        let ed := edg acc ej
        if ed.deleted then acc
        else
          let oi := if ed.v0 = vi then ed.v1 else ed.v0
          let other := vtx acc oi
          if other.deleted then updEdge acc ej (fun e => { e with deleted := true })
          else
            let q := Quadric.add vert.quadric other.quadric
            let t := edgeMidpoint vert.position other.position
            let c := q.evalAt t.x t.y t.z
            let c2 := if liveEdgeFaceCount acc ed < 2 then c.mul jten else c
            updEdge acc ej (fun e => { e with target := some t, cost := some c2 }))
      s

/-- Step a of collapseEdge: move the surviving vertex to the cached
target of the collapsed edge. -/
def collapseMove (s : SimState) (ei : Nat) : SimState :=
  updVtx s (edg s ei).v0 (fun v => { v with position := (edg s ei).target.getD v.position })

/-- Step b of collapseEdge: add the quadric of the absorbed vertex into
the survivor. -/
def collapseMerge (s : SimState) (v0i v1i : Nat) : SimState :=
  updVtx s v0i (fun v => { v with quadric := v.quadric.add (vtx s v1i).quadric })

/-- Step c of collapseEdge: tombstone every face incident to both
endpoints (they become degenerate under the substitution). -/
def collapseDeleteShared (s : SimState) (v0i v1i : Nat) : SimState :=
  ((vtx s v0i).faces.filter (fun f => (vtx s v1i).faces.contains f)).foldl
    (fun acc f => updFace acc f (fun fa => { fa with deleted := true })) s

/-- Step d of collapseEdge: for every remaining live face of the absorbed
vertex, substitute the survivor, recompute the face normal, and register
the face on the survivor without duplicates. -/
def collapseTransfer (s : SimState) (v0i v1i : Nat) : SimState :=
  (vtx s v1i).faces.foldl
    (fun acc f =>
      if (fce acc f).deleted then acc
      else
        let acc1 := updFace acc f (fun fa => replaceVert fa v1i v0i)
        let acc2 := updFace acc1 f (fun fa => computeFaceNormal acc1.vertices fa)
        if (vtx acc2 v0i).faces.contains f then acc2
        else updVtx acc2 v0i (fun v => { v with faces := v.faces ++ [f] }))
    s

/-- The affected-vertex set of step f of collapseEdge: the survivor plus
every vertex of one of its live faces, in insertion order without
duplicates (the JavaScript Set). -/
def collapseAffected (s : SimState) (v0i : Nat) : List Nat :=
  (vtx s v0i).faces.foldl
    (fun (acc : List Nat) f =>
      let face := fce s f
      if face.deleted then acc
      else [face.v0, face.v1, face.v2].foldl
        (fun (a : List Nat) v => if a.contains v then a else a ++ [v]) acc)
    [v0i]

/-- Step f of collapseEdge: recompute the costs of every edge incident to
an affected vertex. -/
def collapseRecompute (s : SimState) (v0i : Nat) : SimState :=
  (collapseAffected s v0i).foldl recomputeVertexEdges s

/-- collapseEdge, step by step in source order: move the surviving vertex
to the cached target, merge quadrics, tombstone the faces shared by both
endpoints, remap the remaining faces of the absorbed vertex (recomputing
their normals and registering them on the survivor without duplicates),
tombstone the absorbed vertex and the edge, then recompute costs over the
set of vertices touched by the survivor's live faces (in insertion
order). -/
def collapseEdge (s : SimState) (ei : Nat) : SimState :=
  let e := edg s ei
  collapseRecompute
    (updEdge
      (updVtx
        (collapseTransfer
          (collapseDeleteShared (collapseMerge (collapseMove s ei) e.v0 e.v1) e.v0 e.v1)
          e.v0 e.v1)
        e.v1 (fun v => { v with deleted := true }))
      ei (fun ed => { ed with deleted := true }))
    e.v0

/-- A vertex survives into the output exactly when it is not deleted and
still has a live incident face. -/
def survives (s : SimState) (vi : Nat) : Bool :=
  !(vtx s vi).deleted && (vtx s vi).faces.any (fun f => !(fce s f).deleted)

/-- Output index of a surviving vertex: its rank among surviving vertices
in old-index order (the counter of the vertex-map building loop). -/
def newIdx (s : SimState) (vi : Nat) : Option Nat :=
  if survives s vi then some ((List.range vi).countP (survives s)) else none

/-- The nine floats a face contributes to the output stream. -/
def faceFloats (s : SimState) (f : Face) : List JNum :=
  let p0 := (vtx s f.v0).position
  let p1 := (vtx s f.v1).position
  let p2 := (vtx s f.v2).position
  [p0.x, p0.y, p0.z, p1.x, p1.y, p1.z, p2.x, p2.y, p2.z]

/-- buildGeometry: re-emit every live face whose three remapped vertex
indices exist and are pairwise distinct, as a flat stride-9 stream. -/
def buildGeometry (s : SimState) : List JNum :=
  s.faces.foldl
    (fun out face =>
      if face.deleted then out
      else
        match newIdx s face.v0, newIdx s face.v1, newIdx s face.v2 with
        | some a, some b, some c =>
          if a = b ∨ b = c ∨ c = a then out
          else out ++ faceFloats s face
        | _, _, _ => out)
    []

/-- Result of the collapse loop: final containers, number of iterations
performed, and whether the loop ended through the early break (no edge
found, or a minimum of cost Infinity) rather than through its guard. -/
structure LoopResult where
  state : SimState
  iter : Nat
  exhausted : Bool
deriving DecidableEq

/-- targetFaceCount = max(4, floor(originalFaceCount * (1 - r))). -/
def targetFaceCount (origF : Nat) (r : JNum) : Int :=
  max 4 (((JNum.ofNat origF).mul (jone.sub r)).floorQ)

/-- The while loop of simplify: continue while the live face count
exceeds the target and the iteration count is below the cap; each pass
selects the minimum-cost edge, breaks when none is found or its cost is
Infinity, and otherwise collapses it.  Structural fuel makes the kernel
able to evaluate the loop; every caller passes fuel at least
maxIter - iter, which makes the fuel-out branch unreachable (when fuel is
0 but the guard holds, iter < maxIter fails first). -/
def collapseLoopF (target : Int) (maxIter : Nat) : Nat → Nat → SimState → LoopResult
  | fuel, iter, s =>
    if (liveFaceCount s : Int) > target ∧ iter < maxIter then
      match getMinimumCostEdge s with
      | none => ⟨s, iter, true⟩
      | some ei =>
        if (edg s ei).cost = none then ⟨s, iter, true⟩
        else
          match fuel with
          | 0 => ⟨s, iter, false⟩
          | fuel2 + 1 => collapseLoopF target maxIter fuel2 (iter + 1) (collapseEdge s ei)
    else ⟨s, iter, false⟩

/-- The state on which the collapse loop starts: extraction, edge
building, quadric accumulation and initial edge costs. -/
def pipelineState (positions : List JNum) : SimState :=
  computeEdgeCosts (computeQuadrics (buildEdges (extractMeshData positions)))

/-- The whole simplify run up to (but excluding) buildGeometry. -/
def simplifyRun (positions : List JNum) (r : JNum) : LoopResult :=
  let ext := extractMeshData positions
  let origF := ext.faces.length
  collapseLoopF (targetFaceCount origF r) origF origF 0
    (computeEdgeCosts (computeQuadrics (buildEdges ext)))

/-- simplify: run the pipeline and the loop, then rebuild the flat
output stream. -/
def simplify (positions : List JNum) (r : JNum) : List JNum :=
  buildGeometry (simplifyRun positions r).state

/-- Messages the worker posts back on completion; the error variant is
the catch-all branch of the handler (the modelled engine is total, so the
embedding never produces it, mirroring the absence of throw sites in the
algorithm itself). -/
inductive WorkerMsg where
  | complete (positions : List JNum) (originalFaces simplifiedFaces : JNum)
  | error (message : String)
deriving DecidableEq

/-- The worker message handler: run simplify and post a complete message
whose originalFaces field is positions.length / 9 (the raw input triangle
count) and whose simplifiedFaces field is the output length / 9. -/
def workerOnMessage (positions : List JNum) (targetReduction : JNum) : WorkerMsg :=
  let result := simplify positions targetReduction
  WorkerMsg.complete result
    (JNum.mul (JNum.ofNat positions.length) ⟨1, 9⟩)
    (JNum.mul (JNum.ofNat result.length) ⟨1, 9⟩)

namespace MainSimplifier

/-! Embedding of the main-thread MeshSimplifier duplicate
(src/unnamed/part_001).  Its Quadric and vector operations coincide with
the worker helpers, so the record types are shared; the pipeline
functions are re-derived from that source file.  Its simplify takes a
BufferGeometry and returns one; both are modelled by their flat position
streams. -/

def extractMeshData (positions : List JNum) : SimState :=
  let st := (chunks9 positions).foldl extractTri ⟨[], [], []⟩
  ⟨st.vertices, st.faces, []⟩

def buildEdges (s : SimState) : SimState :=
  let s0 : SimState := { s with edges := [] }
  (s.faces.enum).foldl
    (fun acc fp =>
      if fp.2.deleted then acc
      else (facePairs fp.2).foldl (addEdgePair fp.1) acc)
    s0

def computeQuadrics (s : SimState) : SimState :=
  let s0 : SimState :=
    { s with vertices := s.vertices.map (fun v => { v with quadric := Quadric.zeroQ }) }
  s0.faces.foldl
    (fun acc face =>
      if face.deleted || face.normal == none then acc
      else
        let q := faceContrib acc face
        addQuadricTo (addQuadricTo (addQuadricTo acc face.v0 q) face.v1 q) face.v2 q)
    s0

def computeEdgeCosts (s : SimState) : SimState :=
  { s with edges := s.edges.map (edgeCostUpdate s) }

def getMinimumCostEdge (s : SimState) : Option Nat :=
  (s.edges.enum.foldl
    (fun acc ie =>
      if ie.2.deleted then acc
      else if (vtx s ie.2.v0).deleted || (vtx s ie.2.v1).deleted then acc
      else if costLt ie.2.cost acc.2 then (some ie.1, ie.2.cost) else acc)
    ((none, none) : Option Nat × Option JNum)).1

def collapseEdge (s : SimState) (ei : Nat) : SimState :=
  let e := edg s ei
  collapseRecompute
    (updEdge
      (updVtx
        (collapseTransfer
          (collapseDeleteShared (collapseMerge (collapseMove s ei) e.v0 e.v1) e.v0 e.v1)
          e.v0 e.v1)
        e.v1 (fun v => { v with deleted := true }))
      ei (fun ed => { ed with deleted := true }))
    e.v0

def buildGeometry (s : SimState) : List JNum :=
  s.faces.foldl
    (fun out face =>
      if face.deleted then out
      else
        match newIdx s face.v0, newIdx s face.v1, newIdx s face.v2 with
        | some a, some b, some c =>
          if a = b ∨ b = c ∨ c = a then out
          else out ++ faceFloats s face
        | _, _, _ => out)
    []

def collapseLoopF (target : Int) (maxIter : Nat) : Nat → Nat → SimState → LoopResult
  | fuel, iter, s =>
    if (liveFaceCount s : Int) > target ∧ iter < maxIter then
      match getMinimumCostEdge s with
      | none => ⟨s, iter, true⟩
      | some ei =>
        if (edg s ei).cost = none then ⟨s, iter, true⟩
        else
          match fuel with
          | 0 => ⟨s, iter, false⟩
          | fuel2 + 1 => collapseLoopF target maxIter fuel2 (iter + 1) (collapseEdge s ei)
    else ⟨s, iter, false⟩

def simplify (positions : List JNum) (r : JNum) : List JNum :=
  let ext := extractMeshData positions
  let origF := ext.faces.length
  let run := collapseLoopF (targetFaceCount origF r) origF origF 0
    (computeEdgeCosts (computeQuadrics (buildEdges ext)))
  buildGeometry run.state

end MainSimplifier

/-- One planar z = 0 triangle with integer corner coordinates, as nine
stream floats. -/
def triZ (ax ay bx by2 cx cy : Int) : List JNum :=
  [⟨ax, 1⟩, ⟨ay, 1⟩, ⟨0, 1⟩, ⟨bx, 1⟩, ⟨by2, 1⟩, ⟨0, 1⟩, ⟨cx, 1⟩, ⟨cy, 1⟩, ⟨0, 1⟩]

/-- Closed planar fan of 5 triangles around the origin (pentagon rim):
5 extracted faces, all coplanar. -/
def fanInput : List JNum :=
  triZ 0 0 1 0 0 1 ++ triZ 0 0 0 1 (-1) 0 ++ triZ 0 0 (-1) 0 0 (-1)
    ++ triZ 0 0 0 (-1) 1 (-1) ++ triZ 0 0 1 (-1) 1 0

/-- A single flat quad given as two triangles (scenario B of the spec). -/
def quadInput : List JNum :=
  triZ 0 0 1 0 0 1 ++ triZ 1 0 1 1 0 1

/-- Eight planar triangles arranged so that the second collapse of the
engine run removes zero faces: the first collapse deletes the two faces
of the first selected edge, after which the next selected edge has only
already-deleted incident faces. -/
def c3Input : List JNum :=
  triZ 0 0 1 0 0 1 ++ triZ 2 0 2 1 0 0 ++ triZ 2 0 0 0 1 0
    ++ triZ 10 0 11 0 10 1 ++ triZ 20 0 21 0 20 1 ++ triZ 30 0 31 0 30 1
    ++ triZ 40 0 41 0 40 1 ++ triZ 50 0 51 0 50 1

/-- Seven planar triangles for which the collapse loop runs out of
collapsible edges while five faces (more than the target 4) are still
live: the five fan faces over the shared edge lose every edge record
after two absorbing collapses. -/
def c9Input : List JNum :=
  triZ 0 0 1 0 0 1 ++ triZ 5 0 6 0 5 1
    ++ triZ 1 0 6 0 1 5 ++ triZ 1 0 6 0 2 5 ++ triZ 1 0 6 0 3 5
    ++ triZ 1 0 6 0 4 5 ++ triZ 1 0 6 0 5 5

/-- Two valid triangles around one degenerate triangle whose first two
corners coincide exactly (scenario C of the spec). -/
def c7Input : List JNum :=
  triZ 0 0 1 0 0 1 ++ triZ 2 0 2 0 3 1 ++ triZ 5 0 6 0 5 1

/-- A triangle of area 1/20000, below the 0.0001 area threshold, with a
nonzero cross product. -/
def c5Input : List JNum :=
  [⟨0, 1⟩, ⟨0, 1⟩, ⟨0, 1⟩, ⟨1, 100⟩, ⟨0, 1⟩, ⟨0, 1⟩, ⟨0, 1⟩, ⟨1, 100⟩, ⟨0, 1⟩]

/-- A single well-formed triangle, used to witness cost computation. -/
def c2Input : List JNum := triZ 0 0 3 0 0 3
/-- Pipeline state of fanInput, in literal form (proven equal to the computed state in the theorems below). -/
def fanPipe : SimState :=
  { vertices := [{ position := { x := { n := 0, d := 1 }, y := { n := 0, d := 1 }, z := { n := 0, d := 1 } }, faces := [0, 1, 2, 3, 4], edges := [0, 2, 4, 6, 8], quadric := { a11 := { n := 0, d := 1 }, a12 := { n := 0, d := 1 }, a13 := { n := 0, d := 1 }, a14 := { n := 0, d := 1 }, a22 := { n := 0, d := 1 }, a23 := { n := 0, d := 1 }, a24 := { n := 0, d := 1 }, a33 := { n := 5, d := 2 }, a34 := { n := 0, d := 1 }, a44 := { n := 0, d := 1 } }, deleted := false }, { position := { x := { n := 1, d := 1 }, y := { n := 0, d := 1 }, z := { n := 0, d := 1 } }, faces := [0, 4], edges := [0, 1, 9], quadric := { a11 := { n := 0, d := 1 }, a12 := { n := 0, d := 1 }, a13 := { n := 0, d := 1 }, a14 := { n := 0, d := 1 }, a22 := { n := 0, d := 1 }, a23 := { n := 0, d := 1 }, a24 := { n := 0, d := 1 }, a33 := { n := 1, d := 1 }, a34 := { n := 0, d := 1 }, a44 := { n := 0, d := 1 } }, deleted := false }, { position := { x := { n := 0, d := 1 }, y := { n := 1, d := 1 }, z := { n := 0, d := 1 } }, faces := [0, 1], edges := [1, 2, 3], quadric := { a11 := { n := 0, d := 1 }, a12 := { n := 0, d := 1 }, a13 := { n := 0, d := 1 }, a14 := { n := 0, d := 1 }, a22 := { n := 0, d := 1 }, a23 := { n := 0, d := 1 }, a24 := { n := 0, d := 1 }, a33 := { n := 1, d := 1 }, a34 := { n := 0, d := 1 }, a44 := { n := 0, d := 1 } }, deleted := false }, { position := { x := { n := -1, d := 1 }, y := { n := 0, d := 1 }, z := { n := 0, d := 1 } }, faces := [1, 2], edges := [3, 4, 5], quadric := { a11 := { n := 0, d := 1 }, a12 := { n := 0, d := 1 }, a13 := { n := 0, d := 1 }, a14 := { n := 0, d := 1 }, a22 := { n := 0, d := 1 }, a23 := { n := 0, d := 1 }, a24 := { n := 0, d := 1 }, a33 := { n := 1, d := 1 }, a34 := { n := 0, d := 1 }, a44 := { n := 0, d := 1 } }, deleted := false }, { position := { x := { n := 0, d := 1 }, y := { n := -1, d := 1 }, z := { n := 0, d := 1 } }, faces := [2, 3], edges := [5, 6, 7], quadric := { a11 := { n := 0, d := 1 }, a12 := { n := 0, d := 1 }, a13 := { n := 0, d := 1 }, a14 := { n := 0, d := 1 }, a22 := { n := 0, d := 1 }, a23 := { n := 0, d := 1 }, a24 := { n := 0, d := 1 }, a33 := { n := 1, d := 1 }, a34 := { n := 0, d := 1 }, a44 := { n := 0, d := 1 } }, deleted := false }, { position := { x := { n := 1, d := 1 }, y := { n := -1, d := 1 }, z := { n := 0, d := 1 } }, faces := [3, 4], edges := [7, 8, 9], quadric := { a11 := { n := 0, d := 1 }, a12 := { n := 0, d := 1 }, a13 := { n := 0, d := 1 }, a14 := { n := 0, d := 1 }, a22 := { n := 0, d := 1 }, a23 := { n := 0, d := 1 }, a24 := { n := 0, d := 1 }, a33 := { n := 1, d := 1 }, a34 := { n := 0, d := 1 }, a44 := { n := 0, d := 1 } }, deleted := false }], faces := [{ v0 := 0, v1 := 1, v2 := 2, deleted := false, normal := some { x := { n := 0, d := 1 }, y := { n := 0, d := 1 }, z := { n := 1, d := 1 } }, area := { n := 1, d := 2 } }, { v0 := 0, v1 := 2, v2 := 3, deleted := false, normal := some { x := { n := 0, d := 1 }, y := { n := 0, d := 1 }, z := { n := 1, d := 1 } }, area := { n := 1, d := 2 } }, { v0 := 0, v1 := 3, v2 := 4, deleted := false, normal := some { x := { n := 0, d := 1 }, y := { n := 0, d := 1 }, z := { n := 1, d := 1 } }, area := { n := 1, d := 2 } }, { v0 := 0, v1 := 4, v2 := 5, deleted := false, normal := some { x := { n := 0, d := 1 }, y := { n := 0, d := 1 }, z := { n := 1, d := 1 } }, area := { n := 1, d := 2 } }, { v0 := 0, v1 := 5, v2 := 1, deleted := false, normal := some { x := { n := 0, d := 1 }, y := { n := 0, d := 1 }, z := { n := 1, d := 1 } }, area := { n := 1, d := 2 } }], edges := [{ v0 := 0, v1 := 1, faces := [0, 4], cost := some { n := 0, d := 1 }, target := some { x := { n := 1, d := 2 }, y := { n := 0, d := 1 }, z := { n := 0, d := 1 } }, deleted := false }, { v0 := 1, v1 := 2, faces := [0], cost := some { n := 0, d := 1 }, target := some { x := { n := 1, d := 2 }, y := { n := 1, d := 2 }, z := { n := 0, d := 1 } }, deleted := false }, { v0 := 0, v1 := 2, faces := [0, 1], cost := some { n := 0, d := 1 }, target := some { x := { n := 0, d := 1 }, y := { n := 1, d := 2 }, z := { n := 0, d := 1 } }, deleted := false }, { v0 := 2, v1 := 3, faces := [1], cost := some { n := 0, d := 1 }, target := some { x := { n := -1, d := 2 }, y := { n := 1, d := 2 }, z := { n := 0, d := 1 } }, deleted := false }, { v0 := 0, v1 := 3, faces := [1, 2], cost := some { n := 0, d := 1 }, target := some { x := { n := -1, d := 2 }, y := { n := 0, d := 1 }, z := { n := 0, d := 1 } }, deleted := false }, { v0 := 3, v1 := 4, faces := [2], cost := some { n := 0, d := 1 }, target := some { x := { n := -1, d := 2 }, y := { n := -1, d := 2 }, z := { n := 0, d := 1 } }, deleted := false }, { v0 := 0, v1 := 4, faces := [2, 3], cost := some { n := 0, d := 1 }, target := some { x := { n := 0, d := 1 }, y := { n := -1, d := 2 }, z := { n := 0, d := 1 } }, deleted := false }, { v0 := 4, v1 := 5, faces := [3], cost := some { n := 0, d := 1 }, target := some { x := { n := 1, d := 2 }, y := { n := -1, d := 1 }, z := { n := 0, d := 1 } }, deleted := false }, { v0 := 0, v1 := 5, faces := [3, 4], cost := some { n := 0, d := 1 }, target := some { x := { n := 1, d := 2 }, y := { n := -1, d := 2 }, z := { n := 0, d := 1 } }, deleted := false }, { v0 := 1, v1 := 5, faces := [4], cost := some { n := 0, d := 1 }, target := some { x := { n := 1, d := 1 }, y := { n := -1, d := 2 }, z := { n := 0, d := 1 } }, deleted := false }] }

/-- State of the fan run after its single collapse. -/
def fanS1 : SimState :=
  { vertices := [{ position := { x := { n := 1, d := 2 }, y := { n := 0, d := 1 }, z := { n := 0, d := 1 } }, faces := [0, 1, 2, 3, 4], edges := [0, 2, 4, 6, 8], quadric := { a11 := { n := 0, d := 1 }, a12 := { n := 0, d := 1 }, a13 := { n := 0, d := 1 }, a14 := { n := 0, d := 1 }, a22 := { n := 0, d := 1 }, a23 := { n := 0, d := 1 }, a24 := { n := 0, d := 1 }, a33 := { n := 7, d := 2 }, a34 := { n := 0, d := 1 }, a44 := { n := 0, d := 1 } }, deleted := false }, { position := { x := { n := 1, d := 1 }, y := { n := 0, d := 1 }, z := { n := 0, d := 1 } }, faces := [0, 4], edges := [0, 1, 9], quadric := { a11 := { n := 0, d := 1 }, a12 := { n := 0, d := 1 }, a13 := { n := 0, d := 1 }, a14 := { n := 0, d := 1 }, a22 := { n := 0, d := 1 }, a23 := { n := 0, d := 1 }, a24 := { n := 0, d := 1 }, a33 := { n := 1, d := 1 }, a34 := { n := 0, d := 1 }, a44 := { n := 0, d := 1 } }, deleted := true }, { position := { x := { n := 0, d := 1 }, y := { n := 1, d := 1 }, z := { n := 0, d := 1 } }, faces := [0, 1], edges := [1, 2, 3], quadric := { a11 := { n := 0, d := 1 }, a12 := { n := 0, d := 1 }, a13 := { n := 0, d := 1 }, a14 := { n := 0, d := 1 }, a22 := { n := 0, d := 1 }, a23 := { n := 0, d := 1 }, a24 := { n := 0, d := 1 }, a33 := { n := 1, d := 1 }, a34 := { n := 0, d := 1 }, a44 := { n := 0, d := 1 } }, deleted := false }, { position := { x := { n := -1, d := 1 }, y := { n := 0, d := 1 }, z := { n := 0, d := 1 } }, faces := [1, 2], edges := [3, 4, 5], quadric := { a11 := { n := 0, d := 1 }, a12 := { n := 0, d := 1 }, a13 := { n := 0, d := 1 }, a14 := { n := 0, d := 1 }, a22 := { n := 0, d := 1 }, a23 := { n := 0, d := 1 }, a24 := { n := 0, d := 1 }, a33 := { n := 1, d := 1 }, a34 := { n := 0, d := 1 }, a44 := { n := 0, d := 1 } }, deleted := false }, { position := { x := { n := 0, d := 1 }, y := { n := -1, d := 1 }, z := { n := 0, d := 1 } }, faces := [2, 3], edges := [5, 6, 7], quadric := { a11 := { n := 0, d := 1 }, a12 := { n := 0, d := 1 }, a13 := { n := 0, d := 1 }, a14 := { n := 0, d := 1 }, a22 := { n := 0, d := 1 }, a23 := { n := 0, d := 1 }, a24 := { n := 0, d := 1 }, a33 := { n := 1, d := 1 }, a34 := { n := 0, d := 1 }, a44 := { n := 0, d := 1 } }, deleted := false }, { position := { x := { n := 1, d := 1 }, y := { n := -1, d := 1 }, z := { n := 0, d := 1 } }, faces := [3, 4], edges := [7, 8, 9], quadric := { a11 := { n := 0, d := 1 }, a12 := { n := 0, d := 1 }, a13 := { n := 0, d := 1 }, a14 := { n := 0, d := 1 }, a22 := { n := 0, d := 1 }, a23 := { n := 0, d := 1 }, a24 := { n := 0, d := 1 }, a33 := { n := 1, d := 1 }, a34 := { n := 0, d := 1 }, a44 := { n := 0, d := 1 } }, deleted := false }], faces := [{ v0 := 0, v1 := 1, v2 := 2, deleted := true, normal := some { x := { n := 0, d := 1 }, y := { n := 0, d := 1 }, z := { n := 1, d := 1 } }, area := { n := 1, d := 2 } }, { v0 := 0, v1 := 2, v2 := 3, deleted := false, normal := some { x := { n := 0, d := 1 }, y := { n := 0, d := 1 }, z := { n := 1, d := 1 } }, area := { n := 1, d := 2 } }, { v0 := 0, v1 := 3, v2 := 4, deleted := false, normal := some { x := { n := 0, d := 1 }, y := { n := 0, d := 1 }, z := { n := 1, d := 1 } }, area := { n := 1, d := 2 } }, { v0 := 0, v1 := 4, v2 := 5, deleted := false, normal := some { x := { n := 0, d := 1 }, y := { n := 0, d := 1 }, z := { n := 1, d := 1 } }, area := { n := 1, d := 2 } }, { v0 := 0, v1 := 5, v2 := 1, deleted := true, normal := some { x := { n := 0, d := 1 }, y := { n := 0, d := 1 }, z := { n := 1, d := 1 } }, area := { n := 1, d := 2 } }], edges := [{ v0 := 0, v1 := 1, faces := [0, 4], cost := some { n := 0, d := 1 }, target := some { x := { n := 1, d := 2 }, y := { n := 0, d := 1 }, z := { n := 0, d := 1 } }, deleted := true }, { v0 := 1, v1 := 2, faces := [0], cost := some { n := 0, d := 1 }, target := some { x := { n := 1, d := 2 }, y := { n := 1, d := 2 }, z := { n := 0, d := 1 } }, deleted := true }, { v0 := 0, v1 := 2, faces := [0, 1], cost := some { n := 0, d := 1 }, target := some { x := { n := 1, d := 4 }, y := { n := 1, d := 2 }, z := { n := 0, d := 1 } }, deleted := false }, { v0 := 2, v1 := 3, faces := [1], cost := some { n := 0, d := 1 }, target := some { x := { n := -1, d := 2 }, y := { n := 1, d := 2 }, z := { n := 0, d := 1 } }, deleted := false }, { v0 := 0, v1 := 3, faces := [1, 2], cost := some { n := 0, d := 1 }, target := some { x := { n := -1, d := 4 }, y := { n := 0, d := 1 }, z := { n := 0, d := 1 } }, deleted := false }, { v0 := 3, v1 := 4, faces := [2], cost := some { n := 0, d := 1 }, target := some { x := { n := -1, d := 2 }, y := { n := -1, d := 2 }, z := { n := 0, d := 1 } }, deleted := false }, { v0 := 0, v1 := 4, faces := [2, 3], cost := some { n := 0, d := 1 }, target := some { x := { n := 1, d := 4 }, y := { n := -1, d := 2 }, z := { n := 0, d := 1 } }, deleted := false }, { v0 := 4, v1 := 5, faces := [3], cost := some { n := 0, d := 1 }, target := some { x := { n := 1, d := 2 }, y := { n := -1, d := 1 }, z := { n := 0, d := 1 } }, deleted := false }, { v0 := 0, v1 := 5, faces := [3, 4], cost := some { n := 0, d := 1 }, target := some { x := { n := 3, d := 4 }, y := { n := -1, d := 2 }, z := { n := 0, d := 1 } }, deleted := false }, { v0 := 1, v1 := 5, faces := [4], cost := some { n := 0, d := 1 }, target := some { x := { n := 1, d := 1 }, y := { n := -1, d := 2 }, z := { n := 0, d := 1 } }, deleted := true }] }

/-- Pipeline state of c3Input, in literal form. -/
def c3Pipe : SimState :=
  { vertices := [{ position := { x := { n := 0, d := 1 }, y := { n := 0, d := 1 }, z := { n := 0, d := 1 } }, faces := [0, 1, 2], edges := [0, 2, 4, 5], quadric := { a11 := { n := 0, d := 1 }, a12 := { n := 0, d := 1 }, a13 := { n := 0, d := 1 }, a14 := { n := 0, d := 1 }, a22 := { n := 0, d := 1 }, a23 := { n := 0, d := 1 }, a24 := { n := 0, d := 1 }, a33 := { n := 3, d := 2 }, a34 := { n := 0, d := 1 }, a44 := { n := 0, d := 1 } }, deleted := false }, { position := { x := { n := 1, d := 1 }, y := { n := 0, d := 1 }, z := { n := 0, d := 1 } }, faces := [0, 2], edges := [0, 1, 6], quadric := { a11 := { n := 0, d := 1 }, a12 := { n := 0, d := 1 }, a13 := { n := 0, d := 1 }, a14 := { n := 0, d := 1 }, a22 := { n := 0, d := 1 }, a23 := { n := 0, d := 1 }, a24 := { n := 0, d := 1 }, a33 := { n := 1, d := 2 }, a34 := { n := 0, d := 1 }, a44 := { n := 0, d := 1 } }, deleted := false }, { position := { x := { n := 0, d := 1 }, y := { n := 1, d := 1 }, z := { n := 0, d := 1 } }, faces := [0], edges := [1, 2], quadric := { a11 := { n := 0, d := 1 }, a12 := { n := 0, d := 1 }, a13 := { n := 0, d := 1 }, a14 := { n := 0, d := 1 }, a22 := { n := 0, d := 1 }, a23 := { n := 0, d := 1 }, a24 := { n := 0, d := 1 }, a33 := { n := 1, d := 2 }, a34 := { n := 0, d := 1 }, a44 := { n := 0, d := 1 } }, deleted := false }, { position := { x := { n := 2, d := 1 }, y := { n := 0, d := 1 }, z := { n := 0, d := 1 } }, faces := [1, 2], edges := [3, 5, 6], quadric := { a11 := { n := 0, d := 1 }, a12 := { n := 0, d := 1 }, a13 := { n := 0, d := 1 }, a14 := { n := 0, d := 1 }, a22 := { n := 0, d := 1 }, a23 := { n := 0, d := 1 }, a24 := { n := 0, d := 1 }, a33 := { n := 1, d := 1 }, a34 := { n := 0, d := 1 }, a44 := { n := 0, d := 1 } }, deleted := false }, { position := { x := { n := 2, d := 1 }, y := { n := 1, d := 1 }, z := { n := 0, d := 1 } }, faces := [1], edges := [3, 4], quadric := { a11 := { n := 0, d := 1 }, a12 := { n := 0, d := 1 }, a13 := { n := 0, d := 1 }, a14 := { n := 0, d := 1 }, a22 := { n := 0, d := 1 }, a23 := { n := 0, d := 1 }, a24 := { n := 0, d := 1 }, a33 := { n := 1, d := 1 }, a34 := { n := 0, d := 1 }, a44 := { n := 0, d := 1 } }, deleted := false }, { position := { x := { n := 10, d := 1 }, y := { n := 0, d := 1 }, z := { n := 0, d := 1 } }, faces := [3], edges := [7, 9], quadric := { a11 := { n := 0, d := 1 }, a12 := { n := 0, d := 1 }, a13 := { n := 0, d := 1 }, a14 := { n := 0, d := 1 }, a22 := { n := 0, d := 1 }, a23 := { n := 0, d := 1 }, a24 := { n := 0, d := 1 }, a33 := { n := 1, d := 2 }, a34 := { n := 0, d := 1 }, a44 := { n := 0, d := 1 } }, deleted := false }, { position := { x := { n := 11, d := 1 }, y := { n := 0, d := 1 }, z := { n := 0, d := 1 } }, faces := [3], edges := [7, 8], quadric := { a11 := { n := 0, d := 1 }, a12 := { n := 0, d := 1 }, a13 := { n := 0, d := 1 }, a14 := { n := 0, d := 1 }, a22 := { n := 0, d := 1 }, a23 := { n := 0, d := 1 }, a24 := { n := 0, d := 1 }, a33 := { n := 1, d := 2 }, a34 := { n := 0, d := 1 }, a44 := { n := 0, d := 1 } }, deleted := false }, { position := { x := { n := 10, d := 1 }, y := { n := 1, d := 1 }, z := { n := 0, d := 1 } }, faces := [3], edges := [8, 9], quadric := { a11 := { n := 0, d := 1 }, a12 := { n := 0, d := 1 }, a13 := { n := 0, d := 1 }, a14 := { n := 0, d := 1 }, a22 := { n := 0, d := 1 }, a23 := { n := 0, d := 1 }, a24 := { n := 0, d := 1 }, a33 := { n := 1, d := 2 }, a34 := { n := 0, d := 1 }, a44 := { n := 0, d := 1 } }, deleted := false }, { position := { x := { n := 20, d := 1 }, y := { n := 0, d := 1 }, z := { n := 0, d := 1 } }, faces := [4], edges := [10, 12], quadric := { a11 := { n := 0, d := 1 }, a12 := { n := 0, d := 1 }, a13 := { n := 0, d := 1 }, a14 := { n := 0, d := 1 }, a22 := { n := 0, d := 1 }, a23 := { n := 0, d := 1 }, a24 := { n := 0, d := 1 }, a33 := { n := 1, d := 2 }, a34 := { n := 0, d := 1 }, a44 := { n := 0, d := 1 } }, deleted := false }, { position := { x := { n := 21, d := 1 }, y := { n := 0, d := 1 }, z := { n := 0, d := 1 } }, faces := [4], edges := [10, 11], quadric := { a11 := { n := 0, d := 1 }, a12 := { n := 0, d := 1 }, a13 := { n := 0, d := 1 }, a14 := { n := 0, d := 1 }, a22 := { n := 0, d := 1 }, a23 := { n := 0, d := 1 }, a24 := { n := 0, d := 1 }, a33 := { n := 1, d := 2 }, a34 := { n := 0, d := 1 }, a44 := { n := 0, d := 1 } }, deleted := false }, { position := { x := { n := 20, d := 1 }, y := { n := 1, d := 1 }, z := { n := 0, d := 1 } }, faces := [4], edges := [11, 12], quadric := { a11 := { n := 0, d := 1 }, a12 := { n := 0, d := 1 }, a13 := { n := 0, d := 1 }, a14 := { n := 0, d := 1 }, a22 := { n := 0, d := 1 }, a23 := { n := 0, d := 1 }, a24 := { n := 0, d := 1 }, a33 := { n := 1, d := 2 }, a34 := { n := 0, d := 1 }, a44 := { n := 0, d := 1 } }, deleted := false }, { position := { x := { n := 30, d := 1 }, y := { n := 0, d := 1 }, z := { n := 0, d := 1 } }, faces := [5], edges := [13, 15], quadric := { a11 := { n := 0, d := 1 }, a12 := { n := 0, d := 1 }, a13 := { n := 0, d := 1 }, a14 := { n := 0, d := 1 }, a22 := { n := 0, d := 1 }, a23 := { n := 0, d := 1 }, a24 := { n := 0, d := 1 }, a33 := { n := 1, d := 2 }, a34 := { n := 0, d := 1 }, a44 := { n := 0, d := 1 } }, deleted := false }, { position := { x := { n := 31, d := 1 }, y := { n := 0, d := 1 }, z := { n := 0, d := 1 } }, faces := [5], edges := [13, 14], quadric := { a11 := { n := 0, d := 1 }, a12 := { n := 0, d := 1 }, a13 := { n := 0, d := 1 }, a14 := { n := 0, d := 1 }, a22 := { n := 0, d := 1 }, a23 := { n := 0, d := 1 }, a24 := { n := 0, d := 1 }, a33 := { n := 1, d := 2 }, a34 := { n := 0, d := 1 }, a44 := { n := 0, d := 1 } }, deleted := false }, { position := { x := { n := 30, d := 1 }, y := { n := 1, d := 1 }, z := { n := 0, d := 1 } }, faces := [5], edges := [14, 15], quadric := { a11 := { n := 0, d := 1 }, a12 := { n := 0, d := 1 }, a13 := { n := 0, d := 1 }, a14 := { n := 0, d := 1 }, a22 := { n := 0, d := 1 }, a23 := { n := 0, d := 1 }, a24 := { n := 0, d := 1 }, a33 := { n := 1, d := 2 }, a34 := { n := 0, d := 1 }, a44 := { n := 0, d := 1 } }, deleted := false }, { position := { x := { n := 40, d := 1 }, y := { n := 0, d := 1 }, z := { n := 0, d := 1 } }, faces := [6], edges := [16, 18], quadric := { a11 := { n := 0, d := 1 }, a12 := { n := 0, d := 1 }, a13 := { n := 0, d := 1 }, a14 := { n := 0, d := 1 }, a22 := { n := 0, d := 1 }, a23 := { n := 0, d := 1 }, a24 := { n := 0, d := 1 }, a33 := { n := 1, d := 2 }, a34 := { n := 0, d := 1 }, a44 := { n := 0, d := 1 } }, deleted := false }, { position := { x := { n := 41, d := 1 }, y := { n := 0, d := 1 }, z := { n := 0, d := 1 } }, faces := [6], edges := [16, 17], quadric := { a11 := { n := 0, d := 1 }, a12 := { n := 0, d := 1 }, a13 := { n := 0, d := 1 }, a14 := { n := 0, d := 1 }, a22 := { n := 0, d := 1 }, a23 := { n := 0, d := 1 }, a24 := { n := 0, d := 1 }, a33 := { n := 1, d := 2 }, a34 := { n := 0, d := 1 }, a44 := { n := 0, d := 1 } }, deleted := false }, { position := { x := { n := 40, d := 1 }, y := { n := 1, d := 1 }, z := { n := 0, d := 1 } }, faces := [6], edges := [17, 18], quadric := { a11 := { n := 0, d := 1 }, a12 := { n := 0, d := 1 }, a13 := { n := 0, d := 1 }, a14 := { n := 0, d := 1 }, a22 := { n := 0, d := 1 }, a23 := { n := 0, d := 1 }, a24 := { n := 0, d := 1 }, a33 := { n := 1, d := 2 }, a34 := { n := 0, d := 1 }, a44 := { n := 0, d := 1 } }, deleted := false }, { position := { x := { n := 50, d := 1 }, y := { n := 0, d := 1 }, z := { n := 0, d := 1 } }, faces := [7], edges := [19, 21], quadric := { a11 := { n := 0, d := 1 }, a12 := { n := 0, d := 1 }, a13 := { n := 0, d := 1 }, a14 := { n := 0, d := 1 }, a22 := { n := 0, d := 1 }, a23 := { n := 0, d := 1 }, a24 := { n := 0, d := 1 }, a33 := { n := 1, d := 2 }, a34 := { n := 0, d := 1 }, a44 := { n := 0, d := 1 } }, deleted := false }, { position := { x := { n := 51, d := 1 }, y := { n := 0, d := 1 }, z := { n := 0, d := 1 } }, faces := [7], edges := [19, 20], quadric := { a11 := { n := 0, d := 1 }, a12 := { n := 0, d := 1 }, a13 := { n := 0, d := 1 }, a14 := { n := 0, d := 1 }, a22 := { n := 0, d := 1 }, a23 := { n := 0, d := 1 }, a24 := { n := 0, d := 1 }, a33 := { n := 1, d := 2 }, a34 := { n := 0, d := 1 }, a44 := { n := 0, d := 1 } }, deleted := false }, { position := { x := { n := 50, d := 1 }, y := { n := 1, d := 1 }, z := { n := 0, d := 1 } }, faces := [7], edges := [20, 21], quadric := { a11 := { n := 0, d := 1 }, a12 := { n := 0, d := 1 }, a13 := { n := 0, d := 1 }, a14 := { n := 0, d := 1 }, a22 := { n := 0, d := 1 }, a23 := { n := 0, d := 1 }, a24 := { n := 0, d := 1 }, a33 := { n := 1, d := 2 }, a34 := { n := 0, d := 1 }, a44 := { n := 0, d := 1 } }, deleted := false }], faces := [{ v0 := 0, v1 := 1, v2 := 2, deleted := false, normal := some { x := { n := 0, d := 1 }, y := { n := 0, d := 1 }, z := { n := 1, d := 1 } }, area := { n := 1, d := 2 } }, { v0 := 3, v1 := 4, v2 := 0, deleted := false, normal := some { x := { n := 0, d := 1 }, y := { n := 0, d := 1 }, z := { n := 1, d := 1 } }, area := { n := 1, d := 1 } }, { v0 := 3, v1 := 0, v2 := 1, deleted := false, normal := some { x := { n := 0, d := 1 }, y := { n := 0, d := 1 }, z := { n := 0, d := 1 } }, area := { n := 0, d := 1 } }, { v0 := 5, v1 := 6, v2 := 7, deleted := false, normal := some { x := { n := 0, d := 1 }, y := { n := 0, d := 1 }, z := { n := 1, d := 1 } }, area := { n := 1, d := 2 } }, { v0 := 8, v1 := 9, v2 := 10, deleted := false, normal := some { x := { n := 0, d := 1 }, y := { n := 0, d := 1 }, z := { n := 1, d := 1 } }, area := { n := 1, d := 2 } }, { v0 := 11, v1 := 12, v2 := 13, deleted := false, normal := some { x := { n := 0, d := 1 }, y := { n := 0, d := 1 }, z := { n := 1, d := 1 } }, area := { n := 1, d := 2 } }, { v0 := 14, v1 := 15, v2 := 16, deleted := false, normal := some { x := { n := 0, d := 1 }, y := { n := 0, d := 1 }, z := { n := 1, d := 1 } }, area := { n := 1, d := 2 } }, { v0 := 17, v1 := 18, v2 := 19, deleted := false, normal := some { x := { n := 0, d := 1 }, y := { n := 0, d := 1 }, z := { n := 1, d := 1 } }, area := { n := 1, d := 2 } }], edges := [{ v0 := 0, v1 := 1, faces := [0, 2], cost := some { n := 0, d := 1 }, target := some { x := { n := 1, d := 2 }, y := { n := 0, d := 1 }, z := { n := 0, d := 1 } }, deleted := false }, { v0 := 1, v1 := 2, faces := [0], cost := some { n := 0, d := 1 }, target := some { x := { n := 1, d := 2 }, y := { n := 1, d := 2 }, z := { n := 0, d := 1 } }, deleted := false }, { v0 := 0, v1 := 2, faces := [0], cost := some { n := 0, d := 1 }, target := some { x := { n := 0, d := 1 }, y := { n := 1, d := 2 }, z := { n := 0, d := 1 } }, deleted := false }, { v0 := 3, v1 := 4, faces := [1], cost := some { n := 0, d := 1 }, target := some { x := { n := 2, d := 1 }, y := { n := 1, d := 2 }, z := { n := 0, d := 1 } }, deleted := false }, { v0 := 0, v1 := 4, faces := [1], cost := some { n := 0, d := 1 }, target := some { x := { n := 1, d := 1 }, y := { n := 1, d := 2 }, z := { n := 0, d := 1 } }, deleted := false }, { v0 := 0, v1 := 3, faces := [1, 2], cost := some { n := 0, d := 1 }, target := some { x := { n := 1, d := 1 }, y := { n := 0, d := 1 }, z := { n := 0, d := 1 } }, deleted := false }, { v0 := 1, v1 := 3, faces := [2], cost := some { n := 0, d := 1 }, target := some { x := { n := 3, d := 2 }, y := { n := 0, d := 1 }, z := { n := 0, d := 1 } }, deleted := false }, { v0 := 5, v1 := 6, faces := [3], cost := some { n := 0, d := 1 }, target := some { x := { n := 21, d := 2 }, y := { n := 0, d := 1 }, z := { n := 0, d := 1 } }, deleted := false }, { v0 := 6, v1 := 7, faces := [3], cost := some { n := 0, d := 1 }, target := some { x := { n := 21, d := 2 }, y := { n := 1, d := 2 }, z := { n := 0, d := 1 } }, deleted := false }, { v0 := 5, v1 := 7, faces := [3], cost := some { n := 0, d := 1 }, target := some { x := { n := 10, d := 1 }, y := { n := 1, d := 2 }, z := { n := 0, d := 1 } }, deleted := false }, { v0 := 8, v1 := 9, faces := [4], cost := some { n := 0, d := 1 }, target := some { x := { n := 41, d := 2 }, y := { n := 0, d := 1 }, z := { n := 0, d := 1 } }, deleted := false }, { v0 := 9, v1 := 10, faces := [4], cost := some { n := 0, d := 1 }, target := some { x := { n := 41, d := 2 }, y := { n := 1, d := 2 }, z := { n := 0, d := 1 } }, deleted := false }, { v0 := 8, v1 := 10, faces := [4], cost := some { n := 0, d := 1 }, target := some { x := { n := 20, d := 1 }, y := { n := 1, d := 2 }, z := { n := 0, d := 1 } }, deleted := false }, { v0 := 11, v1 := 12, faces := [5], cost := some { n := 0, d := 1 }, target := some { x := { n := 61, d := 2 }, y := { n := 0, d := 1 }, z := { n := 0, d := 1 } }, deleted := false }, { v0 := 12, v1 := 13, faces := [5], cost := some { n := 0, d := 1 }, target := some { x := { n := 61, d := 2 }, y := { n := 1, d := 2 }, z := { n := 0, d := 1 } }, deleted := false }, { v0 := 11, v1 := 13, faces := [5], cost := some { n := 0, d := 1 }, target := some { x := { n := 30, d := 1 }, y := { n := 1, d := 2 }, z := { n := 0, d := 1 } }, deleted := false }, { v0 := 14, v1 := 15, faces := [6], cost := some { n := 0, d := 1 }, target := some { x := { n := 81, d := 2 }, y := { n := 0, d := 1 }, z := { n := 0, d := 1 } }, deleted := false }, { v0 := 15, v1 := 16, faces := [6], cost := some { n := 0, d := 1 }, target := some { x := { n := 81, d := 2 }, y := { n := 1, d := 2 }, z := { n := 0, d := 1 } }, deleted := false }, { v0 := 14, v1 := 16, faces := [6], cost := some { n := 0, d := 1 }, target := some { x := { n := 40, d := 1 }, y := { n := 1, d := 2 }, z := { n := 0, d := 1 } }, deleted := false }, { v0 := 17, v1 := 18, faces := [7], cost := some { n := 0, d := 1 }, target := some { x := { n := 101, d := 2 }, y := { n := 0, d := 1 }, z := { n := 0, d := 1 } }, deleted := false }, { v0 := 18, v1 := 19, faces := [7], cost := some { n := 0, d := 1 }, target := some { x := { n := 101, d := 2 }, y := { n := 1, d := 2 }, z := { n := 0, d := 1 } }, deleted := false }, { v0 := 17, v1 := 19, faces := [7], cost := some { n := 0, d := 1 }, target := some { x := { n := 50, d := 1 }, y := { n := 1, d := 2 }, z := { n := 0, d := 1 } }, deleted := false }] }

/-- State of the c3 run after its first collapse. -/
def c3S1 : SimState :=
  { vertices := [{ position := { x := { n := 1, d := 2 }, y := { n := 0, d := 1 }, z := { n := 0, d := 1 } }, faces := [0, 1, 2], edges := [0, 2, 4, 5], quadric := { a11 := { n := 0, d := 1 }, a12 := { n := 0, d := 1 }, a13 := { n := 0, d := 1 }, a14 := { n := 0, d := 1 }, a22 := { n := 0, d := 1 }, a23 := { n := 0, d := 1 }, a24 := { n := 0, d := 1 }, a33 := { n := 2, d := 1 }, a34 := { n := 0, d := 1 }, a44 := { n := 0, d := 1 } }, deleted := false }, { position := { x := { n := 1, d := 1 }, y := { n := 0, d := 1 }, z := { n := 0, d := 1 } }, faces := [0, 2], edges := [0, 1, 6], quadric := { a11 := { n := 0, d := 1 }, a12 := { n := 0, d := 1 }, a13 := { n := 0, d := 1 }, a14 := { n := 0, d := 1 }, a22 := { n := 0, d := 1 }, a23 := { n := 0, d := 1 }, a24 := { n := 0, d := 1 }, a33 := { n := 1, d := 2 }, a34 := { n := 0, d := 1 }, a44 := { n := 0, d := 1 } }, deleted := true }, { position := { x := { n := 0, d := 1 }, y := { n := 1, d := 1 }, z := { n := 0, d := 1 } }, faces := [0], edges := [1, 2], quadric := { a11 := { n := 0, d := 1 }, a12 := { n := 0, d := 1 }, a13 := { n := 0, d := 1 }, a14 := { n := 0, d := 1 }, a22 := { n := 0, d := 1 }, a23 := { n := 0, d := 1 }, a24 := { n := 0, d := 1 }, a33 := { n := 1, d := 2 }, a34 := { n := 0, d := 1 }, a44 := { n := 0, d := 1 } }, deleted := false }, { position := { x := { n := 2, d := 1 }, y := { n := 0, d := 1 }, z := { n := 0, d := 1 } }, faces := [1, 2], edges := [3, 5, 6], quadric := { a11 := { n := 0, d := 1 }, a12 := { n := 0, d := 1 }, a13 := { n := 0, d := 1 }, a14 := { n := 0, d := 1 }, a22 := { n := 0, d := 1 }, a23 := { n := 0, d := 1 }, a24 := { n := 0, d := 1 }, a33 := { n := 1, d := 1 }, a34 := { n := 0, d := 1 }, a44 := { n := 0, d := 1 } }, deleted := false }, { position := { x := { n := 2, d := 1 }, y := { n := 1, d := 1 }, z := { n := 0, d := 1 } }, faces := [1], edges := [3, 4], quadric := { a11 := { n := 0, d := 1 }, a12 := { n := 0, d := 1 }, a13 := { n := 0, d := 1 }, a14 := { n := 0, d := 1 }, a22 := { n := 0, d := 1 }, a23 := { n := 0, d := 1 }, a24 := { n := 0, d := 1 }, a33 := { n := 1, d := 1 }, a34 := { n := 0, d := 1 }, a44 := { n := 0, d := 1 } }, deleted := false }, { position := { x := { n := 10, d := 1 }, y := { n := 0, d := 1 }, z := { n := 0, d := 1 } }, faces := [3], edges := [7, 9], quadric := { a11 := { n := 0, d := 1 }, a12 := { n := 0, d := 1 }, a13 := { n := 0, d := 1 }, a14 := { n := 0, d := 1 }, a22 := { n := 0, d := 1 }, a23 := { n := 0, d := 1 }, a24 := { n := 0, d := 1 }, a33 := { n := 1, d := 2 }, a34 := { n := 0, d := 1 }, a44 := { n := 0, d := 1 } }, deleted := false }, { position := { x := { n := 11, d := 1 }, y := { n := 0, d := 1 }, z := { n := 0, d := 1 } }, faces := [3], edges := [7, 8], quadric := { a11 := { n := 0, d := 1 }, a12 := { n := 0, d := 1 }, a13 := { n := 0, d := 1 }, a14 := { n := 0, d := 1 }, a22 := { n := 0, d := 1 }, a23 := { n := 0, d := 1 }, a24 := { n := 0, d := 1 }, a33 := { n := 1, d := 2 }, a34 := { n := 0, d := 1 }, a44 := { n := 0, d := 1 } }, deleted := false }, { position := { x := { n := 10, d := 1 }, y := { n := 1, d := 1 }, z := { n := 0, d := 1 } }, faces := [3], edges := [8, 9], quadric := { a11 := { n := 0, d := 1 }, a12 := { n := 0, d := 1 }, a13 := { n := 0, d := 1 }, a14 := { n := 0, d := 1 }, a22 := { n := 0, d := 1 }, a23 := { n := 0, d := 1 }, a24 := { n := 0, d := 1 }, a33 := { n := 1, d := 2 }, a34 := { n := 0, d := 1 }, a44 := { n := 0, d := 1 } }, deleted := false }, { position := { x := { n := 20, d := 1 }, y := { n := 0, d := 1 }, z := { n := 0, d := 1 } }, faces := [4], edges := [10, 12], quadric := { a11 := { n := 0, d := 1 }, a12 := { n := 0, d := 1 }, a13 := { n := 0, d := 1 }, a14 := { n := 0, d := 1 }, a22 := { n := 0, d := 1 }, a23 := { n := 0, d := 1 }, a24 := { n := 0, d := 1 }, a33 := { n := 1, d := 2 }, a34 := { n := 0, d := 1 }, a44 := { n := 0, d := 1 } }, deleted := false }, { position := { x := { n := 21, d := 1 }, y := { n := 0, d := 1 }, z := { n := 0, d := 1 } }, faces := [4], edges := [10, 11], quadric := { a11 := { n := 0, d := 1 }, a12 := { n := 0, d := 1 }, a13 := { n := 0, d := 1 }, a14 := { n := 0, d := 1 }, a22 := { n := 0, d := 1 }, a23 := { n := 0, d := 1 }, a24 := { n := 0, d := 1 }, a33 := { n := 1, d := 2 }, a34 := { n := 0, d := 1 }, a44 := { n := 0, d := 1 } }, deleted := false }, { position := { x := { n := 20, d := 1 }, y := { n := 1, d := 1 }, z := { n := 0, d := 1 } }, faces := [4], edges := [11, 12], quadric := { a11 := { n := 0, d := 1 }, a12 := { n := 0, d := 1 }, a13 := { n := 0, d := 1 }, a14 := { n := 0, d := 1 }, a22 := { n := 0, d := 1 }, a23 := { n := 0, d := 1 }, a24 := { n := 0, d := 1 }, a33 := { n := 1, d := 2 }, a34 := { n := 0, d := 1 }, a44 := { n := 0, d := 1 } }, deleted := false }, { position := { x := { n := 30, d := 1 }, y := { n := 0, d := 1 }, z := { n := 0, d := 1 } }, faces := [5], edges := [13, 15], quadric := { a11 := { n := 0, d := 1 }, a12 := { n := 0, d := 1 }, a13 := { n := 0, d := 1 }, a14 := { n := 0, d := 1 }, a22 := { n := 0, d := 1 }, a23 := { n := 0, d := 1 }, a24 := { n := 0, d := 1 }, a33 := { n := 1, d := 2 }, a34 := { n := 0, d := 1 }, a44 := { n := 0, d := 1 } }, deleted := false }, { position := { x := { n := 31, d := 1 }, y := { n := 0, d := 1 }, z := { n := 0, d := 1 } }, faces := [5], edges := [13, 14], quadric := { a11 := { n := 0, d := 1 }, a12 := { n := 0, d := 1 }, a13 := { n := 0, d := 1 }, a14 := { n := 0, d := 1 }, a22 := { n := 0, d := 1 }, a23 := { n := 0, d := 1 }, a24 := { n := 0, d := 1 }, a33 := { n := 1, d := 2 }, a34 := { n := 0, d := 1 }, a44 := { n := 0, d := 1 } }, deleted := false }, { position := { x := { n := 30, d := 1 }, y := { n := 1, d := 1 }, z := { n := 0, d := 1 } }, faces := [5], edges := [14, 15], quadric := { a11 := { n := 0, d := 1 }, a12 := { n := 0, d := 1 }, a13 := { n := 0, d := 1 }, a14 := { n := 0, d := 1 }, a22 := { n := 0, d := 1 }, a23 := { n := 0, d := 1 }, a24 := { n := 0, d := 1 }, a33 := { n := 1, d := 2 }, a34 := { n := 0, d := 1 }, a44 := { n := 0, d := 1 } }, deleted := false }, { position := { x := { n := 40, d := 1 }, y := { n := 0, d := 1 }, z := { n := 0, d := 1 } }, faces := [6], edges := [16, 18], quadric := { a11 := { n := 0, d := 1 }, a12 := { n := 0, d := 1 }, a13 := { n := 0, d := 1 }, a14 := { n := 0, d := 1 }, a22 := { n := 0, d := 1 }, a23 := { n := 0, d := 1 }, a24 := { n := 0, d := 1 }, a33 := { n := 1, d := 2 }, a34 := { n := 0, d := 1 }, a44 := { n := 0, d := 1 } }, deleted := false }, { position := { x := { n := 41, d := 1 }, y := { n := 0, d := 1 }, z := { n := 0, d := 1 } }, faces := [6], edges := [16, 17], quadric := { a11 := { n := 0, d := 1 }, a12 := { n := 0, d := 1 }, a13 := { n := 0, d := 1 }, a14 := { n := 0, d := 1 }, a22 := { n := 0, d := 1 }, a23 := { n := 0, d := 1 }, a24 := { n := 0, d := 1 }, a33 := { n := 1, d := 2 }, a34 := { n := 0, d := 1 }, a44 := { n := 0, d := 1 } }, deleted := false }, { position := { x := { n := 40, d := 1 }, y := { n := 1, d := 1 }, z := { n := 0, d := 1 } }, faces := [6], edges := [17, 18], quadric := { a11 := { n := 0, d := 1 }, a12 := { n := 0, d := 1 }, a13 := { n := 0, d := 1 }, a14 := { n := 0, d := 1 }, a22 := { n := 0, d := 1 }, a23 := { n := 0, d := 1 }, a24 := { n := 0, d := 1 }, a33 := { n := 1, d := 2 }, a34 := { n := 0, d := 1 }, a44 := { n := 0, d := 1 } }, deleted := false }, { position := { x := { n := 50, d := 1 }, y := { n := 0, d := 1 }, z := { n := 0, d := 1 } }, faces := [7], edges := [19, 21], quadric := { a11 := { n := 0, d := 1 }, a12 := { n := 0, d := 1 }, a13 := { n := 0, d := 1 }, a14 := { n := 0, d := 1 }, a22 := { n := 0, d := 1 }, a23 := { n := 0, d := 1 }, a24 := { n := 0, d := 1 }, a33 := { n := 1, d := 2 }, a34 := { n := 0, d := 1 }, a44 := { n := 0, d := 1 } }, deleted := false }, { position := { x := { n := 51, d := 1 }, y := { n := 0, d := 1 }, z := { n := 0, d := 1 } }, faces := [7], edges := [19, 20], quadric := { a11 := { n := 0, d := 1 }, a12 := { n := 0, d := 1 }, a13 := { n := 0, d := 1 }, a14 := { n := 0, d := 1 }, a22 := { n := 0, d := 1 }, a23 := { n := 0, d := 1 }, a24 := { n := 0, d := 1 }, a33 := { n := 1, d := 2 }, a34 := { n := 0, d := 1 }, a44 := { n := 0, d := 1 } }, deleted := false }, { position := { x := { n := 50, d := 1 }, y := { n := 1, d := 1 }, z := { n := 0, d := 1 } }, faces := [7], edges := [20, 21], quadric := { a11 := { n := 0, d := 1 }, a12 := { n := 0, d := 1 }, a13 := { n := 0, d := 1 }, a14 := { n := 0, d := 1 }, a22 := { n := 0, d := 1 }, a23 := { n := 0, d := 1 }, a24 := { n := 0, d := 1 }, a33 := { n := 1, d := 2 }, a34 := { n := 0, d := 1 }, a44 := { n := 0, d := 1 } }, deleted := false }], faces := [{ v0 := 0, v1 := 1, v2 := 2, deleted := true, normal := some { x := { n := 0, d := 1 }, y := { n := 0, d := 1 }, z := { n := 1, d := 1 } }, area := { n := 1, d := 2 } }, { v0 := 3, v1 := 4, v2 := 0, deleted := false, normal := some { x := { n := 0, d := 1 }, y := { n := 0, d := 1 }, z := { n := 1, d := 1 } }, area := { n := 1, d := 1 } }, { v0 := 3, v1 := 0, v2 := 1, deleted := true, normal := some { x := { n := 0, d := 1 }, y := { n := 0, d := 1 }, z := { n := 0, d := 1 } }, area := { n := 0, d := 1 } }, { v0 := 5, v1 := 6, v2 := 7, deleted := false, normal := some { x := { n := 0, d := 1 }, y := { n := 0, d := 1 }, z := { n := 1, d := 1 } }, area := { n := 1, d := 2 } }, { v0 := 8, v1 := 9, v2 := 10, deleted := false, normal := some { x := { n := 0, d := 1 }, y := { n := 0, d := 1 }, z := { n := 1, d := 1 } }, area := { n := 1, d := 2 } }, { v0 := 11, v1 := 12, v2 := 13, deleted := false, normal := some { x := { n := 0, d := 1 }, y := { n := 0, d := 1 }, z := { n := 1, d := 1 } }, area := { n := 1, d := 2 } }, { v0 := 14, v1 := 15, v2 := 16, deleted := false, normal := some { x := { n := 0, d := 1 }, y := { n := 0, d := 1 }, z := { n := 1, d := 1 } }, area := { n := 1, d := 2 } }, { v0 := 17, v1 := 18, v2 := 19, deleted := false, normal := some { x := { n := 0, d := 1 }, y := { n := 0, d := 1 }, z := { n := 1, d := 1 } }, area := { n := 1, d := 2 } }], edges := [{ v0 := 0, v1 := 1, faces := [0, 2], cost := some { n := 0, d := 1 }, target := some { x := { n := 1, d := 2 }, y := { n := 0, d := 1 }, z := { n := 0, d := 1 } }, deleted := true }, { v0 := 1, v1 := 2, faces := [0], cost := some { n := 0, d := 1 }, target := some { x := { n := 1, d := 2 }, y := { n := 1, d := 2 }, z := { n := 0, d := 1 } }, deleted := false }, { v0 := 0, v1 := 2, faces := [0], cost := some { n := 0, d := 1 }, target := some { x := { n := 1, d := 4 }, y := { n := 1, d := 2 }, z := { n := 0, d := 1 } }, deleted := false }, { v0 := 3, v1 := 4, faces := [1], cost := some { n := 0, d := 1 }, target := some { x := { n := 2, d := 1 }, y := { n := 1, d := 2 }, z := { n := 0, d := 1 } }, deleted := false }, { v0 := 0, v1 := 4, faces := [1], cost := some { n := 0, d := 1 }, target := some { x := { n := 5, d := 4 }, y := { n := 1, d := 2 }, z := { n := 0, d := 1 } }, deleted := false }, { v0 := 0, v1 := 3, faces := [1, 2], cost := some { n := 0, d := 1 }, target := some { x := { n := 5, d := 4 }, y := { n := 0, d := 1 }, z := { n := 0, d := 1 } }, deleted := false }, { v0 := 1, v1 := 3, faces := [2], cost := some { n := 0, d := 1 }, target := some { x := { n := 3, d := 2 }, y := { n := 0, d := 1 }, z := { n := 0, d := 1 } }, deleted := true }, { v0 := 5, v1 := 6, faces := [3], cost := some { n := 0, d := 1 }, target := some { x := { n := 21, d := 2 }, y := { n := 0, d := 1 }, z := { n := 0, d := 1 } }, deleted := false }, { v0 := 6, v1 := 7, faces := [3], cost := some { n := 0, d := 1 }, target := some { x := { n := 21, d := 2 }, y := { n := 1, d := 2 }, z := { n := 0, d := 1 } }, deleted := false }, { v0 := 5, v1 := 7, faces := [3], cost := some { n := 0, d := 1 }, target := some { x := { n := 10, d := 1 }, y := { n := 1, d := 2 }, z := { n := 0, d := 1 } }, deleted := false }, { v0 := 8, v1 := 9, faces := [4], cost := some { n := 0, d := 1 }, target := some { x := { n := 41, d := 2 }, y := { n := 0, d := 1 }, z := { n := 0, d := 1 } }, deleted := false }, { v0 := 9, v1 := 10, faces := [4], cost := some { n := 0, d := 1 }, target := some { x := { n := 41, d := 2 }, y := { n := 1, d := 2 }, z := { n := 0, d := 1 } }, deleted := false }, { v0 := 8, v1 := 10, faces := [4], cost := some { n := 0, d := 1 }, target := some { x := { n := 20, d := 1 }, y := { n := 1, d := 2 }, z := { n := 0, d := 1 } }, deleted := false }, { v0 := 11, v1 := 12, faces := [5], cost := some { n := 0, d := 1 }, target := some { x := { n := 61, d := 2 }, y := { n := 0, d := 1 }, z := { n := 0, d := 1 } }, deleted := false }, { v0 := 12, v1 := 13, faces := [5], cost := some { n := 0, d := 1 }, target := some { x := { n := 61, d := 2 }, y := { n := 1, d := 2 }, z := { n := 0, d := 1 } }, deleted := false }, { v0 := 11, v1 := 13, faces := [5], cost := some { n := 0, d := 1 }, target := some { x := { n := 30, d := 1 }, y := { n := 1, d := 2 }, z := { n := 0, d := 1 } }, deleted := false }, { v0 := 14, v1 := 15, faces := [6], cost := some { n := 0, d := 1 }, target := some { x := { n := 81, d := 2 }, y := { n := 0, d := 1 }, z := { n := 0, d := 1 } }, deleted := false }, { v0 := 15, v1 := 16, faces := [6], cost := some { n := 0, d := 1 }, target := some { x := { n := 81, d := 2 }, y := { n := 1, d := 2 }, z := { n := 0, d := 1 } }, deleted := false }, { v0 := 14, v1 := 16, faces := [6], cost := some { n := 0, d := 1 }, target := some { x := { n := 40, d := 1 }, y := { n := 1, d := 2 }, z := { n := 0, d := 1 } }, deleted := false }, { v0 := 17, v1 := 18, faces := [7], cost := some { n := 0, d := 1 }, target := some { x := { n := 101, d := 2 }, y := { n := 0, d := 1 }, z := { n := 0, d := 1 } }, deleted := false }, { v0 := 18, v1 := 19, faces := [7], cost := some { n := 0, d := 1 }, target := some { x := { n := 101, d := 2 }, y := { n := 1, d := 2 }, z := { n := 0, d := 1 } }, deleted := false }, { v0 := 17, v1 := 19, faces := [7], cost := some { n := 0, d := 1 }, target := some { x := { n := 50, d := 1 }, y := { n := 1, d := 2 }, z := { n := 0, d := 1 } }, deleted := false }] }

/-- Pipeline state of c9Input, in literal form. -/
def c9Pipe : SimState :=
  { vertices := [{ position := { x := { n := 0, d := 1 }, y := { n := 0, d := 1 }, z := { n := 0, d := 1 } }, faces := [0], edges := [0, 2], quadric := { a11 := { n := 0, d := 1 }, a12 := { n := 0, d := 1 }, a13 := { n := 0, d := 1 }, a14 := { n := 0, d := 1 }, a22 := { n := 0, d := 1 }, a23 := { n := 0, d := 1 }, a24 := { n := 0, d := 1 }, a33 := { n := 1, d := 2 }, a34 := { n := 0, d := 1 }, a44 := { n := 0, d := 1 } }, deleted := false }, { position := { x := { n := 1, d := 1 }, y := { n := 0, d := 1 }, z := { n := 0, d := 1 } }, faces := [0, 2, 3, 4, 5, 6], edges := [0, 1, 6, 8, 10, 12, 14, 16], quadric := { a11 := { n := 0, d := 1 }, a12 := { n := 0, d := 1 }, a13 := { n := 0, d := 1 }, a14 := { n := 0, d := 1 }, a22 := { n := 0, d := 1 }, a23 := { n := 0, d := 1 }, a24 := { n := 0, d := 1 }, a33 := { n := 63, d := 1 }, a34 := { n := 0, d := 1 }, a44 := { n := 0, d := 1 } }, deleted := false }, { position := { x := { n := 0, d := 1 }, y := { n := 1, d := 1 }, z := { n := 0, d := 1 } }, faces := [0], edges := [1, 2], quadric := { a11 := { n := 0, d := 1 }, a12 := { n := 0, d := 1 }, a13 := { n := 0, d := 1 }, a14 := { n := 0, d := 1 }, a22 := { n := 0, d := 1 }, a23 := { n := 0, d := 1 }, a24 := { n := 0, d := 1 }, a33 := { n := 1, d := 2 }, a34 := { n := 0, d := 1 }, a44 := { n := 0, d := 1 } }, deleted := false }, { position := { x := { n := 5, d := 1 }, y := { n := 0, d := 1 }, z := { n := 0, d := 1 } }, faces := [1], edges := [3, 5], quadric := { a11 := { n := 0, d := 1 }, a12 := { n := 0, d := 1 }, a13 := { n := 0, d := 1 }, a14 := { n := 0, d := 1 }, a22 := { n := 0, d := 1 }, a23 := { n := 0, d := 1 }, a24 := { n := 0, d := 1 }, a33 := { n := 1, d := 2 }, a34 := { n := 0, d := 1 }, a44 := { n := 0, d := 1 } }, deleted := false }, { position := { x := { n := 6, d := 1 }, y := { n := 0, d := 1 }, z := { n := 0, d := 1 } }, faces := [1, 2, 3, 4, 5, 6], edges := [3, 4, 6, 7, 9, 11, 13, 15], quadric := { a11 := { n := 0, d := 1 }, a12 := { n := 0, d := 1 }, a13 := { n := 0, d := 1 }, a14 := { n := 0, d := 1 }, a22 := { n := 0, d := 1 }, a23 := { n := 0, d := 1 }, a24 := { n := 0, d := 1 }, a33 := { n := 63, d := 1 }, a34 := { n := 0, d := 1 }, a44 := { n := 0, d := 1 } }, deleted := false }, { position := { x := { n := 5, d := 1 }, y := { n := 1, d := 1 }, z := { n := 0, d := 1 } }, faces := [1], edges := [4, 5], quadric := { a11 := { n := 0, d := 1 }, a12 := { n := 0, d := 1 }, a13 := { n := 0, d := 1 }, a14 := { n := 0, d := 1 }, a22 := { n := 0, d := 1 }, a23 := { n := 0, d := 1 }, a24 := { n := 0, d := 1 }, a33 := { n := 1, d := 2 }, a34 := { n := 0, d := 1 }, a44 := { n := 0, d := 1 } }, deleted := false }, { position := { x := { n := 1, d := 1 }, y := { n := 5, d := 1 }, z := { n := 0, d := 1 } }, faces := [2], edges := [7, 8], quadric := { a11 := { n := 0, d := 1 }, a12 := { n := 0, d := 1 }, a13 := { n := 0, d := 1 }, a14 := { n := 0, d := 1 }, a22 := { n := 0, d := 1 }, a23 := { n := 0, d := 1 }, a24 := { n := 0, d := 1 }, a33 := { n := 25, d := 2 }, a34 := { n := 0, d := 1 }, a44 := { n := 0, d := 1 } }, deleted := false }, { position := { x := { n := 2, d := 1 }, y := { n := 5, d := 1 }, z := { n := 0, d := 1 } }, faces := [3], edges := [9, 10], quadric := { a11 := { n := 0, d := 1 }, a12 := { n := 0, d := 1 }, a13 := { n := 0, d := 1 }, a14 := { n := 0, d := 1 }, a22 := { n := 0, d := 1 }, a23 := { n := 0, d := 1 }, a24 := { n := 0, d := 1 }, a33 := { n := 25, d := 2 }, a34 := { n := 0, d := 1 }, a44 := { n := 0, d := 1 } }, deleted := false }, { position := { x := { n := 3, d := 1 }, y := { n := 5, d := 1 }, z := { n := 0, d := 1 } }, faces := [4], edges := [11, 12], quadric := { a11 := { n := 0, d := 1 }, a12 := { n := 0, d := 1 }, a13 := { n := 0, d := 1 }, a14 := { n := 0, d := 1 }, a22 := { n := 0, d := 1 }, a23 := { n := 0, d := 1 }, a24 := { n := 0, d := 1 }, a33 := { n := 25, d := 2 }, a34 := { n := 0, d := 1 }, a44 := { n := 0, d := 1 } }, deleted := false }, { position := { x := { n := 4, d := 1 }, y := { n := 5, d := 1 }, z := { n := 0, d := 1 } }, faces := [5], edges := [13, 14], quadric := { a11 := { n := 0, d := 1 }, a12 := { n := 0, d := 1 }, a13 := { n := 0, d := 1 }, a14 := { n := 0, d := 1 }, a22 := { n := 0, d := 1 }, a23 := { n := 0, d := 1 }, a24 := { n := 0, d := 1 }, a33 := { n := 25, d := 2 }, a34 := { n := 0, d := 1 }, a44 := { n := 0, d := 1 } }, deleted := false }, { position := { x := { n := 5, d := 1 }, y := { n := 5, d := 1 }, z := { n := 0, d := 1 } }, faces := [6], edges := [15, 16], quadric := { a11 := { n := 0, d := 1 }, a12 := { n := 0, d := 1 }, a13 := { n := 0, d := 1 }, a14 := { n := 0, d := 1 }, a22 := { n := 0, d := 1 }, a23 := { n := 0, d := 1 }, a24 := { n := 0, d := 1 }, a33 := { n := 25, d := 2 }, a34 := { n := 0, d := 1 }, a44 := { n := 0, d := 1 } }, deleted := false }], faces := [{ v0 := 0, v1 := 1, v2 := 2, deleted := false, normal := some { x := { n := 0, d := 1 }, y := { n := 0, d := 1 }, z := { n := 1, d := 1 } }, area := { n := 1, d := 2 } }, { v0 := 3, v1 := 4, v2 := 5, deleted := false, normal := some { x := { n := 0, d := 1 }, y := { n := 0, d := 1 }, z := { n := 1, d := 1 } }, area := { n := 1, d := 2 } }, { v0 := 1, v1 := 4, v2 := 6, deleted := false, normal := some { x := { n := 0, d := 1 }, y := { n := 0, d := 1 }, z := { n := 1, d := 1 } }, area := { n := 25, d := 2 } }, { v0 := 1, v1 := 4, v2 := 7, deleted := false, normal := some { x := { n := 0, d := 1 }, y := { n := 0, d := 1 }, z := { n := 1, d := 1 } }, area := { n := 25, d := 2 } }, { v0 := 1, v1 := 4, v2 := 8, deleted := false, normal := some { x := { n := 0, d := 1 }, y := { n := 0, d := 1 }, z := { n := 1, d := 1 } }, area := { n := 25, d := 2 } }, { v0 := 1, v1 := 4, v2 := 9, deleted := false, normal := some { x := { n := 0, d := 1 }, y := { n := 0, d := 1 }, z := { n := 1, d := 1 } }, area := { n := 25, d := 2 } }, { v0 := 1, v1 := 4, v2 := 10, deleted := false, normal := some { x := { n := 0, d := 1 }, y := { n := 0, d := 1 }, z := { n := 1, d := 1 } }, area := { n := 25, d := 2 } }], edges := [{ v0 := 0, v1 := 1, faces := [0], cost := some { n := 0, d := 1 }, target := some { x := { n := 1, d := 2 }, y := { n := 0, d := 1 }, z := { n := 0, d := 1 } }, deleted := false }, { v0 := 1, v1 := 2, faces := [0], cost := some { n := 0, d := 1 }, target := some { x := { n := 1, d := 2 }, y := { n := 1, d := 2 }, z := { n := 0, d := 1 } }, deleted := false }, { v0 := 0, v1 := 2, faces := [0], cost := some { n := 0, d := 1 }, target := some { x := { n := 0, d := 1 }, y := { n := 1, d := 2 }, z := { n := 0, d := 1 } }, deleted := false }, { v0 := 3, v1 := 4, faces := [1], cost := some { n := 0, d := 1 }, target := some { x := { n := 11, d := 2 }, y := { n := 0, d := 1 }, z := { n := 0, d := 1 } }, deleted := false }, { v0 := 4, v1 := 5, faces := [1], cost := some { n := 0, d := 1 }, target := some { x := { n := 11, d := 2 }, y := { n := 1, d := 2 }, z := { n := 0, d := 1 } }, deleted := false }, { v0 := 3, v1 := 5, faces := [1], cost := some { n := 0, d := 1 }, target := some { x := { n := 5, d := 1 }, y := { n := 1, d := 2 }, z := { n := 0, d := 1 } }, deleted := false }, { v0 := 1, v1 := 4, faces := [2, 3, 4, 5, 6], cost := some { n := 0, d := 1 }, target := some { x := { n := 7, d := 2 }, y := { n := 0, d := 1 }, z := { n := 0, d := 1 } }, deleted := false }, { v0 := 4, v1 := 6, faces := [2], cost := some { n := 0, d := 1 }, target := some { x := { n := 7, d := 2 }, y := { n := 5, d := 2 }, z := { n := 0, d := 1 } }, deleted := false }, { v0 := 1, v1 := 6, faces := [2], cost := some { n := 0, d := 1 }, target := some { x := { n := 1, d := 1 }, y := { n := 5, d := 2 }, z := { n := 0, d := 1 } }, deleted := false }, { v0 := 4, v1 := 7, faces := [3], cost := some { n := 0, d := 1 }, target := some { x := { n := 4, d := 1 }, y := { n := 5, d := 2 }, z := { n := 0, d := 1 } }, deleted := false }, { v0 := 1, v1 := 7, faces := [3], cost := some { n := 0, d := 1 }, target := some { x := { n := 3, d := 2 }, y := { n := 5, d := 2 }, z := { n := 0, d := 1 } }, deleted := false }, { v0 := 4, v1 := 8, faces := [4], cost := some { n := 0, d := 1 }, target := some { x := { n := 9, d := 2 }, y := { n := 5, d := 2 }, z := { n := 0, d := 1 } }, deleted := false }, { v0 := 1, v1 := 8, faces := [4], cost := some { n := 0, d := 1 }, target := some { x := { n := 2, d := 1 }, y := { n := 5, d := 2 }, z := { n := 0, d := 1 } }, deleted := false }, { v0 := 4, v1 := 9, faces := [5], cost := some { n := 0, d := 1 }, target := some { x := { n := 5, d := 1 }, y := { n := 5, d := 2 }, z := { n := 0, d := 1 } }, deleted := false }, { v0 := 1, v1 := 9, faces := [5], cost := some { n := 0, d := 1 }, target := some { x := { n := 5, d := 2 }, y := { n := 5, d := 2 }, z := { n := 0, d := 1 } }, deleted := false }, { v0 := 4, v1 := 10, faces := [6], cost := some { n := 0, d := 1 }, target := some { x := { n := 11, d := 2 }, y := { n := 5, d := 2 }, z := { n := 0, d := 1 } }, deleted := false }, { v0 := 1, v1 := 10, faces := [6], cost := some { n := 0, d := 1 }, target := some { x := { n := 3, d := 1 }, y := { n := 5, d := 2 }, z := { n := 0, d := 1 } }, deleted := false }] }

/-- State of the c9 run after collapse 1. -/
def c9S1 : SimState :=
  { vertices := [{ position := { x := { n := 1, d := 2 }, y := { n := 0, d := 1 }, z := { n := 0, d := 1 } }, faces := [0, 2, 3, 4, 5, 6], edges := [0, 2], quadric := { a11 := { n := 0, d := 1 }, a12 := { n := 0, d := 1 }, a13 := { n := 0, d := 1 }, a14 := { n := 0, d := 1 }, a22 := { n := 0, d := 1 }, a23 := { n := 0, d := 1 }, a24 := { n := 0, d := 1 }, a33 := { n := 127, d := 2 }, a34 := { n := 0, d := 1 }, a44 := { n := 0, d := 1 } }, deleted := false }, { position := { x := { n := 1, d := 1 }, y := { n := 0, d := 1 }, z := { n := 0, d := 1 } }, faces := [0, 2, 3, 4, 5, 6], edges := [0, 1, 6, 8, 10, 12, 14, 16], quadric := { a11 := { n := 0, d := 1 }, a12 := { n := 0, d := 1 }, a13 := { n := 0, d := 1 }, a14 := { n := 0, d := 1 }, a22 := { n := 0, d := 1 }, a23 := { n := 0, d := 1 }, a24 := { n := 0, d := 1 }, a33 := { n := 63, d := 1 }, a34 := { n := 0, d := 1 }, a44 := { n := 0, d := 1 } }, deleted := true }, { position := { x := { n := 0, d := 1 }, y := { n := 1, d := 1 }, z := { n := 0, d := 1 } }, faces := [0], edges := [1, 2], quadric := { a11 := { n := 0, d := 1 }, a12 := { n := 0, d := 1 }, a13 := { n := 0, d := 1 }, a14 := { n := 0, d := 1 }, a22 := { n := 0, d := 1 }, a23 := { n := 0, d := 1 }, a24 := { n := 0, d := 1 }, a33 := { n := 1, d := 2 }, a34 := { n := 0, d := 1 }, a44 := { n := 0, d := 1 } }, deleted := false }, { position := { x := { n := 5, d := 1 }, y := { n := 0, d := 1 }, z := { n := 0, d := 1 } }, faces := [1], edges := [3, 5], quadric := { a11 := { n := 0, d := 1 }, a12 := { n := 0, d := 1 }, a13 := { n := 0, d := 1 }, a14 := { n := 0, d := 1 }, a22 := { n := 0, d := 1 }, a23 := { n := 0, d := 1 }, a24 := { n := 0, d := 1 }, a33 := { n := 1, d := 2 }, a34 := { n := 0, d := 1 }, a44 := { n := 0, d := 1 } }, deleted := false }, { position := { x := { n := 6, d := 1 }, y := { n := 0, d := 1 }, z := { n := 0, d := 1 } }, faces := [1, 2, 3, 4, 5, 6], edges := [3, 4, 6, 7, 9, 11, 13, 15], quadric := { a11 := { n := 0, d := 1 }, a12 := { n := 0, d := 1 }, a13 := { n := 0, d := 1 }, a14 := { n := 0, d := 1 }, a22 := { n := 0, d := 1 }, a23 := { n := 0, d := 1 }, a24 := { n := 0, d := 1 }, a33 := { n := 63, d := 1 }, a34 := { n := 0, d := 1 }, a44 := { n := 0, d := 1 } }, deleted := false }, { position := { x := { n := 5, d := 1 }, y := { n := 1, d := 1 }, z := { n := 0, d := 1 } }, faces := [1], edges := [4, 5], quadric := { a11 := { n := 0, d := 1 }, a12 := { n := 0, d := 1 }, a13 := { n := 0, d := 1 }, a14 := { n := 0, d := 1 }, a22 := { n := 0, d := 1 }, a23 := { n := 0, d := 1 }, a24 := { n := 0, d := 1 }, a33 := { n := 1, d := 2 }, a34 := { n := 0, d := 1 }, a44 := { n := 0, d := 1 } }, deleted := false }, { position := { x := { n := 1, d := 1 }, y := { n := 5, d := 1 }, z := { n := 0, d := 1 } }, faces := [2], edges := [7, 8], quadric := { a11 := { n := 0, d := 1 }, a12 := { n := 0, d := 1 }, a13 := { n := 0, d := 1 }, a14 := { n := 0, d := 1 }, a22 := { n := 0, d := 1 }, a23 := { n := 0, d := 1 }, a24 := { n := 0, d := 1 }, a33 := { n := 25, d := 2 }, a34 := { n := 0, d := 1 }, a44 := { n := 0, d := 1 } }, deleted := false }, { position := { x := { n := 2, d := 1 }, y := { n := 5, d := 1 }, z := { n := 0, d := 1 } }, faces := [3], edges := [9, 10], quadric := { a11 := { n := 0, d := 1 }, a12 := { n := 0, d := 1 }, a13 := { n := 0, d := 1 }, a14 := { n := 0, d := 1 }, a22 := { n := 0, d := 1 }, a23 := { n := 0, d := 1 }, a24 := { n := 0, d := 1 }, a33 := { n := 25, d := 2 }, a34 := { n := 0, d := 1 }, a44 := { n := 0, d := 1 } }, deleted := false }, { position := { x := { n := 3, d := 1 }, y := { n := 5, d := 1 }, z := { n := 0, d := 1 } }, faces := [4], edges := [11, 12], quadric := { a11 := { n := 0, d := 1 }, a12 := { n := 0, d := 1 }, a13 := { n := 0, d := 1 }, a14 := { n := 0, d := 1 }, a22 := { n := 0, d := 1 }, a23 := { n := 0, d := 1 }, a24 := { n := 0, d := 1 }, a33 := { n := 25, d := 2 }, a34 := { n := 0, d := 1 }, a44 := { n := 0, d := 1 } }, deleted := false }, { position := { x := { n := 4, d := 1 }, y := { n := 5, d := 1 }, z := { n := 0, d := 1 } }, faces := [5], edges := [13, 14], quadric := { a11 := { n := 0, d := 1 }, a12 := { n := 0, d := 1 }, a13 := { n := 0, d := 1 }, a14 := { n := 0, d := 1 }, a22 := { n := 0, d := 1 }, a23 := { n := 0, d := 1 }, a24 := { n := 0, d := 1 }, a33 := { n := 25, d := 2 }, a34 := { n := 0, d := 1 }, a44 := { n := 0, d := 1 } }, deleted := false }, { position := { x := { n := 5, d := 1 }, y := { n := 5, d := 1 }, z := { n := 0, d := 1 } }, faces := [6], edges := [15, 16], quadric := { a11 := { n := 0, d := 1 }, a12 := { n := 0, d := 1 }, a13 := { n := 0, d := 1 }, a14 := { n := 0, d := 1 }, a22 := { n := 0, d := 1 }, a23 := { n := 0, d := 1 }, a24 := { n := 0, d := 1 }, a33 := { n := 25, d := 2 }, a34 := { n := 0, d := 1 }, a44 := { n := 0, d := 1 } }, deleted := false }], faces := [{ v0 := 0, v1 := 1, v2 := 2, deleted := true, normal := some { x := { n := 0, d := 1 }, y := { n := 0, d := 1 }, z := { n := 1, d := 1 } }, area := { n := 1, d := 2 } }, { v0 := 3, v1 := 4, v2 := 5, deleted := false, normal := some { x := { n := 0, d := 1 }, y := { n := 0, d := 1 }, z := { n := 1, d := 1 } }, area := { n := 1, d := 2 } }, { v0 := 0, v1 := 4, v2 := 6, deleted := false, normal := some { x := { n := 0, d := 1 }, y := { n := 0, d := 1 }, z := { n := 1, d := 1 } }, area := { n := 55, d := 4 } }, { v0 := 0, v1 := 4, v2 := 7, deleted := false, normal := some { x := { n := 0, d := 1 }, y := { n := 0, d := 1 }, z := { n := 1, d := 1 } }, area := { n := 55, d := 4 } }, { v0 := 0, v1 := 4, v2 := 8, deleted := false, normal := some { x := { n := 0, d := 1 }, y := { n := 0, d := 1 }, z := { n := 1, d := 1 } }, area := { n := 55, d := 4 } }, { v0 := 0, v1 := 4, v2 := 9, deleted := false, normal := some { x := { n := 0, d := 1 }, y := { n := 0, d := 1 }, z := { n := 1, d := 1 } }, area := { n := 55, d := 4 } }, { v0 := 0, v1 := 4, v2 := 10, deleted := false, normal := some { x := { n := 0, d := 1 }, y := { n := 0, d := 1 }, z := { n := 1, d := 1 } }, area := { n := 55, d := 4 } }], edges := [{ v0 := 0, v1 := 1, faces := [0], cost := some { n := 0, d := 1 }, target := some { x := { n := 1, d := 2 }, y := { n := 0, d := 1 }, z := { n := 0, d := 1 } }, deleted := true }, { v0 := 1, v1 := 2, faces := [0], cost := some { n := 0, d := 1 }, target := some { x := { n := 1, d := 2 }, y := { n := 1, d := 2 }, z := { n := 0, d := 1 } }, deleted := false }, { v0 := 0, v1 := 2, faces := [0], cost := some { n := 0, d := 1 }, target := some { x := { n := 1, d := 4 }, y := { n := 1, d := 2 }, z := { n := 0, d := 1 } }, deleted := false }, { v0 := 3, v1 := 4, faces := [1], cost := some { n := 0, d := 1 }, target := some { x := { n := 11, d := 2 }, y := { n := 0, d := 1 }, z := { n := 0, d := 1 } }, deleted := false }, { v0 := 4, v1 := 5, faces := [1], cost := some { n := 0, d := 1 }, target := some { x := { n := 11, d := 2 }, y := { n := 1, d := 2 }, z := { n := 0, d := 1 } }, deleted := false }, { v0 := 3, v1 := 5, faces := [1], cost := some { n := 0, d := 1 }, target := some { x := { n := 5, d := 1 }, y := { n := 1, d := 2 }, z := { n := 0, d := 1 } }, deleted := false }, { v0 := 1, v1 := 4, faces := [2, 3, 4, 5, 6], cost := some { n := 0, d := 1 }, target := some { x := { n := 7, d := 2 }, y := { n := 0, d := 1 }, z := { n := 0, d := 1 } }, deleted := true }, { v0 := 4, v1 := 6, faces := [2], cost := some { n := 0, d := 1 }, target := some { x := { n := 7, d := 2 }, y := { n := 5, d := 2 }, z := { n := 0, d := 1 } }, deleted := false }, { v0 := 1, v1 := 6, faces := [2], cost := some { n := 0, d := 1 }, target := some { x := { n := 1, d := 1 }, y := { n := 5, d := 2 }, z := { n := 0, d := 1 } }, deleted := true }, { v0 := 4, v1 := 7, faces := [3], cost := some { n := 0, d := 1 }, target := some { x := { n := 4, d := 1 }, y := { n := 5, d := 2 }, z := { n := 0, d := 1 } }, deleted := false }, { v0 := 1, v1 := 7, faces := [3], cost := some { n := 0, d := 1 }, target := some { x := { n := 3, d := 2 }, y := { n := 5, d := 2 }, z := { n := 0, d := 1 } }, deleted := true }, { v0 := 4, v1 := 8, faces := [4], cost := some { n := 0, d := 1 }, target := some { x := { n := 9, d := 2 }, y := { n := 5, d := 2 }, z := { n := 0, d := 1 } }, deleted := false }, { v0 := 1, v1 := 8, faces := [4], cost := some { n := 0, d := 1 }, target := some { x := { n := 2, d := 1 }, y := { n := 5, d := 2 }, z := { n := 0, d := 1 } }, deleted := true }, { v0 := 4, v1 := 9, faces := [5], cost := some { n := 0, d := 1 }, target := some { x := { n := 5, d := 1 }, y := { n := 5, d := 2 }, z := { n := 0, d := 1 } }, deleted := false }, { v0 := 1, v1 := 9, faces := [5], cost := some { n := 0, d := 1 }, target := some { x := { n := 5, d := 2 }, y := { n := 5, d := 2 }, z := { n := 0, d := 1 } }, deleted := true }, { v0 := 4, v1 := 10, faces := [6], cost := some { n := 0, d := 1 }, target := some { x := { n := 11, d := 2 }, y := { n := 5, d := 2 }, z := { n := 0, d := 1 } }, deleted := false }, { v0 := 1, v1 := 10, faces := [6], cost := some { n := 0, d := 1 }, target := some { x := { n := 3, d := 1 }, y := { n := 5, d := 2 }, z := { n := 0, d := 1 } }, deleted := true }] }

/-- State of the c9 run after collapse 2. -/
def c9S2 : SimState :=
  { vertices := [{ position := { x := { n := 1, d := 4 }, y := { n := 1, d := 2 }, z := { n := 0, d := 1 } }, faces := [0, 2, 3, 4, 5, 6], edges := [0, 2], quadric := { a11 := { n := 0, d := 1 }, a12 := { n := 0, d := 1 }, a13 := { n := 0, d := 1 }, a14 := { n := 0, d := 1 }, a22 := { n := 0, d := 1 }, a23 := { n := 0, d := 1 }, a24 := { n := 0, d := 1 }, a33 := { n := 64, d := 1 }, a34 := { n := 0, d := 1 }, a44 := { n := 0, d := 1 } }, deleted := false }, { position := { x := { n := 1, d := 1 }, y := { n := 0, d := 1 }, z := { n := 0, d := 1 } }, faces := [0, 2, 3, 4, 5, 6], edges := [0, 1, 6, 8, 10, 12, 14, 16], quadric := { a11 := { n := 0, d := 1 }, a12 := { n := 0, d := 1 }, a13 := { n := 0, d := 1 }, a14 := { n := 0, d := 1 }, a22 := { n := 0, d := 1 }, a23 := { n := 0, d := 1 }, a24 := { n := 0, d := 1 }, a33 := { n := 63, d := 1 }, a34 := { n := 0, d := 1 }, a44 := { n := 0, d := 1 } }, deleted := true }, { position := { x := { n := 0, d := 1 }, y := { n := 1, d := 1 }, z := { n := 0, d := 1 } }, faces := [0], edges := [1, 2], quadric := { a11 := { n := 0, d := 1 }, a12 := { n := 0, d := 1 }, a13 := { n := 0, d := 1 }, a14 := { n := 0, d := 1 }, a22 := { n := 0, d := 1 }, a23 := { n := 0, d := 1 }, a24 := { n := 0, d := 1 }, a33 := { n := 1, d := 2 }, a34 := { n := 0, d := 1 }, a44 := { n := 0, d := 1 } }, deleted := true }, { position := { x := { n := 5, d := 1 }, y := { n := 0, d := 1 }, z := { n := 0, d := 1 } }, faces := [1], edges := [3, 5], quadric := { a11 := { n := 0, d := 1 }, a12 := { n := 0, d := 1 }, a13 := { n := 0, d := 1 }, a14 := { n := 0, d := 1 }, a22 := { n := 0, d := 1 }, a23 := { n := 0, d := 1 }, a24 := { n := 0, d := 1 }, a33 := { n := 1, d := 2 }, a34 := { n := 0, d := 1 }, a44 := { n := 0, d := 1 } }, deleted := false }, { position := { x := { n := 6, d := 1 }, y := { n := 0, d := 1 }, z := { n := 0, d := 1 } }, faces := [1, 2, 3, 4, 5, 6], edges := [3, 4, 6, 7, 9, 11, 13, 15], quadric := { a11 := { n := 0, d := 1 }, a12 := { n := 0, d := 1 }, a13 := { n := 0, d := 1 }, a14 := { n := 0, d := 1 }, a22 := { n := 0, d := 1 }, a23 := { n := 0, d := 1 }, a24 := { n := 0, d := 1 }, a33 := { n := 63, d := 1 }, a34 := { n := 0, d := 1 }, a44 := { n := 0, d := 1 } }, deleted := false }, { position := { x := { n := 5, d := 1 }, y := { n := 1, d := 1 }, z := { n := 0, d := 1 } }, faces := [1], edges := [4, 5], quadric := { a11 := { n := 0, d := 1 }, a12 := { n := 0, d := 1 }, a13 := { n := 0, d := 1 }, a14 := { n := 0, d := 1 }, a22 := { n := 0, d := 1 }, a23 := { n := 0, d := 1 }, a24 := { n := 0, d := 1 }, a33 := { n := 1, d := 2 }, a34 := { n := 0, d := 1 }, a44 := { n := 0, d := 1 } }, deleted := false }, { position := { x := { n := 1, d := 1 }, y := { n := 5, d := 1 }, z := { n := 0, d := 1 } }, faces := [2], edges := [7, 8], quadric := { a11 := { n := 0, d := 1 }, a12 := { n := 0, d := 1 }, a13 := { n := 0, d := 1 }, a14 := { n := 0, d := 1 }, a22 := { n := 0, d := 1 }, a23 := { n := 0, d := 1 }, a24 := { n := 0, d := 1 }, a33 := { n := 25, d := 2 }, a34 := { n := 0, d := 1 }, a44 := { n := 0, d := 1 } }, deleted := false }, { position := { x := { n := 2, d := 1 }, y := { n := 5, d := 1 }, z := { n := 0, d := 1 } }, faces := [3], edges := [9, 10], quadric := { a11 := { n := 0, d := 1 }, a12 := { n := 0, d := 1 }, a13 := { n := 0, d := 1 }, a14 := { n := 0, d := 1 }, a22 := { n := 0, d := 1 }, a23 := { n := 0, d := 1 }, a24 := { n := 0, d := 1 }, a33 := { n := 25, d := 2 }, a34 := { n := 0, d := 1 }, a44 := { n := 0, d := 1 } }, deleted := false }, { position := { x := { n := 3, d := 1 }, y := { n := 5, d := 1 }, z := { n := 0, d := 1 } }, faces := [4], edges := [11, 12], quadric := { a11 := { n := 0, d := 1 }, a12 := { n := 0, d := 1 }, a13 := { n := 0, d := 1 }, a14 := { n := 0, d := 1 }, a22 := { n := 0, d := 1 }, a23 := { n := 0, d := 1 }, a24 := { n := 0, d := 1 }, a33 := { n := 25, d := 2 }, a34 := { n := 0, d := 1 }, a44 := { n := 0, d := 1 } }, deleted := false }, { position := { x := { n := 4, d := 1 }, y := { n := 5, d := 1 }, z := { n := 0, d := 1 } }, faces := [5], edges := [13, 14], quadric := { a11 := { n := 0, d := 1 }, a12 := { n := 0, d := 1 }, a13 := { n := 0, d := 1 }, a14 := { n := 0, d := 1 }, a22 := { n := 0, d := 1 }, a23 := { n := 0, d := 1 }, a24 := { n := 0, d := 1 }, a33 := { n := 25, d := 2 }, a34 := { n := 0, d := 1 }, a44 := { n := 0, d := 1 } }, deleted := false }, { position := { x := { n := 5, d := 1 }, y := { n := 5, d := 1 }, z := { n := 0, d := 1 } }, faces := [6], edges := [15, 16], quadric := { a11 := { n := 0, d := 1 }, a12 := { n := 0, d := 1 }, a13 := { n := 0, d := 1 }, a14 := { n := 0, d := 1 }, a22 := { n := 0, d := 1 }, a23 := { n := 0, d := 1 }, a24 := { n := 0, d := 1 }, a33 := { n := 25, d := 2 }, a34 := { n := 0, d := 1 }, a44 := { n := 0, d := 1 } }, deleted := false }], faces := [{ v0 := 0, v1 := 1, v2 := 2, deleted := true, normal := some { x := { n := 0, d := 1 }, y := { n := 0, d := 1 }, z := { n := 1, d := 1 } }, area := { n := 1, d := 2 } }, { v0 := 3, v1 := 4, v2 := 5, deleted := false, normal := some { x := { n := 0, d := 1 }, y := { n := 0, d := 1 }, z := { n := 1, d := 1 } }, area := { n := 1, d := 2 } }, { v0 := 0, v1 := 4, v2 := 6, deleted := false, normal := some { x := { n := 0, d := 1 }, y := { n := 0, d := 1 }, z := { n := 1, d := 1 } }, area := { n := 55, d := 4 } }, { v0 := 0, v1 := 4, v2 := 7, deleted := false, normal := some { x := { n := 0, d := 1 }, y := { n := 0, d := 1 }, z := { n := 1, d := 1 } }, area := { n := 55, d := 4 } }, { v0 := 0, v1 := 4, v2 := 8, deleted := false, normal := some { x := { n := 0, d := 1 }, y := { n := 0, d := 1 }, z := { n := 1, d := 1 } }, area := { n := 55, d := 4 } }, { v0 := 0, v1 := 4, v2 := 9, deleted := false, normal := some { x := { n := 0, d := 1 }, y := { n := 0, d := 1 }, z := { n := 1, d := 1 } }, area := { n := 55, d := 4 } }, { v0 := 0, v1 := 4, v2 := 10, deleted := false, normal := some { x := { n := 0, d := 1 }, y := { n := 0, d := 1 }, z := { n := 1, d := 1 } }, area := { n := 55, d := 4 } }], edges := [{ v0 := 0, v1 := 1, faces := [0], cost := some { n := 0, d := 1 }, target := some { x := { n := 1, d := 2 }, y := { n := 0, d := 1 }, z := { n := 0, d := 1 } }, deleted := true }, { v0 := 1, v1 := 2, faces := [0], cost := some { n := 0, d := 1 }, target := some { x := { n := 1, d := 2 }, y := { n := 1, d := 2 }, z := { n := 0, d := 1 } }, deleted := false }, { v0 := 0, v1 := 2, faces := [0], cost := some { n := 0, d := 1 }, target := some { x := { n := 1, d := 4 }, y := { n := 1, d := 2 }, z := { n := 0, d := 1 } }, deleted := true }, { v0 := 3, v1 := 4, faces := [1], cost := some { n := 0, d := 1 }, target := some { x := { n := 11, d := 2 }, y := { n := 0, d := 1 }, z := { n := 0, d := 1 } }, deleted := false }, { v0 := 4, v1 := 5, faces := [1], cost := some { n := 0, d := 1 }, target := some { x := { n := 11, d := 2 }, y := { n := 1, d := 2 }, z := { n := 0, d := 1 } }, deleted := false }, { v0 := 3, v1 := 5, faces := [1], cost := some { n := 0, d := 1 }, target := some { x := { n := 5, d := 1 }, y := { n := 1, d := 2 }, z := { n := 0, d := 1 } }, deleted := false }, { v0 := 1, v1 := 4, faces := [2, 3, 4, 5, 6], cost := some { n := 0, d := 1 }, target := some { x := { n := 7, d := 2 }, y := { n := 0, d := 1 }, z := { n := 0, d := 1 } }, deleted := true }, { v0 := 4, v1 := 6, faces := [2], cost := some { n := 0, d := 1 }, target := some { x := { n := 7, d := 2 }, y := { n := 5, d := 2 }, z := { n := 0, d := 1 } }, deleted := false }, { v0 := 1, v1 := 6, faces := [2], cost := some { n := 0, d := 1 }, target := some { x := { n := 1, d := 1 }, y := { n := 5, d := 2 }, z := { n := 0, d := 1 } }, deleted := true }, { v0 := 4, v1 := 7, faces := [3], cost := some { n := 0, d := 1 }, target := some { x := { n := 4, d := 1 }, y := { n := 5, d := 2 }, z := { n := 0, d := 1 } }, deleted := false }, { v0 := 1, v1 := 7, faces := [3], cost := some { n := 0, d := 1 }, target := some { x := { n := 3, d := 2 }, y := { n := 5, d := 2 }, z := { n := 0, d := 1 } }, deleted := true }, { v0 := 4, v1 := 8, faces := [4], cost := some { n := 0, d := 1 }, target := some { x := { n := 9, d := 2 }, y := { n := 5, d := 2 }, z := { n := 0, d := 1 } }, deleted := false }, { v0 := 1, v1 := 8, faces := [4], cost := some { n := 0, d := 1 }, target := some { x := { n := 2, d := 1 }, y := { n := 5, d := 2 }, z := { n := 0, d := 1 } }, deleted := true }, { v0 := 4, v1 := 9, faces := [5], cost := some { n := 0, d := 1 }, target := some { x := { n := 5, d := 1 }, y := { n := 5, d := 2 }, z := { n := 0, d := 1 } }, deleted := false }, { v0 := 1, v1 := 9, faces := [5], cost := some { n := 0, d := 1 }, target := some { x := { n := 5, d := 2 }, y := { n := 5, d := 2 }, z := { n := 0, d := 1 } }, deleted := true }, { v0 := 4, v1 := 10, faces := [6], cost := some { n := 0, d := 1 }, target := some { x := { n := 11, d := 2 }, y := { n := 5, d := 2 }, z := { n := 0, d := 1 } }, deleted := false }, { v0 := 1, v1 := 10, faces := [6], cost := some { n := 0, d := 1 }, target := some { x := { n := 3, d := 1 }, y := { n := 5, d := 2 }, z := { n := 0, d := 1 } }, deleted := true }] }

/-- State of the c9 run after collapse 3. -/
def c9S3 : SimState :=
  { vertices := [{ position := { x := { n := 1, d := 4 }, y := { n := 1, d := 2 }, z := { n := 0, d := 1 } }, faces := [0, 2, 3, 4, 5, 6], edges := [0, 2], quadric := { a11 := { n := 0, d := 1 }, a12 := { n := 0, d := 1 }, a13 := { n := 0, d := 1 }, a14 := { n := 0, d := 1 }, a22 := { n := 0, d := 1 }, a23 := { n := 0, d := 1 }, a24 := { n := 0, d := 1 }, a33 := { n := 64, d := 1 }, a34 := { n := 0, d := 1 }, a44 := { n := 0, d := 1 } }, deleted := false }, { position := { x := { n := 1, d := 1 }, y := { n := 0, d := 1 }, z := { n := 0, d := 1 } }, faces := [0, 2, 3, 4, 5, 6], edges := [0, 1, 6, 8, 10, 12, 14, 16], quadric := { a11 := { n := 0, d := 1 }, a12 := { n := 0, d := 1 }, a13 := { n := 0, d := 1 }, a14 := { n := 0, d := 1 }, a22 := { n := 0, d := 1 }, a23 := { n := 0, d := 1 }, a24 := { n := 0, d := 1 }, a33 := { n := 63, d := 1 }, a34 := { n := 0, d := 1 }, a44 := { n := 0, d := 1 } }, deleted := true }, { position := { x := { n := 0, d := 1 }, y := { n := 1, d := 1 }, z := { n := 0, d := 1 } }, faces := [0], edges := [1, 2], quadric := { a11 := { n := 0, d := 1 }, a12 := { n := 0, d := 1 }, a13 := { n := 0, d := 1 }, a14 := { n := 0, d := 1 }, a22 := { n := 0, d := 1 }, a23 := { n := 0, d := 1 }, a24 := { n := 0, d := 1 }, a33 := { n := 1, d := 2 }, a34 := { n := 0, d := 1 }, a44 := { n := 0, d := 1 } }, deleted := true }, { position := { x := { n := 11, d := 2 }, y := { n := 0, d := 1 }, z := { n := 0, d := 1 } }, faces := [1, 2, 3, 4, 5, 6], edges := [3, 5], quadric := { a11 := { n := 0, d := 1 }, a12 := { n := 0, d := 1 }, a13 := { n := 0, d := 1 }, a14 := { n := 0, d := 1 }, a22 := { n := 0, d := 1 }, a23 := { n := 0, d := 1 }, a24 := { n := 0, d := 1 }, a33 := { n := 127, d := 2 }, a34 := { n := 0, d := 1 }, a44 := { n := 0, d := 1 } }, deleted := false }, { position := { x := { n := 6, d := 1 }, y := { n := 0, d := 1 }, z := { n := 0, d := 1 } }, faces := [1, 2, 3, 4, 5, 6], edges := [3, 4, 6, 7, 9, 11, 13, 15], quadric := { a11 := { n := 0, d := 1 }, a12 := { n := 0, d := 1 }, a13 := { n := 0, d := 1 }, a14 := { n := 0, d := 1 }, a22 := { n := 0, d := 1 }, a23 := { n := 0, d := 1 }, a24 := { n := 0, d := 1 }, a33 := { n := 63, d := 1 }, a34 := { n := 0, d := 1 }, a44 := { n := 0, d := 1 } }, deleted := true }, { position := { x := { n := 5, d := 1 }, y := { n := 1, d := 1 }, z := { n := 0, d := 1 } }, faces := [1], edges := [4, 5], quadric := { a11 := { n := 0, d := 1 }, a12 := { n := 0, d := 1 }, a13 := { n := 0, d := 1 }, a14 := { n := 0, d := 1 }, a22 := { n := 0, d := 1 }, a23 := { n := 0, d := 1 }, a24 := { n := 0, d := 1 }, a33 := { n := 1, d := 2 }, a34 := { n := 0, d := 1 }, a44 := { n := 0, d := 1 } }, deleted := false }, { position := { x := { n := 1, d := 1 }, y := { n := 5, d := 1 }, z := { n := 0, d := 1 } }, faces := [2], edges := [7, 8], quadric := { a11 := { n := 0, d := 1 }, a12 := { n := 0, d := 1 }, a13 := { n := 0, d := 1 }, a14 := { n := 0, d := 1 }, a22 := { n := 0, d := 1 }, a23 := { n := 0, d := 1 }, a24 := { n := 0, d := 1 }, a33 := { n := 25, d := 2 }, a34 := { n := 0, d := 1 }, a44 := { n := 0, d := 1 } }, deleted := false }, { position := { x := { n := 2, d := 1 }, y := { n := 5, d := 1 }, z := { n := 0, d := 1 } }, faces := [3], edges := [9, 10], quadric := { a11 := { n := 0, d := 1 }, a12 := { n := 0, d := 1 }, a13 := { n := 0, d := 1 }, a14 := { n := 0, d := 1 }, a22 := { n := 0, d := 1 }, a23 := { n := 0, d := 1 }, a24 := { n := 0, d := 1 }, a33 := { n := 25, d := 2 }, a34 := { n := 0, d := 1 }, a44 := { n := 0, d := 1 } }, deleted := false }, { position := { x := { n := 3, d := 1 }, y := { n := 5, d := 1 }, z := { n := 0, d := 1 } }, faces := [4], edges := [11, 12], quadric := { a11 := { n := 0, d := 1 }, a12 := { n := 0, d := 1 }, a13 := { n := 0, d := 1 }, a14 := { n := 0, d := 1 }, a22 := { n := 0, d := 1 }, a23 := { n := 0, d := 1 }, a24 := { n := 0, d := 1 }, a33 := { n := 25, d := 2 }, a34 := { n := 0, d := 1 }, a44 := { n := 0, d := 1 } }, deleted := false }, { position := { x := { n := 4, d := 1 }, y := { n := 5, d := 1 }, z := { n := 0, d := 1 } }, faces := [5], edges := [13, 14], quadric := { a11 := { n := 0, d := 1 }, a12 := { n := 0, d := 1 }, a13 := { n := 0, d := 1 }, a14 := { n := 0, d := 1 }, a22 := { n := 0, d := 1 }, a23 := { n := 0, d := 1 }, a24 := { n := 0, d := 1 }, a33 := { n := 25, d := 2 }, a34 := { n := 0, d := 1 }, a44 := { n := 0, d := 1 } }, deleted := false }, { position := { x := { n := 5, d := 1 }, y := { n := 5, d := 1 }, z := { n := 0, d := 1 } }, faces := [6], edges := [15, 16], quadric := { a11 := { n := 0, d := 1 }, a12 := { n := 0, d := 1 }, a13 := { n := 0, d := 1 }, a14 := { n := 0, d := 1 }, a22 := { n := 0, d := 1 }, a23 := { n := 0, d := 1 }, a24 := { n := 0, d := 1 }, a33 := { n := 25, d := 2 }, a34 := { n := 0, d := 1 }, a44 := { n := 0, d := 1 } }, deleted := false }], faces := [{ v0 := 0, v1 := 1, v2 := 2, deleted := true, normal := some { x := { n := 0, d := 1 }, y := { n := 0, d := 1 }, z := { n := 1, d := 1 } }, area := { n := 1, d := 2 } }, { v0 := 3, v1 := 4, v2 := 5, deleted := true, normal := some { x := { n := 0, d := 1 }, y := { n := 0, d := 1 }, z := { n := 1, d := 1 } }, area := { n := 1, d := 2 } }, { v0 := 0, v1 := 3, v2 := 6, deleted := false, normal := some { x := { n := 0, d := 1 }, y := { n := 0, d := 1 }, z := { n := 1, d := 1 } }, area := { n := 12, d := 1 } }, { v0 := 0, v1 := 3, v2 := 7, deleted := false, normal := some { x := { n := 0, d := 1 }, y := { n := 0, d := 1 }, z := { n := 1, d := 1 } }, area := { n := 49, d := 4 } }, { v0 := 0, v1 := 3, v2 := 8, deleted := false, normal := some { x := { n := 0, d := 1 }, y := { n := 0, d := 1 }, z := { n := 1, d := 1 } }, area := { n := 25, d := 2 } }, { v0 := 0, v1 := 3, v2 := 9, deleted := false, normal := some { x := { n := 0, d := 1 }, y := { n := 0, d := 1 }, z := { n := 1, d := 1 } }, area := { n := 51, d := 4 } }, { v0 := 0, v1 := 3, v2 := 10, deleted := false, normal := some { x := { n := 0, d := 1 }, y := { n := 0, d := 1 }, z := { n := 1, d := 1 } }, area := { n := 13, d := 1 } }], edges := [{ v0 := 0, v1 := 1, faces := [0], cost := some { n := 0, d := 1 }, target := some { x := { n := 1, d := 2 }, y := { n := 0, d := 1 }, z := { n := 0, d := 1 } }, deleted := true }, { v0 := 1, v1 := 2, faces := [0], cost := some { n := 0, d := 1 }, target := some { x := { n := 1, d := 2 }, y := { n := 1, d := 2 }, z := { n := 0, d := 1 } }, deleted := false }, { v0 := 0, v1 := 2, faces := [0], cost := some { n := 0, d := 1 }, target := some { x := { n := 1, d := 4 }, y := { n := 1, d := 2 }, z := { n := 0, d := 1 } }, deleted := true }, { v0 := 3, v1 := 4, faces := [1], cost := some { n := 0, d := 1 }, target := some { x := { n := 11, d := 2 }, y := { n := 0, d := 1 }, z := { n := 0, d := 1 } }, deleted := true }, { v0 := 4, v1 := 5, faces := [1], cost := some { n := 0, d := 1 }, target := some { x := { n := 11, d := 2 }, y := { n := 1, d := 2 }, z := { n := 0, d := 1 } }, deleted := false }, { v0 := 3, v1 := 5, faces := [1], cost := some { n := 0, d := 1 }, target := some { x := { n := 21, d := 4 }, y := { n := 1, d := 2 }, z := { n := 0, d := 1 } }, deleted := false }, { v0 := 1, v1 := 4, faces := [2, 3, 4, 5, 6], cost := some { n := 0, d := 1 }, target := some { x := { n := 7, d := 2 }, y := { n := 0, d := 1 }, z := { n := 0, d := 1 } }, deleted := true }, { v0 := 4, v1 := 6, faces := [2], cost := some { n := 0, d := 1 }, target := some { x := { n := 7, d := 2 }, y := { n := 5, d := 2 }, z := { n := 0, d := 1 } }, deleted := true }, { v0 := 1, v1 := 6, faces := [2], cost := some { n := 0, d := 1 }, target := some { x := { n := 1, d := 1 }, y := { n := 5, d := 2 }, z := { n := 0, d := 1 } }, deleted := true }, { v0 := 4, v1 := 7, faces := [3], cost := some { n := 0, d := 1 }, target := some { x := { n := 4, d := 1 }, y := { n := 5, d := 2 }, z := { n := 0, d := 1 } }, deleted := true }, { v0 := 1, v1 := 7, faces := [3], cost := some { n := 0, d := 1 }, target := some { x := { n := 3, d := 2 }, y := { n := 5, d := 2 }, z := { n := 0, d := 1 } }, deleted := true }, { v0 := 4, v1 := 8, faces := [4], cost := some { n := 0, d := 1 }, target := some { x := { n := 9, d := 2 }, y := { n := 5, d := 2 }, z := { n := 0, d := 1 } }, deleted := true }, { v0 := 1, v1 := 8, faces := [4], cost := some { n := 0, d := 1 }, target := some { x := { n := 2, d := 1 }, y := { n := 5, d := 2 }, z := { n := 0, d := 1 } }, deleted := true }, { v0 := 4, v1 := 9, faces := [5], cost := some { n := 0, d := 1 }, target := some { x := { n := 5, d := 1 }, y := { n := 5, d := 2 }, z := { n := 0, d := 1 } }, deleted := true }, { v0 := 1, v1 := 9, faces := [5], cost := some { n := 0, d := 1 }, target := some { x := { n := 5, d := 2 }, y := { n := 5, d := 2 }, z := { n := 0, d := 1 } }, deleted := true }, { v0 := 4, v1 := 10, faces := [6], cost := some { n := 0, d := 1 }, target := some { x := { n := 11, d := 2 }, y := { n := 5, d := 2 }, z := { n := 0, d := 1 } }, deleted := true }, { v0 := 1, v1 := 10, faces := [6], cost := some { n := 0, d := 1 }, target := some { x := { n := 3, d := 1 }, y := { n := 5, d := 2 }, z := { n := 0, d := 1 } }, deleted := true }] }

/-- State of the c9 run after collapse 4, on which the minimum-cost scan finds no edge. -/
def c9S4 : SimState :=
  { vertices := [{ position := { x := { n := 1, d := 4 }, y := { n := 1, d := 2 }, z := { n := 0, d := 1 } }, faces := [0, 2, 3, 4, 5, 6], edges := [0, 2], quadric := { a11 := { n := 0, d := 1 }, a12 := { n := 0, d := 1 }, a13 := { n := 0, d := 1 }, a14 := { n := 0, d := 1 }, a22 := { n := 0, d := 1 }, a23 := { n := 0, d := 1 }, a24 := { n := 0, d := 1 }, a33 := { n := 64, d := 1 }, a34 := { n := 0, d := 1 }, a44 := { n := 0, d := 1 } }, deleted := false }, { position := { x := { n := 1, d := 1 }, y := { n := 0, d := 1 }, z := { n := 0, d := 1 } }, faces := [0, 2, 3, 4, 5, 6], edges := [0, 1, 6, 8, 10, 12, 14, 16], quadric := { a11 := { n := 0, d := 1 }, a12 := { n := 0, d := 1 }, a13 := { n := 0, d := 1 }, a14 := { n := 0, d := 1 }, a22 := { n := 0, d := 1 }, a23 := { n := 0, d := 1 }, a24 := { n := 0, d := 1 }, a33 := { n := 63, d := 1 }, a34 := { n := 0, d := 1 }, a44 := { n := 0, d := 1 } }, deleted := true }, { position := { x := { n := 0, d := 1 }, y := { n := 1, d := 1 }, z := { n := 0, d := 1 } }, faces := [0], edges := [1, 2], quadric := { a11 := { n := 0, d := 1 }, a12 := { n := 0, d := 1 }, a13 := { n := 0, d := 1 }, a14 := { n := 0, d := 1 }, a22 := { n := 0, d := 1 }, a23 := { n := 0, d := 1 }, a24 := { n := 0, d := 1 }, a33 := { n := 1, d := 2 }, a34 := { n := 0, d := 1 }, a44 := { n := 0, d := 1 } }, deleted := true }, { position := { x := { n := 21, d := 4 }, y := { n := 1, d := 2 }, z := { n := 0, d := 1 } }, faces := [1, 2, 3, 4, 5, 6], edges := [3, 5], quadric := { a11 := { n := 0, d := 1 }, a12 := { n := 0, d := 1 }, a13 := { n := 0, d := 1 }, a14 := { n := 0, d := 1 }, a22 := { n := 0, d := 1 }, a23 := { n := 0, d := 1 }, a24 := { n := 0, d := 1 }, a33 := { n := 64, d := 1 }, a34 := { n := 0, d := 1 }, a44 := { n := 0, d := 1 } }, deleted := false }, { position := { x := { n := 6, d := 1 }, y := { n := 0, d := 1 }, z := { n := 0, d := 1 } }, faces := [1, 2, 3, 4, 5, 6], edges := [3, 4, 6, 7, 9, 11, 13, 15], quadric := { a11 := { n := 0, d := 1 }, a12 := { n := 0, d := 1 }, a13 := { n := 0, d := 1 }, a14 := { n := 0, d := 1 }, a22 := { n := 0, d := 1 }, a23 := { n := 0, d := 1 }, a24 := { n := 0, d := 1 }, a33 := { n := 63, d := 1 }, a34 := { n := 0, d := 1 }, a44 := { n := 0, d := 1 } }, deleted := true }, { position := { x := { n := 5, d := 1 }, y := { n := 1, d := 1 }, z := { n := 0, d := 1 } }, faces := [1], edges := [4, 5], quadric := { a11 := { n := 0, d := 1 }, a12 := { n := 0, d := 1 }, a13 := { n := 0, d := 1 }, a14 := { n := 0, d := 1 }, a22 := { n := 0, d := 1 }, a23 := { n := 0, d := 1 }, a24 := { n := 0, d := 1 }, a33 := { n := 1, d := 2 }, a34 := { n := 0, d := 1 }, a44 := { n := 0, d := 1 } }, deleted := true }, { position := { x := { n := 1, d := 1 }, y := { n := 5, d := 1 }, z := { n := 0, d := 1 } }, faces := [2], edges := [7, 8], quadric := { a11 := { n := 0, d := 1 }, a12 := { n := 0, d := 1 }, a13 := { n := 0, d := 1 }, a14 := { n := 0, d := 1 }, a22 := { n := 0, d := 1 }, a23 := { n := 0, d := 1 }, a24 := { n := 0, d := 1 }, a33 := { n := 25, d := 2 }, a34 := { n := 0, d := 1 }, a44 := { n := 0, d := 1 } }, deleted := false }, { position := { x := { n := 2, d := 1 }, y := { n := 5, d := 1 }, z := { n := 0, d := 1 } }, faces := [3], edges := [9, 10], quadric := { a11 := { n := 0, d := 1 }, a12 := { n := 0, d := 1 }, a13 := { n := 0, d := 1 }, a14 := { n := 0, d := 1 }, a22 := { n := 0, d := 1 }, a23 := { n := 0, d := 1 }, a24 := { n := 0, d := 1 }, a33 := { n := 25, d := 2 }, a34 := { n := 0, d := 1 }, a44 := { n := 0, d := 1 } }, deleted := false }, { position := { x := { n := 3, d := 1 }, y := { n := 5, d := 1 }, z := { n := 0, d := 1 } }, faces := [4], edges := [11, 12], quadric := { a11 := { n := 0, d := 1 }, a12 := { n := 0, d := 1 }, a13 := { n := 0, d := 1 }, a14 := { n := 0, d := 1 }, a22 := { n := 0, d := 1 }, a23 := { n := 0, d := 1 }, a24 := { n := 0, d := 1 }, a33 := { n := 25, d := 2 }, a34 := { n := 0, d := 1 }, a44 := { n := 0, d := 1 } }, deleted := false }, { position := { x := { n := 4, d := 1 }, y := { n := 5, d := 1 }, z := { n := 0, d := 1 } }, faces := [5], edges := [13, 14], quadric := { a11 := { n := 0, d := 1 }, a12 := { n := 0, d := 1 }, a13 := { n := 0, d := 1 }, a14 := { n := 0, d := 1 }, a22 := { n := 0, d := 1 }, a23 := { n := 0, d := 1 }, a24 := { n := 0, d := 1 }, a33 := { n := 25, d := 2 }, a34 := { n := 0, d := 1 }, a44 := { n := 0, d := 1 } }, deleted := false }, { position := { x := { n := 5, d := 1 }, y := { n := 5, d := 1 }, z := { n := 0, d := 1 } }, faces := [6], edges := [15, 16], quadric := { a11 := { n := 0, d := 1 }, a12 := { n := 0, d := 1 }, a13 := { n := 0, d := 1 }, a14 := { n := 0, d := 1 }, a22 := { n := 0, d := 1 }, a23 := { n := 0, d := 1 }, a24 := { n := 0, d := 1 }, a33 := { n := 25, d := 2 }, a34 := { n := 0, d := 1 }, a44 := { n := 0, d := 1 } }, deleted := false }], faces := [{ v0 := 0, v1 := 1, v2 := 2, deleted := true, normal := some { x := { n := 0, d := 1 }, y := { n := 0, d := 1 }, z := { n := 1, d := 1 } }, area := { n := 1, d := 2 } }, { v0 := 3, v1 := 4, v2 := 5, deleted := true, normal := some { x := { n := 0, d := 1 }, y := { n := 0, d := 1 }, z := { n := 1, d := 1 } }, area := { n := 1, d := 2 } }, { v0 := 0, v1 := 3, v2 := 6, deleted := false, normal := some { x := { n := 0, d := 1 }, y := { n := 0, d := 1 }, z := { n := 1, d := 1 } }, area := { n := 12, d := 1 } }, { v0 := 0, v1 := 3, v2 := 7, deleted := false, normal := some { x := { n := 0, d := 1 }, y := { n := 0, d := 1 }, z := { n := 1, d := 1 } }, area := { n := 49, d := 4 } }, { v0 := 0, v1 := 3, v2 := 8, deleted := false, normal := some { x := { n := 0, d := 1 }, y := { n := 0, d := 1 }, z := { n := 1, d := 1 } }, area := { n := 25, d := 2 } }, { v0 := 0, v1 := 3, v2 := 9, deleted := false, normal := some { x := { n := 0, d := 1 }, y := { n := 0, d := 1 }, z := { n := 1, d := 1 } }, area := { n := 51, d := 4 } }, { v0 := 0, v1 := 3, v2 := 10, deleted := false, normal := some { x := { n := 0, d := 1 }, y := { n := 0, d := 1 }, z := { n := 1, d := 1 } }, area := { n := 13, d := 1 } }], edges := [{ v0 := 0, v1 := 1, faces := [0], cost := some { n := 0, d := 1 }, target := some { x := { n := 1, d := 2 }, y := { n := 0, d := 1 }, z := { n := 0, d := 1 } }, deleted := true }, { v0 := 1, v1 := 2, faces := [0], cost := some { n := 0, d := 1 }, target := some { x := { n := 1, d := 2 }, y := { n := 1, d := 2 }, z := { n := 0, d := 1 } }, deleted := false }, { v0 := 0, v1 := 2, faces := [0], cost := some { n := 0, d := 1 }, target := some { x := { n := 1, d := 4 }, y := { n := 1, d := 2 }, z := { n := 0, d := 1 } }, deleted := true }, { v0 := 3, v1 := 4, faces := [1], cost := some { n := 0, d := 1 }, target := some { x := { n := 11, d := 2 }, y := { n := 0, d := 1 }, z := { n := 0, d := 1 } }, deleted := true }, { v0 := 4, v1 := 5, faces := [1], cost := some { n := 0, d := 1 }, target := some { x := { n := 11, d := 2 }, y := { n := 1, d := 2 }, z := { n := 0, d := 1 } }, deleted := false }, { v0 := 3, v1 := 5, faces := [1], cost := some { n := 0, d := 1 }, target := some { x := { n := 21, d := 4 }, y := { n := 1, d := 2 }, z := { n := 0, d := 1 } }, deleted := true }, { v0 := 1, v1 := 4, faces := [2, 3, 4, 5, 6], cost := some { n := 0, d := 1 }, target := some { x := { n := 7, d := 2 }, y := { n := 0, d := 1 }, z := { n := 0, d := 1 } }, deleted := true }, { v0 := 4, v1 := 6, faces := [2], cost := some { n := 0, d := 1 }, target := some { x := { n := 7, d := 2 }, y := { n := 5, d := 2 }, z := { n := 0, d := 1 } }, deleted := true }, { v0 := 1, v1 := 6, faces := [2], cost := some { n := 0, d := 1 }, target := some { x := { n := 1, d := 1 }, y := { n := 5, d := 2 }, z := { n := 0, d := 1 } }, deleted := true }, { v0 := 4, v1 := 7, faces := [3], cost := some { n := 0, d := 1 }, target := some { x := { n := 4, d := 1 }, y := { n := 5, d := 2 }, z := { n := 0, d := 1 } }, deleted := true }, { v0 := 1, v1 := 7, faces := [3], cost := some { n := 0, d := 1 }, target := some { x := { n := 3, d := 2 }, y := { n := 5, d := 2 }, z := { n := 0, d := 1 } }, deleted := true }, { v0 := 4, v1 := 8, faces := [4], cost := some { n := 0, d := 1 }, target := some { x := { n := 9, d := 2 }, y := { n := 5, d := 2 }, z := { n := 0, d := 1 } }, deleted := true }, { v0 := 1, v1 := 8, faces := [4], cost := some { n := 0, d := 1 }, target := some { x := { n := 2, d := 1 }, y := { n := 5, d := 2 }, z := { n := 0, d := 1 } }, deleted := true }, { v0 := 4, v1 := 9, faces := [5], cost := some { n := 0, d := 1 }, target := some { x := { n := 5, d := 1 }, y := { n := 5, d := 2 }, z := { n := 0, d := 1 } }, deleted := true }, { v0 := 1, v1 := 9, faces := [5], cost := some { n := 0, d := 1 }, target := some { x := { n := 5, d := 2 }, y := { n := 5, d := 2 }, z := { n := 0, d := 1 } }, deleted := true }, { v0 := 4, v1 := 10, faces := [6], cost := some { n := 0, d := 1 }, target := some { x := { n := 11, d := 2 }, y := { n := 5, d := 2 }, z := { n := 0, d := 1 } }, deleted := true }, { v0 := 1, v1 := 10, faces := [6], cost := some { n := 0, d := 1 }, target := some { x := { n := 3, d := 1 }, y := { n := 5, d := 2 }, z := { n := 0, d := 1 } }, deleted := true }] }

/-- Well-formedness of a vector: positive denominators in all three
coordinates. -/
def Vec3.wf (v : Vec3) : Prop := v.x.wf ∧ v.y.wf ∧ v.z.wf

instance (a : JNum) : Decidable (JNum.wf a) := by unfold JNum.wf; infer_instance

instance (v : Vec3) : Decidable (Vec3.wf v) := by unfold Vec3.wf; infer_instance

/-- Tombstone monotonicity between two states: every deleted face, vertex
or edge stays deleted (the containers are never compacted, so records are
compared index by index). -/
def DeletedMono (s s2 : SimState) : Prop :=
  (∀ i, (fce s i).deleted = true → (fce s2 i).deleted = true) ∧
  (∀ i, (vtx s i).deleted = true → (vtx s2 i).deleted = true) ∧
  (∀ i, (edg s i).deleted = true → (edg s2 i).deleted = true)

/-- One engine step relation used for the tombstoning claims: container
lengths are unchanged and deleted flags are monotone. -/
def StepOK (s s2 : SimState) : Prop :=
  s2.vertices.length = s.vertices.length ∧
  s2.faces.length = s.faces.length ∧
  s2.edges.length = s.edges.length ∧
  DeletedMono s s2

/-- The quadric accumulated onto one fixed vertex by computeQuadrics,
written as a direct fold over the face list: per live face with a
computed normal, the area-scaled plane quadric is added once for every
vertex slot that names the vertex, in slot order. -/
def quadricAccum (s : SimState) (vi : Nat) : Quadric :=
  s.faces.foldl
    (fun acc face =>
      if face.deleted || face.normal == none then acc
      else
        let q := faceContrib s face
        let a1 := if face.v0 = vi then acc.add q else acc
        let a2 := if face.v1 = vi then a1.add q else a1
        if face.v2 = vi then a2.add q else a2)
    Quadric.zeroQ

/-- The originalFaces field of a completion message. -/
def WorkerMsg.origField : WorkerMsg → Option JNum
  | WorkerMsg.complete _ o _ => some o
  | WorkerMsg.error _ => none

/-- The positions field of a completion message. -/
def WorkerMsg.posField : WorkerMsg → Option (List JNum)
  | WorkerMsg.complete p _ _ => some p
  | WorkerMsg.error _ => none

/-- Invariant of the extraction vertex map: every mapped index denotes an
existing vertex, and no index is reachable from two different keys. -/
def VMapInv (st : ExtractSt) : Prop :=
  (∀ k j, alookup k st.vmap = some j → j < st.vertices.length) ∧
  (∀ k1 k2 j, alookup k1 st.vmap = some j → alookup k2 st.vmap = some j → k1 = k2)

/-- Structural invariant of extraction output used by the rebuild claims:
faces are live with pairwise-distinct in-range vertices, each face is
registered on its three vertices, vertices are live, and vertex face
lists only hold indices of existing faces. -/
def ExtractInv (st : ExtractSt) : Prop :=
  (∀ fi, fi < st.faces.length →
      ((getI st.faces fi).deleted = false ∧
        (getI st.faces fi).v0 ≠ (getI st.faces fi).v1 ∧
        (getI st.faces fi).v1 ≠ (getI st.faces fi).v2 ∧
        (getI st.faces fi).v2 ≠ (getI st.faces fi).v0 ∧
        (getI st.faces fi).v0 < st.vertices.length ∧
        (getI st.faces fi).v1 < st.vertices.length ∧
        (getI st.faces fi).v2 < st.vertices.length)) ∧
  (∀ vi, vi < st.vertices.length → (getI st.vertices vi).deleted = false) ∧
  (∀ fi, fi < st.faces.length →
      fi ∈ (getI st.vertices (getI st.faces fi).v0).faces ∧
      fi ∈ (getI st.vertices (getI st.faces fi).v1).faces ∧
      fi ∈ (getI st.vertices (getI st.faces fi).v2).faces) ∧
  (∀ vi, vi < st.vertices.length → ∀ fj ∈ (getI st.vertices vi).faces, fj < st.faces.length)

/-- A collinear triangle with three distinct resolved vertices: its cross
product, and hence its area, is exactly zero. -/
def c5zeroInput : List JNum := triZ 0 0 1 0 2 0

/-- What the topology/quadric/cost phases leave untouched: the face list
itself and, per vertex, the deleted flag, the incident-face list and the
position (those phases write only edge containers, vertex edge lists and
vertex quadrics).  buildGeometry reads nothing else. -/
def PresV (s s2 : SimState) : Prop :=
  s2.faces = s.faces ∧
  ∀ i, (vtx s2 i).deleted = (vtx s i).deleted ∧
    (vtx s2 i).faces = (vtx s i).faces ∧
    (vtx s2 i).position = (vtx s i).position

theorem length_updAt {α : Type} (l : List α) (i : Nat) (f : α → α) :
    (updAt l i f).length = l.length := by
  induction l generalizing i with
  | nil => rfl
  | cons a t ih =>
    cases i with
    | zero => rfl
    | succ j => simp [updAt, ih]

theorem getI_cons_zero {α : Type} [Inhabited α] (a : α) (l : List α) :
    getI (a :: l) 0 = a := rfl

theorem getI_cons_succ {α : Type} [Inhabited α] (a : α) (l : List α) (j : Nat) :
    getI (a :: l) (j + 1) = getI l j := rfl

theorem getI_updAt_ne {α : Type} [Inhabited α] (l : List α) (i j : Nat) (f : α → α)
    (h : i ≠ j) : getI (updAt l i f) j = getI l j := by
  induction l generalizing i j with
  | nil => rfl
  | cons a t ih =>
    cases i with
    | zero =>
      cases j with
      | zero => exact absurd rfl h
      | succ j2 => rfl
    | succ i2 =>
      cases j with
      | zero => rfl
      | succ j2 =>
        have : i2 ≠ j2 := fun hh => h (by rw [hh])
        simp only [updAt, getI_cons_succ]
        exact ih i2 j2 this

theorem getI_updAt_self {α : Type} [Inhabited α] (l : List α) (i : Nat) (f : α → α)
    (h : i < l.length) : getI (updAt l i f) i = f (getI l i) := by
  induction l generalizing i with
  | nil => exact absurd h (by simp)
  | cons a t ih =>
    cases i with
    | zero => rfl
    | succ i2 =>
      simp only [updAt, getI_cons_succ]
      exact ih i2 (Nat.lt_of_succ_lt_succ h)

theorem getI_updAt_cases {α : Type} [Inhabited α] (l : List α) (i j : Nat) (f : α → α) :
    getI (updAt l i f) j = getI l j ∨ getI (updAt l i f) j = f (getI l j) := by
  by_cases hij : i = j
  · subst hij
    by_cases hr : i < l.length
    · exact Or.inr (getI_updAt_self l i f hr)
    · left
      have : updAt l i f = l := by
        induction l generalizing i with
        | nil => rfl
        | cons a t ih =>
          cases i with
          | zero => exact absurd (by simp) hr
          | succ i2 =>
            simp only [updAt, List.cons.injEq, true_and]
            exact ih i2 (fun hh => hr (Nat.succ_lt_succ hh))
      rw [this]
    
  · exact Or.inl (getI_updAt_ne l i j f hij)

theorem countP_le_of_deleted (l l2 : List Face)
    (hlen : l2.length = l.length)
    (h : ∀ i, (getI l i).deleted = true → (getI l2 i).deleted = true) :
    l2.countP (fun f => !f.deleted) ≤ l.countP (fun f => !f.deleted) := by
  induction l generalizing l2 with
  | nil =>
    cases l2 with
    | nil => exact Nat.le_refl 0
    | cons b t2 => exact absurd hlen (by simp)
  | cons a t ih =>
    cases l2 with
    | nil => exact absurd hlen (by simp)
    | cons b t2 =>
      have htl : t2.length = t.length := by simpa using hlen
      have hhead : a.deleted = true → b.deleted = true := h 0
      have htail : ∀ i, (getI t i).deleted = true → (getI t2 i).deleted = true :=
        fun i => h (i + 1)
      have hc := ih t2 htl htail
      simp only [List.countP_cons]
      by_cases hb : b.deleted = true
      · by_cases ha : a.deleted = true
        · simp [ha, hb]
          exact hc
        · simp [hb, Bool.eq_false_iff.mpr ha]
          omega
      · have ha : ¬(a.deleted = true) := fun hh => hb (hhead hh)
        simp [Bool.eq_false_iff.mpr ha, Bool.eq_false_iff.mpr hb]
        omega

theorem stepOK_refl (s : SimState) : StepOK s s :=
  ⟨rfl, rfl, rfl, fun _ h => h, fun _ h => h, fun _ h => h⟩

theorem stepOK_trans {a b c : SimState} (h1 : StepOK a b) (h2 : StepOK b c) : StepOK a c :=
  ⟨h2.1.trans h1.1, h2.2.1.trans h1.2.1, h2.2.2.1.trans h1.2.2.1,
   fun i h => h2.2.2.2.1 i (h1.2.2.2.1 i h),
   fun i h => h2.2.2.2.2.1 i (h1.2.2.2.2.1 i h),
   fun i h => h2.2.2.2.2.2 i (h1.2.2.2.2.2 i h)⟩

theorem stepOK_updVtx (s : SimState) (i : Nat) (f : Vertex → Vertex)
    (hf : ∀ v, v.deleted = true → (f v).deleted = true) :
    StepOK s (updVtx s i f) := by
  refine ⟨length_updAt _ _ _, rfl, rfl, fun j h => h, fun j h => ?_, fun j h => h⟩
  rcases getI_updAt_cases s.vertices i j f with hc | hc
  · rw [vtx, updVtx] at *
    simp only [hc]
    exact h
  · rw [vtx, updVtx] at *
    simp only [hc]
    exact hf _ h

theorem stepOK_updFace (s : SimState) (i : Nat) (f : Face → Face)
    (hf : ∀ v, v.deleted = true → (f v).deleted = true) :
    StepOK s (updFace s i f) := by
  refine ⟨rfl, length_updAt _ _ _, rfl, fun j h => ?_, fun j h => h, fun j h => h⟩
  rcases getI_updAt_cases s.faces i j f with hc | hc
  · rw [fce, updFace] at *
    simp only [hc]
    exact h
  · rw [fce, updFace] at *
    simp only [hc]
    exact hf _ h

theorem stepOK_updEdge (s : SimState) (i : Nat) (f : Edge → Edge)
    (hf : ∀ v, v.deleted = true → (f v).deleted = true) :
    StepOK s (updEdge s i f) := by
  refine ⟨rfl, rfl, length_updAt _ _ _, fun j h => h, fun j h => h, fun j h => ?_⟩
  rcases getI_updAt_cases s.edges i j f with hc | hc
  · rw [edg, updEdge] at *
    simp only [hc]
    exact h
  · rw [edg, updEdge] at *
    simp only [hc]
    exact hf _ h

theorem stepOK_foldl {β : Type} (g : SimState → β → SimState)
    (hg : ∀ s b, StepOK s (g s b)) :
    ∀ (l : List β) (s : SimState), StepOK s (l.foldl g s) := by
  intro l
  induction l with
  | nil => intro s; exact stepOK_refl s
  | cons b t ih => intro s; exact stepOK_trans (hg s b) (ih (g s b))

theorem stepOK_collapseMove (s : SimState) (ei : Nat) : StepOK s (collapseMove s ei) :=
  stepOK_updVtx _ _ _ (fun _ h => h)

theorem stepOK_collapseMerge (s : SimState) (v0i v1i : Nat) :
    StepOK s (collapseMerge s v0i v1i) :=
  stepOK_updVtx _ _ _ (fun _ h => h)

theorem stepOK_collapseDeleteShared (s : SimState) (v0i v1i : Nat) :
    StepOK s (collapseDeleteShared s v0i v1i) :=
  stepOK_foldl _ (fun s2 f => stepOK_updFace s2 f _ (fun _ _ => rfl)) _ s

theorem stepOK_collapseTransfer (s : SimState) (v0i v1i : Nat) :
    StepOK s (collapseTransfer s v0i v1i) := by
  refine stepOK_foldl _ (fun s2 f => ?_) _ s
  by_cases hdel : (fce s2 f).deleted
  · simp only [collapseTransfer, hdel, if_true]
    exact stepOK_refl s2
  · simp only [hdel, if_false]
    have h1 : StepOK s2 (updFace s2 f (fun fa => replaceVert fa v1i v0i)) :=
      stepOK_updFace _ _ _ (fun v h => h)
    have h2 : StepOK (updFace s2 f (fun fa => replaceVert fa v1i v0i))
        (updFace (updFace s2 f (fun fa => replaceVert fa v1i v0i)) f
          (fun fa => computeFaceNormal (updFace s2 f (fun fa2 => replaceVert fa2 v1i v0i)).vertices fa)) :=
      stepOK_updFace _ _ _ (fun v h => h)
    have h12 := stepOK_trans h1 h2
    by_cases hc : (vtx (updFace (updFace s2 f (fun fa => replaceVert fa v1i v0i)) f
        (fun fa => computeFaceNormal (updFace s2 f (fun fa2 => replaceVert fa2 v1i v0i)).vertices fa)) v0i).faces.contains f
    · simp only [hc, if_true]
      exact h12
    · simp only [hc, if_false]
      exact stepOK_trans h12 (stepOK_updVtx _ _ _ (fun v h => h))

theorem stepOK_recomputeVertexEdges (s : SimState) (vi : Nat) :
    StepOK s (recomputeVertexEdges s vi) := by
  unfold recomputeVertexEdges
  by_cases hdel : (vtx s vi).deleted
  · simp only [hdel, if_true]
    exact stepOK_refl s
  · simp only [hdel, if_false]
    refine stepOK_foldl _ (fun s2 ej => ?_) _ s
    by_cases hed : (edg s2 ej).deleted
    · simp only [hed, if_true]
      exact stepOK_refl s2
    · simp only [hed, if_false]
      by_cases hoth : (vtx s2 (if (edg s2 ej).v0 = vi then (edg s2 ej).v1 else (edg s2 ej).v0)).deleted
      · simp only [hoth, if_true]
        exact stepOK_updEdge _ _ _ (fun _ _ => rfl)
      · simp only [hoth, if_false]
        exact stepOK_updEdge _ _ _ (fun v h => h)

theorem stepOK_collapseRecompute (s : SimState) (v0i : Nat) :
    StepOK s (collapseRecompute s v0i) :=
  stepOK_foldl _ (fun s2 vi => stepOK_recomputeVertexEdges s2 vi) _ s

theorem stepOK_collapseEdge (s : SimState) (ei : Nat) : StepOK s (collapseEdge s ei) := by
  unfold collapseEdge
  exact stepOK_trans
    (stepOK_trans
      (stepOK_trans
        (stepOK_trans
          (stepOK_trans
            (stepOK_trans (stepOK_collapseMove s ei) (stepOK_collapseMerge _ _ _))
            (stepOK_collapseDeleteShared _ _ _))
          (stepOK_collapseTransfer _ _ _))
        (stepOK_updVtx _ _ _ (fun _ _ => rfl)))
      (stepOK_updEdge _ _ _ (fun _ _ => rfl)))
    (stepOK_collapseRecompute _ _)

theorem liveFaceCount_le_of_stepOK {s s2 : SimState} (h : StepOK s s2) :
    liveFaceCount s2 ≤ liveFaceCount s :=
  countP_le_of_deleted s.faces s2.faces h.2.1 h.2.2.2.1

theorem collapseEdge_liveFaceCount_le (s : SimState) (ei : Nat) :
    liveFaceCount (collapseEdge s ei) ≤ liveFaceCount s :=
  liveFaceCount_le_of_stepOK (stepOK_collapseEdge s ei)

theorem collapseLoopF_eq (target : Int) (maxIter fuel iter : Nat) (s : SimState) :
    collapseLoopF target maxIter fuel iter s =
      if (liveFaceCount s : Int) > target ∧ iter < maxIter then
        match getMinimumCostEdge s with
        | none => ⟨s, iter, true⟩
        | some ei =>
          if (edg s ei).cost = none then ⟨s, iter, true⟩
          else
            match fuel with
            | 0 => ⟨s, iter, false⟩
            | fuel2 + 1 => collapseLoopF target maxIter fuel2 (iter + 1) (collapseEdge s ei)
      else ⟨s, iter, false⟩ := by
  rw [collapseLoopF]

theorem loopStepLemma (target : Int) (maxIter fuel iter : Nat) (s s2 : SimState) (ei : Nat)
    (hg : (liveFaceCount s : Int) > target) (hi : iter < maxIter)
    (hm : getMinimumCostEdge s = some ei) (hc : ¬((edg s ei).cost = none))
    (hcol : collapseEdge s ei = s2) :
    collapseLoopF target maxIter (fuel + 1) iter s =
      collapseLoopF target maxIter fuel (iter + 1) s2 := by
  rw [collapseLoopF_eq, if_pos (And.intro hg hi), hm]
  show (if (edg s ei).cost = none then (⟨s, iter, true⟩ : LoopResult)
        else collapseLoopF target maxIter fuel (iter + 1) (collapseEdge s ei)) =
      collapseLoopF target maxIter fuel (iter + 1) s2
  rw [if_neg hc, hcol]

theorem loopExitGuard (target : Int) (maxIter fuel iter : Nat) (s : SimState)
    (hg : ¬((liveFaceCount s : Int) > target ∧ iter < maxIter)) :
    collapseLoopF target maxIter fuel iter s = ⟨s, iter, false⟩ := by
  rw [collapseLoopF_eq, if_neg hg]

theorem loopExitExhaust (target : Int) (maxIter fuel iter : Nat) (s : SimState)
    (hg : (liveFaceCount s : Int) > target) (hi : iter < maxIter)
    (hm : getMinimumCostEdge s = none) :
    collapseLoopF target maxIter fuel iter s = ⟨s, iter, true⟩ := by
  rw [collapseLoopF_eq, if_pos (And.intro hg hi), hm]

theorem loopExitInf (target : Int) (maxIter fuel iter : Nat) (s : SimState) (ei : Nat)
    (hg : (liveFaceCount s : Int) > target) (hi : iter < maxIter)
    (hm : getMinimumCostEdge s = some ei) (hc : (edg s ei).cost = none) :
    collapseLoopF target maxIter fuel iter s = ⟨s, iter, true⟩ := by
  rw [collapseLoopF_eq, if_pos (And.intro hg hi), hm]
  show (if (edg s ei).cost = none then (⟨s, iter, true⟩ : LoopResult)
        else match fuel with
          | 0 => ⟨s, iter, false⟩
          | fuel2 + 1 => collapseLoopF target maxIter fuel2 (iter + 1) (collapseEdge s ei)) =
      ⟨s, iter, true⟩
  rw [if_pos hc]

theorem loopExitZeroFuel (target : Int) (maxIter iter : Nat) (s : SimState) (ei : Nat)
    (hg : (liveFaceCount s : Int) > target) (hi : iter < maxIter)
    (hm : getMinimumCostEdge s = some ei) (hc : ¬((edg s ei).cost = none)) :
    collapseLoopF target maxIter 0 iter s = ⟨s, iter, false⟩ := by
  rw [collapseLoopF_eq, if_pos (And.intro hg hi), hm]
  show (if (edg s ei).cost = none then (⟨s, iter, true⟩ : LoopResult)
        else ⟨s, iter, false⟩) = ⟨s, iter, false⟩
  rw [if_neg hc]

theorem collapseLoopF_stepOK (target : Int) (maxIter : Nat) :
    ∀ (fuel iter : Nat) (s : SimState),
      StepOK s (collapseLoopF target maxIter fuel iter s).state := by
  intro fuel
  induction fuel with
  | zero =>
    intro iter s
    by_cases hg : (liveFaceCount s : Int) > target ∧ iter < maxIter
    · match hm : getMinimumCostEdge s with
      | none => rw [loopExitExhaust target maxIter 0 iter s hg.1 hg.2 hm]; exact stepOK_refl s
      | some ei =>
        by_cases hc : (edg s ei).cost = none
        · rw [loopExitInf target maxIter 0 iter s ei hg.1 hg.2 hm hc]; exact stepOK_refl s
        · rw [loopExitZeroFuel target maxIter iter s ei hg.1 hg.2 hm hc]; exact stepOK_refl s
    · rw [loopExitGuard target maxIter 0 iter s hg]; exact stepOK_refl s
  | succ fuel2 ih =>
    intro iter s
    by_cases hg : (liveFaceCount s : Int) > target ∧ iter < maxIter
    · match hm : getMinimumCostEdge s with
      | none =>
        rw [loopExitExhaust target maxIter (fuel2 + 1) iter s hg.1 hg.2 hm]
        exact stepOK_refl s
      | some ei =>
        by_cases hc : (edg s ei).cost = none
        · rw [loopExitInf target maxIter (fuel2 + 1) iter s ei hg.1 hg.2 hm hc]
          exact stepOK_refl s
        · rw [loopStepLemma target maxIter fuel2 iter s (collapseEdge s ei) ei hg.1 hg.2 hm hc rfl]
          exact stepOK_trans (stepOK_collapseEdge s ei) (ih (iter + 1) (collapseEdge s ei))
    · rw [loopExitGuard target maxIter (fuel2 + 1) iter s hg]; exact stepOK_refl s

theorem collapseLoopF_exhausted_spec (target : Int) (maxIter : Nat) :
    ∀ (fuel iter : Nat) (s : SimState),
      (collapseLoopF target maxIter fuel iter s).exhausted = true →
        (liveFaceCount (collapseLoopF target maxIter fuel iter s).state : Int) > target ∧
        (collapseLoopF target maxIter fuel iter s).iter < maxIter ∧
        (getMinimumCostEdge (collapseLoopF target maxIter fuel iter s).state = none ∨
          ∃ ei, getMinimumCostEdge (collapseLoopF target maxIter fuel iter s).state = some ei ∧
            (edg (collapseLoopF target maxIter fuel iter s).state ei).cost = none) := by
  intro fuel
  induction fuel with
  | zero =>
    intro iter s hx
    by_cases hg : (liveFaceCount s : Int) > target ∧ iter < maxIter
    · match hm : getMinimumCostEdge s with
      | none =>
        rw [loopExitExhaust target maxIter 0 iter s hg.1 hg.2 hm]
        exact ⟨hg.1, hg.2, Or.inl hm⟩
      | some ei =>
        by_cases hc : (edg s ei).cost = none
        · rw [loopExitInf target maxIter 0 iter s ei hg.1 hg.2 hm hc]
          exact ⟨hg.1, hg.2, Or.inr ⟨ei, hm, hc⟩⟩
        · rw [loopExitZeroFuel target maxIter iter s ei hg.1 hg.2 hm hc] at hx
          exact absurd hx (by simp)
    · rw [loopExitGuard target maxIter 0 iter s hg] at hx
      exact absurd hx (by simp)
  | succ fuel2 ih =>
    intro iter s hx
    by_cases hg : (liveFaceCount s : Int) > target ∧ iter < maxIter
    · match hm : getMinimumCostEdge s with
      | none =>
        rw [loopExitExhaust target maxIter (fuel2 + 1) iter s hg.1 hg.2 hm]
        exact ⟨hg.1, hg.2, Or.inl hm⟩
      | some ei =>
        by_cases hc : (edg s ei).cost = none
        · rw [loopExitInf target maxIter (fuel2 + 1) iter s ei hg.1 hg.2 hm hc]
          exact ⟨hg.1, hg.2, Or.inr ⟨ei, hm, hc⟩⟩
        · rw [loopStepLemma target maxIter fuel2 iter s (collapseEdge s ei) ei hg.1 hg.2 hm hc rfl] at hx ⊢
          exact ih (iter + 1) (collapseEdge s ei) hx
    · rw [loopExitGuard target maxIter (fuel2 + 1) iter s hg] at hx
      exact absurd hx (by simp)

theorem collapseLoopF_guard_spec (target : Int) (maxIter : Nat) :
    ∀ (fuel iter : Nat) (s : SimState), maxIter ≤ fuel + iter →
      (liveFaceCount (collapseLoopF target maxIter fuel iter s).state : Int) ≤ target ∨
      (collapseLoopF target maxIter fuel iter s).exhausted = true ∨
      maxIter ≤ (collapseLoopF target maxIter fuel iter s).iter := by
  intro fuel
  induction fuel with
  | zero =>
    intro iter s hfi
    by_cases hg : (liveFaceCount s : Int) > target ∧ iter < maxIter
    · exact absurd hg.2 (by omega)
    · rw [loopExitGuard target maxIter 0 iter s hg]
      rcases Decidable.not_and_iff_or_not.mp hg with hng | hni
      · refine Or.inl ?_
        show (liveFaceCount s : Int) ≤ target
        omega
      · refine Or.inr (Or.inr ?_)
        show maxIter ≤ iter
        omega
  | succ fuel2 ih =>
    intro iter s hfi
    by_cases hg : (liveFaceCount s : Int) > target ∧ iter < maxIter
    · match hm : getMinimumCostEdge s with
      | none =>
        rw [loopExitExhaust target maxIter (fuel2 + 1) iter s hg.1 hg.2 hm]
        exact Or.inr (Or.inl rfl)
      | some ei =>
        by_cases hc : (edg s ei).cost = none
        · rw [loopExitInf target maxIter (fuel2 + 1) iter s ei hg.1 hg.2 hm hc]
          exact Or.inr (Or.inl rfl)
        · rw [loopStepLemma target maxIter fuel2 iter s (collapseEdge s ei) ei hg.1 hg.2 hm hc rfl]
          exact ih (iter + 1) (collapseEdge s ei) (by omega)
    · rw [loopExitGuard target maxIter (fuel2 + 1) iter s hg]
      rcases Decidable.not_and_iff_or_not.mp hg with hng | hni
      · refine Or.inl ?_
        show (liveFaceCount s : Int) ≤ target
        omega
      · refine Or.inr (Or.inr ?_)
        show maxIter ≤ iter
        omega

theorem getI_map_cases {α : Type} [Inhabited α] (f : α → α) (l : List α) (i : Nat) :
    getI (l.map f) i = f (getI l i) ∨ getI (l.map f) i = getI l i := by
  induction l generalizing i with
  | nil => exact Or.inr rfl
  | cons a t ih =>
    cases i with
    | zero => exact Or.inl rfl
    | succ j =>
      simp only [List.map_cons, getI_cons_succ]
      exact ih j

theorem edgeCostUpdate_deleted (s : SimState) (e : Edge) :
    (edgeCostUpdate s e).deleted = e.deleted := by
  unfold edgeCostUpdate
  by_cases h1 : e.deleted
  · simp [h1]
  · simp only [h1, if_false]
    by_cases h2 : (vtx s e.v0).deleted || (vtx s e.v1).deleted
    · simp [h2]
    · simp [h2]

theorem stepOK_computeEdgeCosts (s : SimState) : StepOK s (computeEdgeCosts s) := by
  refine ⟨rfl, rfl, by simp [computeEdgeCosts], fun j h => h, fun j h => h, fun j h => ?_⟩
  show (getI (s.edges.map (edgeCostUpdate s)) j).deleted = true
  rcases getI_map_cases (edgeCostUpdate s) s.edges j with hc | hc
  · rw [hc, edgeCostUpdate_deleted]
    exact h
  · rw [hc]
    exact h

theorem stepOK_addQuadricTo (s : SimState) (vi : Nat) (q : Quadric) :
    StepOK s (addQuadricTo s vi q) :=
  stepOK_updVtx _ _ _ (fun _ h => h)

theorem stepOK_computeQuadrics (s : SimState) : StepOK s (computeQuadrics s) := by
  unfold computeQuadrics
  have h1 : StepOK s
      { s with vertices := s.vertices.map (fun v => { v with quadric := Quadric.zeroQ }) } := by
    refine ⟨by simp, rfl, rfl, fun j h => h, fun j h => ?_, fun j h => h⟩
    show (getI (s.vertices.map (fun (v : Vertex) => { v with quadric := Quadric.zeroQ })) j).deleted = true
    rcases getI_map_cases (fun (v : Vertex) => { v with quadric := Quadric.zeroQ }) s.vertices j with hc | hc
    · rw [hc]
      exact h
    · rw [hc]
      exact h
  refine stepOK_trans h1 ?_
  refine stepOK_foldl _ (fun s2 face => ?_) _ _
  by_cases hskip : face.deleted || face.normal == none
  · simp only [hskip, if_true]
    exact stepOK_refl s2
  · simp only [hskip, if_false]
    exact stepOK_trans (stepOK_addQuadricTo _ _ _)
      (stepOK_trans (stepOK_addQuadricTo _ _ _) (stepOK_addQuadricTo _ _ _))

theorem simplifyRun_eq (positions : List JNum) (r : JNum) :
    simplifyRun positions r =
      collapseLoopF (targetFaceCount (extractMeshData positions).faces.length r)
        (extractMeshData positions).faces.length
        (extractMeshData positions).faces.length 0 (pipelineState positions) := rfl

theorem fan_run : simplifyRun fanInput ⟨99, 100⟩ = ⟨fanS1, 1, false⟩ := by
  rw [simplifyRun_eq]
  have hF : (extractMeshData fanInput).faces.length = 5 := by decide
  have hp : pipelineState fanInput = fanPipe := by decide
  have ht : targetFaceCount 5 ⟨99, 100⟩ = 4 := by decide
  rw [hF, hp, ht]
  exact (loopStepLemma 4 5 4 0 fanPipe fanS1 0 (by decide) (by decide) (by decide)
      (by decide) (by decide)).trans
    (loopExitGuard 4 5 4 1 fanS1 (by decide))

theorem c9_run : simplifyRun c9Input ⟨99, 100⟩ = ⟨c9S4, 4, true⟩ := by
  rw [simplifyRun_eq]
  have hF : (extractMeshData c9Input).faces.length = 7 := by decide
  have hp : pipelineState c9Input = c9Pipe := by decide
  have ht : targetFaceCount 7 ⟨99, 100⟩ = 4 := by decide
  rw [hF, hp, ht]
  exact (loopStepLemma 4 7 6 0 c9Pipe c9S1 0 (by decide) (by decide) (by decide)
      (by decide) (by decide)).trans
    ((loopStepLemma 4 7 5 1 c9S1 c9S2 2 (by decide) (by decide) (by decide)
        (by decide) (by decide)).trans
      ((loopStepLemma 4 7 4 2 c9S2 c9S3 3 (by decide) (by decide) (by decide)
          (by decide) (by decide)).trans
        ((loopStepLemma 4 7 3 3 c9S3 c9S4 5 (by decide) (by decide) (by decide)
            (by decide) (by decide)).trans
          (loopExitExhaust 4 7 3 4 c9S4 (by decide) (by decide) (by decide)))))

/-- C1 (amended): the target face count never falls below 4, and the
collapse loop of simplify stops in exactly one of three ways: the live
face count has reached the target, the loop broke by exhaustion (no
collapsible edge, or a minimum of infinite cost), or the iteration cap
of originalFaceCount was hit.  The original claim is amended because the
final count is not always at most the target (exhaustion and the cap can
stop the loop above it) and because the loop can terminate strictly below
the 4-face floor, as the counterexample shows. -/
theorem C1_loop_exit_characterisation (positions : List JNum) (r : JNum) :
    4 ≤ targetFaceCount (extractMeshData positions).faces.length r ∧
    ((liveFaceCount (simplifyRun positions r).state : Int) ≤
        targetFaceCount (extractMeshData positions).faces.length r ∨
      (simplifyRun positions r).exhausted = true ∨
      (extractMeshData positions).faces.length ≤ (simplifyRun positions r).iter) := by
  constructor
  · exact le_max_left 4 _
  · rw [simplifyRun_eq]
    exact collapseLoopF_guard_spec _ _ _ 0 _ (by omega)

/-- C1 counterexample: on the closed planar fan of 5 faces with
targetReduction 0.99 the engine performs one collapse that removes two
faces and returns a mesh of 3 live faces, strictly below the 4-face
floor that the claim says is never crossed (the target was 4). -/
theorem C1_counterexample :
    liveFaceCount (simplifyRun fanInput ⟨99, 100⟩).state = 3 ∧
    targetFaceCount (extractMeshData fanInput).faces.length ⟨99, 100⟩ = 4 ∧
    (simplify fanInput ⟨99, 100⟩).length = 27 ∧ (3 : Nat) < 4 := by
  refine ⟨?_, by decide, ?_, by decide⟩
  · rw [fan_run]
    decide
  · show (buildGeometry (simplifyRun fanInput ⟨99, 100⟩).state).length = 27
    rw [fan_run]
    decide

/-- C3 (amended): after every collapseEdge call the live face count is
no greater than before, and deleted flags on faces, vertices and edges,
once set, are never cleared by collapseEdge, computeQuadrics,
computeEdgeCosts or the whole collapse loop, so the live face count is
non-increasing over the whole loop.  The original claim is amended
because a collapse does not always remove at least one face: the
counterexample exhibits an engine-reachable collapse that removes zero
faces. -/
theorem C3_tombstoning_monotone :
    (∀ (s : SimState) (ei : Nat),
        liveFaceCount (collapseEdge s ei) ≤ liveFaceCount s ∧
        DeletedMono s (collapseEdge s ei)) ∧
    (∀ s : SimState, DeletedMono s (computeQuadrics s)) ∧
    (∀ s : SimState, DeletedMono s (computeEdgeCosts s)) ∧
    (∀ (target : Int) (maxIter fuel iter : Nat) (s : SimState),
        liveFaceCount (collapseLoopF target maxIter fuel iter s).state ≤ liveFaceCount s ∧
        DeletedMono s (collapseLoopF target maxIter fuel iter s).state) := by
  refine ⟨fun s ei => ⟨collapseEdge_liveFaceCount_le s ei, ?_⟩,
    fun s => (stepOK_computeQuadrics s).2.2.2,
    fun s => (stepOK_computeEdgeCosts s).2.2.2,
    fun target maxIter fuel iter s => ⟨?_, ?_⟩⟩
  · exact (stepOK_collapseEdge s ei).2.2.2
  · exact liveFaceCount_le_of_stepOK (collapseLoopF_stepOK target maxIter fuel iter s)
  · exact (collapseLoopF_stepOK target maxIter fuel iter s).2.2.2

/-- C3 witness: the monotonicity theorem applied to a concrete engine
state (the fan state after its collapse, where faces 0 and 4 are already
tombstoned). -/
theorem C3_witness :
    liveFaceCount (collapseEdge fanS1 1) ≤ liveFaceCount fanS1 ∧
    (fce (collapseEdge fanS1 1) 0).deleted = true := by
  refine ⟨(C3_tombstoning_monotone.1 fanS1 1).1, ?_⟩
  exact (C3_tombstoning_monotone.1 fanS1 1).2.1 0 (by decide)

/-- C3 counterexample: in the engine run on c3Input the first collapse
(of minimum-cost edge 0) leaves 6 live faces with the loop guard still
holding, the next minimum-cost edge is edge 2, and collapsing it removes
zero faces, contradicting the claim that each collapse removes at least
one face. -/
theorem C3_counterexample :
    getMinimumCostEdge (pipelineState c3Input) = some 0 ∧
    (liveFaceCount (pipelineState c3Input) : Int) >
      targetFaceCount (extractMeshData c3Input).faces.length ⟨99, 100⟩ ∧
    liveFaceCount (collapseEdge (pipelineState c3Input) 0) = 6 ∧
    (liveFaceCount (collapseEdge (pipelineState c3Input) 0) : Int) >
      targetFaceCount (extractMeshData c3Input).faces.length ⟨99, 100⟩ ∧
    getMinimumCostEdge (collapseEdge (pipelineState c3Input) 0) = some 2 ∧
    liveFaceCount (collapseEdge (collapseEdge (pipelineState c3Input) 0) 2) = 6 := by
  have hp : pipelineState c3Input = c3Pipe := by decide
  have hs : collapseEdge c3Pipe 0 = c3S1 := by decide
  rw [hp, hs]
  refine ⟨by decide, by decide, by decide, by decide, by decide, by decide⟩

/-- C6 counterexample: on the flat quad given as two source triangles
with targetReduction 0.99 the engine returns 2 faces, not the 4 the
claim states: the extracted face count 2 is already at or below the
4-face target, so the collapse loop never runs. -/
theorem C6_counterexample :
    liveFaceCount (simplifyRun quadInput ⟨99, 100⟩).state = 2 ∧
    ¬ liveFaceCount (simplifyRun quadInput ⟨99, 100⟩).state = 4 := by
  constructor
  · decide
  · decide

/-- C6 (amended): on the flat quad with targetReduction 0.99 the engine
converges to exactly 2 output faces, never 0, performing zero collapses
(the 2 extracted faces do not exceed the target floor of 4, so the loop
body never runs and the input survives unchanged). -/
theorem C6_quad_two_faces :
    liveFaceCount (simplifyRun quadInput ⟨99, 100⟩).state = 2 ∧
    (simplifyRun quadInput ⟨99, 100⟩).iter = 0 ∧
    targetFaceCount (extractMeshData quadInput).faces.length ⟨99, 100⟩ = 4 ∧
    (simplify quadInput ⟨99, 100⟩).length = 18 ∧
    ¬ liveFaceCount (simplifyRun quadInput ⟨99, 100⟩).state = 0 := by
  refine ⟨by decide, by decide, by decide, by decide, by decide⟩

/-- C9: whenever the collapse loop of simplify ends through the
exhaustion break (no edge found by the minimum-cost scan, or only one of
infinite cost), the run still stopped above the target (a
smaller-than-requested reduction), and the worker posts a successful
complete message carrying the rebuilt best-effort mesh, not an error. -/
theorem C9_exhaustion_is_success (positions : List JNum) (r : JNum)
    (hx : (simplifyRun positions r).exhausted = true) :
    (liveFaceCount (simplifyRun positions r).state : Int) >
      targetFaceCount (extractMeshData positions).faces.length r ∧
    (getMinimumCostEdge (simplifyRun positions r).state = none ∨
      ∃ ei, getMinimumCostEdge (simplifyRun positions r).state = some ei ∧
        (edg (simplifyRun positions r).state ei).cost = none) ∧
    workerOnMessage positions r =
      WorkerMsg.complete (buildGeometry (simplifyRun positions r).state)
        (JNum.mul (JNum.ofNat positions.length) ⟨1, 9⟩)
        (JNum.mul (JNum.ofNat (buildGeometry (simplifyRun positions r).state).length) ⟨1, 9⟩) := by
  rw [simplifyRun_eq] at hx ⊢
  have h := collapseLoopF_exhausted_spec
    (targetFaceCount (extractMeshData positions).faces.length r)
    (extractMeshData positions).faces.length
    (extractMeshData positions).faces.length 0 (pipelineState positions) hx
  exact ⟨h.1, h.2.2, rfl⟩

/-- C9 witness: the c9Input run ends by exhaustion with 5 live faces,
above the target 4, and the worker response is a complete message. -/
theorem C9_witness :
    (simplifyRun c9Input ⟨99, 100⟩).exhausted = true ∧
    ((liveFaceCount (simplifyRun c9Input ⟨99, 100⟩).state : Int) >
      targetFaceCount (extractMeshData c9Input).faces.length ⟨99, 100⟩ ∧
    (getMinimumCostEdge (simplifyRun c9Input ⟨99, 100⟩).state = none ∨
      ∃ ei, getMinimumCostEdge (simplifyRun c9Input ⟨99, 100⟩).state = some ei ∧
        (edg (simplifyRun c9Input ⟨99, 100⟩).state ei).cost = none) ∧
    workerOnMessage c9Input ⟨99, 100⟩ =
      WorkerMsg.complete (buildGeometry (simplifyRun c9Input ⟨99, 100⟩).state)
        (JNum.mul (JNum.ofNat c9Input.length) ⟨1, 9⟩)
        (JNum.mul (JNum.ofNat (buildGeometry (simplifyRun c9Input ⟨99, 100⟩).state).length) ⟨1, 9⟩)) := by
  have hx : (simplifyRun c9Input ⟨99, 100⟩).exhausted = true := by
    rw [c9_run]
  exact ⟨hx, C9_exhaustion_is_success c9Input ⟨99, 100⟩ hx⟩

theorem getI_map_lt {α : Type} [Inhabited α] (f : α → α) (l : List α) (i : Nat)
    (h : i < l.length) : getI (l.map f) i = f (getI l i) := by
  induction l generalizing i with
  | nil => exact absurd h (by simp)
  | cons a t ih =>
    cases i with
    | zero => rfl
    | succ j =>
      simp only [List.map_cons, getI_cons_succ]
      exact ih j (Nat.lt_of_succ_lt_succ h)

theorem computeEdgeCosts_getI (s : SimState) (i : Nat) (hi : i < s.edges.length) :
    edg (computeEdgeCosts s) i = edgeCostUpdate s (edg s i) := by
  show getI (s.edges.map (edgeCostUpdate s)) i = edgeCostUpdate s (getI s.edges i)
  exact getI_map_lt _ _ _ hi

/-- C2: for every non-deleted edge of a state in which all incident faces
of that edge are live (as holds at the single point of the pipeline where
computeEdgeCosts runs), computeEdgeCosts sets the collapse target to the
arithmetic midpoint of the endpoint positions and the cost to the sum of
the endpoint quadrics evaluated at that midpoint, multiplied by 10
exactly when the edge has fewer than 2 live incident faces; for an edge
with an already-deleted endpoint the cost is set to the Infinity
sentinel. -/
theorem C2_edge_cost_formula (s : SimState) (i : Nat) (hi : i < s.edges.length)
    (hnd : (edg s i).deleted = false)
    (hlive : ∀ f ∈ (edg s i).faces, (fce s f).deleted = false) :
    (((vtx s (edg s i).v0).deleted = true ∨ (vtx s (edg s i).v1).deleted = true) →
        (edg (computeEdgeCosts s) i).cost = none) ∧
    ((vtx s (edg s i).v0).deleted = false → (vtx s (edg s i).v1).deleted = false →
        (edg (computeEdgeCosts s) i).target =
          some (edgeMidpoint (vtx s (edg s i).v0).position (vtx s (edg s i).v1).position) ∧
        (edg (computeEdgeCosts s) i).cost =
          some (if liveEdgeFaceCount s (edg s i) < 2
            then ((Quadric.add (vtx s (edg s i).v0).quadric (vtx s (edg s i).v1).quadric).evalAt
                (edgeMidpoint (vtx s (edg s i).v0).position (vtx s (edg s i).v1).position).x
                (edgeMidpoint (vtx s (edg s i).v0).position (vtx s (edg s i).v1).position).y
                (edgeMidpoint (vtx s (edg s i).v0).position (vtx s (edg s i).v1).position).z).mul jten
            else (Quadric.add (vtx s (edg s i).v0).quadric (vtx s (edg s i).v1).quadric).evalAt
                (edgeMidpoint (vtx s (edg s i).v0).position (vtx s (edg s i).v1).position).x
                (edgeMidpoint (vtx s (edg s i).v0).position (vtx s (edg s i).v1).position).y
                (edgeMidpoint (vtx s (edg s i).v0).position (vtx s (edg s i).v1).position).z) ∧
        liveEdgeFaceCount s (edg s i) = (edg s i).faces.length) := by
  have hcount : liveEdgeFaceCount s (edg s i) = (edg s i).faces.length := by
    unfold liveEdgeFaceCount
    refine List.countP_eq_length.mpr ?_
    intro f hf
    simp [hlive f hf]
  rw [computeEdgeCosts_getI s i hi]
  unfold edgeCostUpdate
  rw [if_neg (by simp [hnd])]
  constructor
  · intro hdead
    have : ((vtx s (edg s i).v0).deleted || (vtx s (edg s i).v1).deleted) = true := by
      rcases hdead with h0 | h1
      · simp [h0]
      · simp [h1]
    simp only [this, if_true]
  · intro h0 h1
    have : ((vtx s (edg s i).v0).deleted || (vtx s (edg s i).v1).deleted) = false := by
      simp [h0, h1]
    simp only [this, Bool.false_eq_true, if_false]
    rw [hcount]
    exact ⟨trivial, rfl, rfl⟩

/-- C2 witness: the cost formula instantiated on the pipeline state of a
single live triangle, at its first edge (a boundary edge of one live
incident face, so the times-10 branch applies). -/
theorem C2_witness :
    ((0 : Nat) < (computeQuadrics (buildEdges (extractMeshData c2Input))).edges.length ∧
      (edg (computeQuadrics (buildEdges (extractMeshData c2Input))) 0).deleted = false ∧
      (∀ f ∈ (edg (computeQuadrics (buildEdges (extractMeshData c2Input))) 0).faces,
        (fce (computeQuadrics (buildEdges (extractMeshData c2Input))) f).deleted = false)) ∧
    ((vtx (computeQuadrics (buildEdges (extractMeshData c2Input)))
          (edg (computeQuadrics (buildEdges (extractMeshData c2Input))) 0).v0).deleted = false →
      (vtx (computeQuadrics (buildEdges (extractMeshData c2Input)))
          (edg (computeQuadrics (buildEdges (extractMeshData c2Input))) 0).v1).deleted = false →
      (edg (computeEdgeCosts (computeQuadrics (buildEdges (extractMeshData c2Input)))) 0).target =
        some (edgeMidpoint
          (vtx (computeQuadrics (buildEdges (extractMeshData c2Input)))
            (edg (computeQuadrics (buildEdges (extractMeshData c2Input))) 0).v0).position
          (vtx (computeQuadrics (buildEdges (extractMeshData c2Input)))
            (edg (computeQuadrics (buildEdges (extractMeshData c2Input))) 0).v1).position) ∧
      (edg (computeEdgeCosts (computeQuadrics (buildEdges (extractMeshData c2Input)))) 0).cost =
        some (if liveEdgeFaceCount (computeQuadrics (buildEdges (extractMeshData c2Input)))
            (edg (computeQuadrics (buildEdges (extractMeshData c2Input))) 0) < 2
          then ((Quadric.add
              (vtx (computeQuadrics (buildEdges (extractMeshData c2Input)))
                (edg (computeQuadrics (buildEdges (extractMeshData c2Input))) 0).v0).quadric
              (vtx (computeQuadrics (buildEdges (extractMeshData c2Input)))
                (edg (computeQuadrics (buildEdges (extractMeshData c2Input))) 0).v1).quadric).evalAt
              (edgeMidpoint
                (vtx (computeQuadrics (buildEdges (extractMeshData c2Input)))
                  (edg (computeQuadrics (buildEdges (extractMeshData c2Input))) 0).v0).position
                (vtx (computeQuadrics (buildEdges (extractMeshData c2Input)))
                  (edg (computeQuadrics (buildEdges (extractMeshData c2Input))) 0).v1).position).x
              (edgeMidpoint
                (vtx (computeQuadrics (buildEdges (extractMeshData c2Input)))
                  (edg (computeQuadrics (buildEdges (extractMeshData c2Input))) 0).v0).position
                (vtx (computeQuadrics (buildEdges (extractMeshData c2Input)))
                  (edg (computeQuadrics (buildEdges (extractMeshData c2Input))) 0).v1).position).y
              (edgeMidpoint
                (vtx (computeQuadrics (buildEdges (extractMeshData c2Input)))
                  (edg (computeQuadrics (buildEdges (extractMeshData c2Input))) 0).v0).position
                (vtx (computeQuadrics (buildEdges (extractMeshData c2Input)))
                  (edg (computeQuadrics (buildEdges (extractMeshData c2Input))) 0).v1).position).z).mul jten
          else (Quadric.add
              (vtx (computeQuadrics (buildEdges (extractMeshData c2Input)))
                (edg (computeQuadrics (buildEdges (extractMeshData c2Input))) 0).v0).quadric
              (vtx (computeQuadrics (buildEdges (extractMeshData c2Input)))
                (edg (computeQuadrics (buildEdges (extractMeshData c2Input))) 0).v1).quadric).evalAt
              (edgeMidpoint
                (vtx (computeQuadrics (buildEdges (extractMeshData c2Input)))
                  (edg (computeQuadrics (buildEdges (extractMeshData c2Input))) 0).v0).position
                (vtx (computeQuadrics (buildEdges (extractMeshData c2Input)))
                  (edg (computeQuadrics (buildEdges (extractMeshData c2Input))) 0).v1).position).x
              (edgeMidpoint
                (vtx (computeQuadrics (buildEdges (extractMeshData c2Input)))
                  (edg (computeQuadrics (buildEdges (extractMeshData c2Input))) 0).v0).position
                (vtx (computeQuadrics (buildEdges (extractMeshData c2Input)))
                  (edg (computeQuadrics (buildEdges (extractMeshData c2Input))) 0).v1).position).y
              (edgeMidpoint
                (vtx (computeQuadrics (buildEdges (extractMeshData c2Input)))
                  (edg (computeQuadrics (buildEdges (extractMeshData c2Input))) 0).v0).position
                (vtx (computeQuadrics (buildEdges (extractMeshData c2Input)))
                  (edg (computeQuadrics (buildEdges (extractMeshData c2Input))) 0).v1).position).z) ∧
      liveEdgeFaceCount (computeQuadrics (buildEdges (extractMeshData c2Input)))
        (edg (computeQuadrics (buildEdges (extractMeshData c2Input))) 0) =
        (edg (computeQuadrics (buildEdges (extractMeshData c2Input))) 0).faces.length) := by
  refine ⟨⟨by decide, by decide, by decide⟩, ?_⟩
  exact (C2_edge_cost_formula (computeQuadrics (buildEdges (extractMeshData c2Input))) 0
    (by decide) (by decide) (by decide)).2

theorem mainCollapseLoopF_eq (target : Int) (maxIter fuel iter : Nat) (s : SimState) :
    MainSimplifier.collapseLoopF target maxIter fuel iter s =
      if (liveFaceCount s : Int) > target ∧ iter < maxIter then
        match getMinimumCostEdge s with
        | none => ⟨s, iter, true⟩
        | some ei =>
          if (edg s ei).cost = none then ⟨s, iter, true⟩
          else
            match fuel with
            | 0 => ⟨s, iter, false⟩
            | fuel2 + 1 =>
              MainSimplifier.collapseLoopF target maxIter fuel2 (iter + 1) (collapseEdge s ei)
      else ⟨s, iter, false⟩ := by
  have h1 : MainSimplifier.getMinimumCostEdge = getMinimumCostEdge := rfl
  have h2 : MainSimplifier.collapseEdge = collapseEdge := rfl
  rw [MainSimplifier.collapseLoopF, h1, h2]

theorem mainLoop_eq_loop : MainSimplifier.collapseLoopF = collapseLoopF := by
  funext target maxIter fuel
  induction fuel with
  | zero =>
    funext iter s
    rw [mainCollapseLoopF_eq, collapseLoopF_eq]
  | succ fuel2 ih =>
    funext iter s
    rw [mainCollapseLoopF_eq, collapseLoopF_eq]
    show (if (liveFaceCount s : Int) > target ∧ iter < maxIter then
        match getMinimumCostEdge s with
        | none => (⟨s, iter, true⟩ : LoopResult)
        | some ei =>
          if (edg s ei).cost = none then ⟨s, iter, true⟩
          else MainSimplifier.collapseLoopF target maxIter fuel2 (iter + 1) (collapseEdge s ei)
      else ⟨s, iter, false⟩) =
      (if (liveFaceCount s : Int) > target ∧ iter < maxIter then
        match getMinimumCostEdge s with
        | none => (⟨s, iter, true⟩ : LoopResult)
        | some ei =>
          if (edg s ei).cost = none then ⟨s, iter, true⟩
          else collapseLoopF target maxIter fuel2 (iter + 1) (collapseEdge s ei)
      else ⟨s, iter, false⟩)
    rw [ih]

/-- C10: the worker-side simplifier and the main-thread MeshSimplifier
duplicate implement the same pipeline phase for phase, so every stage
function and the end-to-end flat output position stream coincide. -/
theorem C10_worker_main_equivalent :
    MainSimplifier.extractMeshData = extractMeshData ∧
    MainSimplifier.buildEdges = buildEdges ∧
    MainSimplifier.computeQuadrics = computeQuadrics ∧
    MainSimplifier.computeEdgeCosts = computeEdgeCosts ∧
    MainSimplifier.getMinimumCostEdge = getMinimumCostEdge ∧
    MainSimplifier.collapseEdge = collapseEdge ∧
    MainSimplifier.collapseLoopF = collapseLoopF ∧
    MainSimplifier.buildGeometry = buildGeometry ∧
    ∀ (positions : List JNum) (r : JNum),
      MainSimplifier.simplify positions r = simplify positions r := by
  refine ⟨rfl, rfl, rfl, rfl, rfl, rfl, mainLoop_eq_loop, rfl, ?_⟩
  intro positions r
  show (MainSimplifier.buildGeometry
      (MainSimplifier.collapseLoopF
        (targetFaceCount (MainSimplifier.extractMeshData positions).faces.length r)
        (MainSimplifier.extractMeshData positions).faces.length
        (MainSimplifier.extractMeshData positions).faces.length 0
        (MainSimplifier.computeEdgeCosts
          (MainSimplifier.computeQuadrics
            (MainSimplifier.buildEdges (MainSimplifier.extractMeshData positions))))).state) =
    simplify positions r
  rw [mainLoop_eq_loop]
  rfl

theorem norm_wf (a : JNum) (h : 0 < a.d) : 0 < (JNum.norm a).d := by
  unfold JNum.norm
  by_cases hg : ((Int.gcd a.n a.d : Int) ≤ 1)
  · simp only [hg, if_true]
    exact h
  · simp only [hg, if_false]
    have hdvd : ((Int.gcd a.n a.d : Int)) ∣ a.d := Int.gcd_dvd_right
    exact Int.ediv_pos_of_pos_of_dvd h (by positivity) hdvd

theorem mul_wf (a b : JNum) (ha : 0 < a.d) (hb : 0 < b.d) : 0 < (JNum.mul a b).d :=
  norm_wf _ (by simp only [JNum.mul]; positivity)

theorem add_wf (a b : JNum) (ha : 0 < a.d) (hb : 0 < b.d) : 0 < (JNum.add a b).d :=
  norm_wf _ (by simp only [JNum.add]; positivity)

theorem sub_wf (a b : JNum) (ha : 0 < a.d) (hb : 0 < b.d) : 0 < (JNum.sub a b).d :=
  norm_wf _ (by simp only [JNum.sub]; positivity)

theorem neg_wf (a : JNum) (ha : 0 < a.d) : 0 < (JNum.neg a).d := ha

theorem norm_zero_num (d : Int) (hd : 0 < d) : JNum.norm ⟨0, d⟩ = jzero := by
  unfold JNum.norm
  by_cases hg : ((Int.gcd 0 d : Int) ≤ 1)
  · have : d = 1 := by
      have h1 : Int.gcd 0 d = d.natAbs := by simp [Int.gcd]
      omega
    subst this
    simp [hg, jzero]
  · simp only [hg, if_false]
    have h1 : (Int.gcd 0 d : Int) = d := by
      have : Int.gcd 0 d = d.natAbs := by simp [Int.gcd]
      omega
    show (⟨(0 : Int) / _, d / (Int.gcd 0 d : Int)⟩ : JNum) = jzero
    rw [h1]
    have hd0 : d ≠ 0 := by omega
    simp [jzero, Int.ediv_self hd0]

theorem mul_zero_val (a b : JNum) (hb : b.n = 0) (hbd : 0 < b.d) (had : 0 < a.d) :
    JNum.mul a b = jzero := by
  unfold JNum.mul
  rw [hb]
  have : a.n * 0 = 0 := by ring
  rw [this]
  exact norm_zero_num _ (by positivity)

theorem addQuadricTo_position (a : SimState) (v : Nat) (q : Quadric) (j : Nat) :
    (vtx (addQuadricTo a v q) j).position = (vtx a j).position := by
  rcases getI_updAt_cases a.vertices v j (fun w => { w with quadric := w.quadric.add q }) with hc | hc
  · show (getI (updAt a.vertices v _) j).position = _
    rw [hc]
    rfl
  · show (getI (updAt a.vertices v _) j).position = _
    rw [hc]
    rfl

theorem addQuadricTo_length (a : SimState) (v : Nat) (q : Quadric) :
    (addQuadricTo a v q).vertices.length = a.vertices.length :=
  length_updAt _ _ _

theorem addQuadricTo_quadric (a : SimState) (v : Nat) (q : Quadric) (vi : Nat)
    (hvi : vi < a.vertices.length) :
    (vtx (addQuadricTo a v q) vi).quadric =
      if v = vi then (vtx a vi).quadric.add q else (vtx a vi).quadric := by
  by_cases h : v = vi
  · subst h
    rw [if_pos rfl]
    show (getI (updAt a.vertices v _) v).quadric = _
    rw [getI_updAt_self _ _ _ hvi]
    rfl
  · rw [if_neg h]
    show (getI (updAt a.vertices v _) vi).quadric = _
    rw [getI_updAt_ne _ _ _ _ h]
    rfl

theorem faceContrib_eq_of_positions (a s : SimState) (face : Face)
    (hpos : ∀ j, (vtx a j).position = (vtx s j).position) :
    faceContrib a face = faceContrib s face := by
  unfold faceContrib
  by_cases hd : face.deleted
  · simp [hd]
  · simp only [hd, if_false]
    cases face.normal with
    | none => rfl
    | some nrm => simp [hpos face.v0]

theorem computeQuadrics_fold_invariant (s : SimState) (vi : Nat) :
    ∀ (l : List Face) (a : SimState) (q : Quadric),
      (∀ j, (vtx a j).position = (vtx s j).position) →
      a.vertices.length = s.vertices.length →
      vi < s.vertices.length →
      (vtx a vi).quadric = q →
      (vtx (l.foldl
        (fun acc face =>
          if face.deleted || face.normal == none then acc
          else
            let q2 := faceContrib acc face
            addQuadricTo (addQuadricTo (addQuadricTo acc face.v0 q2) face.v1 q2) face.v2 q2)
        a) vi).quadric =
      l.foldl
        (fun acc face =>
          if face.deleted || face.normal == none then acc
          else
            let q2 := faceContrib s face
            let a1 := if face.v0 = vi then acc.add q2 else acc
            let a2 := if face.v1 = vi then a1.add q2 else a1
            if face.v2 = vi then a2.add q2 else a2)
        q := by
  intro l
  induction l with
  | nil =>
    intro a q hpos hlen hvi hq
    exact hq
  | cons face t ih =>
    intro a q hpos hlen hvi hq
    by_cases hskip : (face.deleted || face.normal == none) = true
    · simp only [List.foldl_cons, hskip, if_true]
      exact ih a q hpos hlen hvi hq
    · have hskip2 : (face.deleted || face.normal == none) = false := by
        simp at hskip
        simp [hskip]
      simp only [List.foldl_cons, hskip2, Bool.false_eq_true, if_false]
      have hq2 : faceContrib a face = faceContrib s face := faceContrib_eq_of_positions a s face hpos
      rw [hq2]
      have hvia : vi < a.vertices.length := by omega
      have hl0 : (addQuadricTo a face.v0 (faceContrib s face)).vertices.length
          = a.vertices.length := addQuadricTo_length _ _ _
      have hl1 : (addQuadricTo (addQuadricTo a face.v0 (faceContrib s face)) face.v1
          (faceContrib s face)).vertices.length = a.vertices.length := by
        rw [addQuadricTo_length, hl0]
      refine ih _ _ (fun j => ?_) ?_ hvi ?_
      · rw [addQuadricTo_position, addQuadricTo_position, addQuadricTo_position]
        exact hpos j
      · rw [addQuadricTo_length, hl1]
        exact hlen
      · rw [addQuadricTo_quadric _ _ _ _ (by rw [hl1]; exact hvia),
          addQuadricTo_quadric _ _ _ _ (by rw [hl0]; exact hvia),
          addQuadricTo_quadric _ _ _ _ hvia, hq]

theorem computeQuadrics_quadric (s : SimState) (vi : Nat) (hvi : vi < s.vertices.length) :
    (vtx (computeQuadrics s) vi).quadric = quadricAccum s vi := by
  have hpos : ∀ j,
      (vtx ⟨s.vertices.map (fun (v : Vertex) => { v with quadric := Quadric.zeroQ }),
        s.faces, s.edges⟩ j).position = (vtx s j).position := by
    intro j
    rcases getI_map_cases (fun (v : Vertex) => { v with quadric := Quadric.zeroQ })
      s.vertices j with hc | hc
    · show (getI (s.vertices.map (fun (v : Vertex) => { v with quadric := Quadric.zeroQ })) j).position = _
      rw [hc]
      rfl
    · show (getI (s.vertices.map (fun (v : Vertex) => { v with quadric := Quadric.zeroQ })) j).position = _
      rw [hc]
      rfl
  have hlen : (⟨s.vertices.map (fun (v : Vertex) => { v with quadric := Quadric.zeroQ }),
      s.faces, s.edges⟩ : SimState).vertices.length = s.vertices.length := by
    simp
  have hq0 : (vtx ⟨s.vertices.map (fun (v : Vertex) => { v with quadric := Quadric.zeroQ }),
      s.faces, s.edges⟩ vi).quadric = Quadric.zeroQ := by
    show (getI (s.vertices.map (fun (v : Vertex) => { v with quadric := Quadric.zeroQ })) vi).quadric = _
    rw [getI_map_lt _ _ _ hvi]
  exact computeQuadrics_fold_invariant s vi s.faces _ Quadric.zeroQ hpos hlen hvi hq0

theorem fromPlane_scale_zero (a b c d ar : JNum) (ha : 0 < a.d) (hb : 0 < b.d)
    (hc : 0 < c.d) (hd : 0 < d.d) (han : ar.n = 0) (hard : 0 < ar.d) :
    Quadric.scale ar (Quadric.fromPlane a b c d) = Quadric.zeroQ := by
  unfold Quadric.scale Quadric.fromPlane Quadric.zeroQ
  simp only [Quadric.mk.injEq]
  exact ⟨mul_zero_val _ _ han hard (mul_wf a a ha ha),
    mul_zero_val _ _ han hard (mul_wf a b ha hb),
    mul_zero_val _ _ han hard (mul_wf a c ha hc),
    mul_zero_val _ _ han hard (mul_wf a d ha hd),
    mul_zero_val _ _ han hard (mul_wf b b hb hb),
    mul_zero_val _ _ han hard (mul_wf b c hb hc),
    mul_zero_val _ _ han hard (mul_wf b d hb hd),
    mul_zero_val _ _ han hard (mul_wf c c hc hc),
    mul_zero_val _ _ han hard (mul_wf c d hc hd),
    mul_zero_val _ _ han hard (mul_wf d d hd hd)⟩

/-- C5 (amended): the quadric computeQuadrics accumulates on a vertex is
exactly the sum, over the faces naming it, of the face's plane quadric
built from the stored normal and offset and scaled by the stored area;
only a face whose area is exactly zero contributes the zero quadric, so
there is no silent skip of near-zero-normal faces: the subthreshold
epsilon only controls whether the stored normal is normalised, and a
face with near-zero but nonzero cross product contributes a nonzero
quadric, as the counterexample shows. -/
theorem C5_quadric_contribution :
    (∀ (s : SimState) (vi : Nat), vi < s.vertices.length →
        (vtx (computeQuadrics s) vi).quadric = quadricAccum s vi) ∧
    (∀ (s : SimState) (face : Face) (nrm : Vec3),
        face.normal = some nrm → face.area.n = 0 → 0 < face.area.d →
        nrm.wf → Vec3.wf (vtx s face.v0).position →
        faceContrib s face = Quadric.zeroQ) := by
  constructor
  · exact computeQuadrics_quadric
  · intro s face nrm hn ha had hnw hpw
    unfold faceContrib
    by_cases hd : face.deleted
    · simp [hd]
    · simp only [hd, if_false, hn]
      obtain ⟨hx, hy, hz⟩ := hnw
      obtain ⟨px, py, pz⟩ := hpw
      have hdw : 0 < ((vdot nrm (vtx s face.v0).position).neg).d :=
        neg_wf _ (add_wf _ _ (add_wf _ _ (mul_wf _ _ hx px) (mul_wf _ _ hy py))
          (mul_wf _ _ hz pz))
      exact fromPlane_scale_zero _ _ _ _ _ hx hy hz hdw ha had

/-- C5 counterexample: on a triangle of area 1/20000, below the 0.0001
threshold and with nonzero cross product, computeQuadrics adds a nonzero
quadric to the vertices of the face (the a33 coefficient of vertex 0 is
nonzero in value), refuting the claim that such faces contribute
nothing. -/
theorem C5_counterexample :
    JNum.lt (fce (extractMeshData c5Input) 0).area ⟨1, 10000⟩ ∧
    JNum.lt jzero (fce (extractMeshData c5Input) 0).area ∧
    ¬ JNum.equiv
      ((vtx (computeQuadrics (buildEdges (extractMeshData c5Input))) 0).quadric.a33) jzero := by
  refine ⟨by decide, by decide, by decide⟩

/-- C5 witness: the accumulation theorem applied to the state of the
tiny-area triangle, and the zero-area branch applied to an exactly
degenerate (collinear) triangle. -/
theorem C5_witness :
    ((0 : Nat) < (buildEdges (extractMeshData c5Input)).vertices.length ∧
      (vtx (computeQuadrics (buildEdges (extractMeshData c5Input))) 0).quadric =
        quadricAccum (buildEdges (extractMeshData c5Input)) 0) ∧
    ((fce (extractMeshData c5zeroInput) 0).normal = some ⟨⟨0, 1⟩, ⟨0, 1⟩, ⟨0, 1⟩⟩ ∧
      faceContrib (extractMeshData c5zeroInput) (fce (extractMeshData c5zeroInput) 0) =
        Quadric.zeroQ) := by
  constructor
  · exact ⟨by decide, C5_quadric_contribution.1 (buildEdges (extractMeshData c5Input)) 0 (by decide)⟩
  · refine ⟨by decide, ?_⟩
    exact C5_quadric_contribution.2 (extractMeshData c5zeroInput)
      (fce (extractMeshData c5zeroInput) 0) ⟨⟨0, 1⟩, ⟨0, 1⟩, ⟨0, 1⟩⟩
      (by decide) (by decide) (by decide) (by decide) (by decide)

theorem getVertexIndex_faces (st : ExtractSt) (p : Vec3) :
    ((getVertexIndex st p).2).faces = st.faces := by
  unfold getVertexIndex
  cases alookup (vertexKey p) st.vmap <;> rfl

/-- C7 counterexample: on an input of three source triangles of which
one is degenerate (two coinciding corners), the extraction keeps only 2
faces, yet the completion message reports originalFaces = 27 / 9 = 3,
the raw input triangle count, not the reduced count 2 the claim
requires. -/
theorem C7_counterexample :
    (workerOnMessage c7Input ⟨1, 2⟩).origField = some ⟨3, 1⟩ ∧
    (extractMeshData c7Input).faces.length = 2 ∧
    ¬ JNum.equiv ⟨3, 1⟩ (JNum.ofNat 2) := by
  refine ⟨by decide, by decide, by decide⟩

/-- C7 (amended): a source triangle whose resolved corner indices
coincide is excluded from the built face set (so the engine's internal
original and target counts use the reduced face count), but the
originalFaces field of the completion message reports the raw input
triangle count positions.length / 9. -/
theorem C7_message_reports_raw_count (positions : List JNum) (r : JNum) :
    (workerOnMessage positions r).origField =
      some (JNum.mul (JNum.ofNat positions.length) ⟨1, 9⟩) ∧
    (∀ (st : ExtractSt) (t : Vec3 × Vec3 × Vec3),
      ((resolvedTriple st t).1 = (resolvedTriple st t).2.1 ∨
        (resolvedTriple st t).2.1 = (resolvedTriple st t).2.2 ∨
        (resolvedTriple st t).2.2 = (resolvedTriple st t).1) →
      (extractTri st t).faces = st.faces) := by
  constructor
  · rfl
  · intro st t hdeg
    unfold resolvedTriple at hdeg
    unfold extractTri
    rw [if_pos hdeg]
    rw [getVertexIndex_faces, getVertexIndex_faces, getVertexIndex_faces]

/-- C7 witness: the raw-count field on the concrete scenario input, and
the degenerate-drop branch applied to the concrete degenerate triangle
from an empty extraction state. -/
theorem C7_witness :
    (workerOnMessage c7Input ⟨1, 2⟩).origField =
      some (JNum.mul (JNum.ofNat c7Input.length) ⟨1, 9⟩) ∧
    (extractTri ⟨[], [], []⟩
      (⟨⟨2, 1⟩, ⟨0, 1⟩, ⟨0, 1⟩⟩, ⟨⟨2, 1⟩, ⟨0, 1⟩, ⟨0, 1⟩⟩, ⟨⟨3, 1⟩, ⟨1, 1⟩, ⟨0, 1⟩⟩)).faces =
      ([] : List Face) := by
  refine ⟨(C7_message_reports_raw_count c7Input ⟨1, 2⟩).1, ?_⟩
  exact (C7_message_reports_raw_count c7Input ⟨1, 2⟩).2 ⟨[], [], []⟩
    (⟨⟨2, 1⟩, ⟨0, 1⟩, ⟨0, 1⟩⟩, ⟨⟨2, 1⟩, ⟨0, 1⟩, ⟨0, 1⟩⟩, ⟨⟨3, 1⟩, ⟨1, 1⟩, ⟨0, 1⟩⟩)
    (by decide)

theorem val_norm (a : JNum) : (JNum.norm a).val = a.val := by
  unfold JNum.norm
  by_cases hg : ((Int.gcd a.n a.d : Int) ≤ 1)
  · simp [hg]
  · simp only [hg, if_false]
    set g : Int := (Int.gcd a.n a.d : Int) with hgdef
    have hnn : (0 : Int) ≤ g := by rw [hgdef]; exact Int.ofNat_nonneg _
    have hg0 : g ≠ 0 := by omega
    have hgQ : (g : Rat) ≠ 0 := by exact_mod_cast hg0
    have hdl : g ∣ a.n := by rw [hgdef]; exact Int.gcd_dvd_left
    have hdr : g ∣ a.d := by rw [hgdef]; exact Int.gcd_dvd_right
    obtain ⟨n2, hn⟩ := hdl
    obtain ⟨d2, hd⟩ := hdr
    have e1 : a.n / g = n2 := by
      rw [hn]
      exact Int.mul_ediv_cancel_left _ hg0
    have e2 : a.d / g = d2 := by
      rw [hd]
      exact Int.mul_ediv_cancel_left _ hg0
    show JNum.val ⟨a.n / g, a.d / g⟩ = a.val
    unfold JNum.val
    show ((a.n / g : Int) : Rat) / ((a.d / g : Int) : Rat) = (a.n : Rat) / (a.d : Rat)
    rw [e1, e2]
    conv_rhs => rw [hn, hd]
    push_cast
    rw [mul_div_mul_left _ _ hgQ]

theorem val_add (a b : JNum) :
    (JNum.add a b).val = JNum.val ⟨a.n * b.d + b.n * a.d, a.d * b.d⟩ := by
  unfold JNum.add
  rw [val_norm]

theorem val_add_of_wf (a b : JNum) (ha : a.d ≠ 0) (hb : b.d ≠ 0) :
    (JNum.add a b).val = a.val + b.val := by
  rw [val_add]
  unfold JNum.val
  have ha2 : (a.d : Rat) ≠ 0 := by exact_mod_cast ha
  have hb2 : (b.d : Rat) ≠ 0 := by exact_mod_cast hb
  push_cast
  field_simp

theorem val_sub_of_wf (a b : JNum) (ha : a.d ≠ 0) (hb : b.d ≠ 0) :
    (JNum.sub a b).val = a.val - b.val := by
  unfold JNum.sub
  rw [val_norm]
  unfold JNum.val
  have ha2 : (a.d : Rat) ≠ 0 := by exact_mod_cast ha
  have hb2 : (b.d : Rat) ≠ 0 := by exact_mod_cast hb
  push_cast
  field_simp
  ring

theorem val_mul_of_wf (a b : JNum) (ha : a.d ≠ 0) (hb : b.d ≠ 0) :
    (JNum.mul a b).val = a.val * b.val := by
  unfold JNum.mul
  rw [val_norm]
  unfold JNum.val
  have ha2 : (a.d : Rat) ≠ 0 := by exact_mod_cast ha
  have hb2 : (b.d : Rat) ≠ 0 := by exact_mod_cast hb
  push_cast
  field_simp

theorem val_neg (a : JNum) : (JNum.neg a).val = -a.val := by
  unfold JNum.neg JNum.val
  push_cast
  ring

theorem val_abs (a : JNum) (ha : 0 < a.d) : (JNum.abs a).val = |a.val| := by
  unfold JNum.abs JNum.val
  rw [abs_div]
  have h2 : |(a.d : Rat)| = (a.d : Rat) := abs_of_pos (by exact_mod_cast ha)
  rw [h2]
  push_cast
  rfl

theorem blt_iff_val (a b : JNum) (ha : 0 < a.d) (hb : 0 < b.d) :
    JNum.blt a b = true ↔ a.val < b.val := by
  unfold JNum.blt JNum.val
  rw [decide_eq_true_iff]
  have ha2 : (0 : Rat) < (a.d : Rat) := by exact_mod_cast ha
  have hb2 : (0 : Rat) < (b.d : Rat) := by exact_mod_cast hb
  rw [div_lt_div_iff ha2 hb2]
  constructor
  · intro h
    exact_mod_cast h
  · intro h
    exact_mod_cast h

theorem le_iff_val (a b : JNum) (ha : 0 < a.d) (hb : 0 < b.d) :
    JNum.le a b ↔ a.val ≤ b.val := by
  unfold JNum.le JNum.val
  have ha2 : (0 : Rat) < (a.d : Rat) := by exact_mod_cast ha
  have hb2 : (0 : Rat) < (b.d : Rat) := by exact_mod_cast hb
  rw [div_le_div_iff ha2 hb2]
  constructor
  · intro h
    exact_mod_cast h
  · intro h
    exact_mod_cast h

theorem floorQ_val (a : JNum) (ha : 0 < a.d) : a.floorQ = ⌊a.val⌋ := by
  unfold JNum.floorQ JNum.val
  have hd2 : a.d = ((a.d.toNat : Nat) : Int) := by omega
  calc a.n.fdiv a.d = a.n / a.d := Int.fdiv_eq_ediv _ (by omega)
    _ = a.n / ((a.d.toNat : Nat) : Int) := by rw [← hd2]
    _ = ⌊((a.n : Rat) / ((a.d.toNat : Nat) : Rat))⌋ := (Rat.floor_intCast_div_natCast _ _).symm
    _ = ⌊(a.n : Rat) / (a.d : Rat)⌋ := by
        rw [hd2]
        push_cast
        rfl

theorem val_jzero : jzero.val = 0 := by
  unfold jzero JNum.val
  norm_num

theorem val_jhalf : jhalf.val = 1 / 2 := by
  unfold jhalf JNum.val
  norm_num

theorem val_million : (JNum.val ⟨1000000, 1⟩) = 1000000 := by
  unfold JNum.val
  norm_num

theorem val_millionth : (JNum.val ⟨1, 1000000⟩) = 1 / 1000000 := by
  unfold JNum.val
  norm_num

theorem floor_sep (p q : Rat) (h : 1 ≤ |p - q|) : ⌊p⌋ ≠ ⌊q⌋ := by
  rcases le_abs.mp h with h1 | h1
  · have h2 : q + 1 ≤ p := by linarith
    have h3 := Int.floor_le_floor h2
    rw [Int.floor_add_one] at h3
    omega
  · have h2 : p + 1 ≤ q := by linarith
    have h3 := Int.floor_le_floor h2
    rw [Int.floor_add_one] at h3
    omega

theorem coordKey_neg_case (x : JNum) (hx : 0 < x.d) (h : x.val < 0) :
    coordKey x = (true, ⌊(-x.val) * 1000000 + 1 / 2⌋) := by
  have hblt : x.blt jzero = true := by
    rw [blt_iff_val x jzero hx (by decide), val_jzero]
    exact h
  unfold coordKey
  simp only [hblt, if_true]
  have hd1 : 0 < (JNum.mul x.neg ⟨1000000, 1⟩).d := mul_wf _ _ (neg_wf _ hx) (by decide)
  have hd2 : 0 < ((JNum.mul x.neg ⟨1000000, 1⟩).add jhalf).d :=
    add_wf _ _ hd1 (by decide)
  rw [floorQ_val _ hd2, val_add_of_wf (JNum.mul x.neg ⟨1000000, 1⟩) jhalf (by omega) (by decide),
    val_mul_of_wf x.neg ⟨1000000, 1⟩ (by have := neg_wf x hx; omega) (by decide),
    val_neg, val_million, val_jhalf]

theorem coordKey_nonneg_case (x : JNum) (hx : 0 < x.d) (h : 0 ≤ x.val) :
    coordKey x = (false, ⌊x.val * 1000000 + 1 / 2⌋) := by
  have hblt : x.blt jzero = false := by
    rw [Bool.eq_false_iff]
    intro hc
    rw [blt_iff_val x jzero hx (by decide), val_jzero] at hc
    linarith
  unfold coordKey
  simp only [hblt, Bool.false_eq_true, if_false]
  have hd1 : 0 < (JNum.mul x ⟨1000000, 1⟩).d := mul_wf _ _ hx (by decide)
  have hd2 : 0 < ((JNum.mul x ⟨1000000, 1⟩).add jhalf).d := add_wf _ _ hd1 (by decide)
  rw [floorQ_val _ hd2, val_add_of_wf (JNum.mul x ⟨1000000, 1⟩) jhalf (by omega) (by decide),
    val_mul_of_wf x ⟨1000000, 1⟩ (by omega) (by decide), val_million, val_jhalf]

theorem coordKey_separation (x y : JNum) (hx : JNum.wf x) (hy : JNum.wf y)
    (h : JNum.le ⟨1, 1000000⟩ ((x.sub y).abs)) : coordKey x ≠ coordKey y := by
  have hxd : 0 < x.d := hx
  have hyd : 0 < y.d := hy
  have hsubd : 0 < (x.sub y).d := sub_wf _ _ hxd hyd
  have habsd : 0 < ((x.sub y).abs).d := hsubd
  have hval : (1 : Rat) / 1000000 ≤ |x.val - y.val| := by
    have h2 := (le_iff_val _ _ (by decide) habsd).mp h
    rw [val_millionth, val_abs _ hsubd, val_sub_of_wf _ _ (by omega) (by omega)] at h2
    exact h2
  have hdiff : (1 : Rat) ≤ |x.val * 1000000 + 1 / 2 - (y.val * 1000000 + 1 / 2)| := by
    have he : x.val * 1000000 + 1 / 2 - (y.val * 1000000 + 1 / 2)
        = (x.val - y.val) * 1000000 := by ring
    rw [he, abs_mul]
    have : |(1000000 : Rat)| = 1000000 := by norm_num
    rw [this]
    nlinarith [hval]
  have hdiffneg : (1 : Rat) ≤ |(-x.val) * 1000000 + 1 / 2 - ((-y.val) * 1000000 + 1 / 2)| := by
    have he : (-x.val) * 1000000 + 1 / 2 - ((-y.val) * 1000000 + 1 / 2)
        = -((x.val - y.val) * 1000000) := by ring
    rw [he, abs_neg, abs_mul]
    have : |(1000000 : Rat)| = 1000000 := by norm_num
    rw [this]
    nlinarith [hval]
  rcases lt_or_le x.val 0 with hxs | hxs <;> rcases lt_or_le y.val 0 with hys | hys
  · rw [coordKey_neg_case x hxd hxs, coordKey_neg_case y hyd hys]
    intro hc
    exact floor_sep _ _ hdiffneg (by simpa using congrArg Prod.snd hc)
  · rw [coordKey_neg_case x hxd hxs, coordKey_nonneg_case y hyd hys]
    intro hc
    simpa using congrArg Prod.fst hc
  · rw [coordKey_nonneg_case x hxd hxs, coordKey_neg_case y hyd hys]
    intro hc
    simpa using congrArg Prod.fst hc
  · rw [coordKey_nonneg_case x hxd hxs, coordKey_nonneg_case y hyd hys]
    intro hc
    exact floor_sep _ _ hdiff (by simpa using congrArg Prod.snd hc)

theorem alookup_cons (k k2 : VKey) (i : Nat) (rest : List (VKey × Nat)) :
    alookup k ((k2, i) :: rest) = if k = k2 then some i else alookup k rest := rfl

theorem getVertexIndex_found (st : ExtractSt) (p : Vec3) (i : Nat)
    (h : alookup (vertexKey p) st.vmap = some i) : getVertexIndex st p = (i, st) := by
  unfold getVertexIndex
  rw [h]

theorem getVertexIndex_fresh (st : ExtractSt) (p : Vec3)
    (h : alookup (vertexKey p) st.vmap = none) :
    getVertexIndex st p =
      (st.vertices.length,
        ⟨st.vertices ++ [newVertexRec p], st.faces,
          (vertexKey p, st.vertices.length) :: st.vmap⟩) := by
  unfold getVertexIndex
  rw [h]

theorem vmapInv_getVertexIndex (st : ExtractSt) (p : Vec3) (h : VMapInv st) :
    VMapInv (getVertexIndex st p).2 := by
  rcases h with ⟨hb, hinj⟩
  cases hc : alookup (vertexKey p) st.vmap with
  | some i => rw [getVertexIndex_found st p i hc]; exact ⟨hb, hinj⟩
  | none =>
    rw [getVertexIndex_fresh st p hc]
    constructor
    · intro k j hk
      rw [alookup_cons] at hk
      by_cases he : k = vertexKey p
      · rw [if_pos he] at hk
        have : j = st.vertices.length := (Option.some.inj hk).symm
        simp [List.length_append, this]
      · rw [if_neg he] at hk
        have := hb k j hk
        simp only [List.length_append, List.length_cons, List.length_nil]
        omega
    · intro k1 k2 j h1 h2
      rw [alookup_cons] at h1 h2
      by_cases he1 : k1 = vertexKey p <;> by_cases he2 : k2 = vertexKey p
      · rw [he1, he2]
      · rw [if_pos he1] at h1
        rw [if_neg he2] at h2
        have hj : j = st.vertices.length := (Option.some.inj h1).symm
        have := hb k2 j h2
        omega
      · rw [if_neg he1] at h1
        rw [if_pos he2] at h2
        have hj : j = st.vertices.length := (Option.some.inj h2).symm
        have := hb k1 j h1
        omega
      · rw [if_neg he1] at h1
        rw [if_neg he2] at h2
        exact hinj k1 k2 j h1 h2

theorem resolve_pair_iff (st : ExtractSt) (p q : Vec3) (h : VMapInv st) :
    ((getVertexIndex st p).1 = (getVertexIndex (getVertexIndex st p).2 q).1 ↔
      vertexKey p = vertexKey q) := by
  rcases h with ⟨hb, hinj⟩
  cases hp : alookup (vertexKey p) st.vmap with
  | some i =>
    rw [getVertexIndex_found st p i hp]
    cases hq : alookup (vertexKey q) st.vmap with
    | some j =>
      rw [getVertexIndex_found st q j hq]
      constructor
      · intro he
        exact hinj _ _ _ hp (by rw [show i = j from he]; exact hq)
      · intro hk
        have h2 : alookup (vertexKey q) st.vmap = some i := by rw [← hk]; exact hp
        exact Option.some.inj (h2.symm.trans hq)
    | none =>
      rw [getVertexIndex_fresh st q hq]
      constructor
      · intro he
        have := hb _ _ hp
        simp only at he
        omega
      · intro hk
        have h2 : alookup (vertexKey q) st.vmap = some i := by rw [← hk]; exact hp
        exact Option.noConfusion (h2.symm.trans hq)
  | none =>
    rw [getVertexIndex_fresh st p hp]
    by_cases hk : vertexKey q = vertexKey p
    · have hq : alookup (vertexKey q)
          ((vertexKey p, st.vertices.length) :: st.vmap) = some st.vertices.length := by
        rw [alookup_cons, if_pos hk]
      rw [getVertexIndex_found _ q _ hq]
      exact ⟨fun _ => hk.symm, fun _ => rfl⟩
    · have hstep : alookup (vertexKey q)
          ((vertexKey p, st.vertices.length) :: st.vmap) = alookup (vertexKey q) st.vmap := by
        rw [alookup_cons, if_neg hk]
      cases hq : alookup (vertexKey q) st.vmap with
      | some j =>
        rw [getVertexIndex_found _ q j (hstep.trans hq)]
        constructor
        · intro he
          have := hb _ _ hq
          simp only at he
          omega
        · intro hke
          exact absurd hke.symm hk
      | none =>
        rw [getVertexIndex_fresh _ q (hstep.trans hq)]
        constructor
        · intro he
          simp [List.length_append] at he
        · intro hke
          exact absurd hke.symm hk

theorem vmapInv_empty : VMapInv ⟨[], [], []⟩ := by
  constructor
  · intro k j hk
    exact Option.noConfusion hk
  · intro k1 k2 j h1 h2
    exact Option.noConfusion h1

theorem vmapInv_extractTri (st : ExtractSt) (t : Vec3 × Vec3 × Vec3) (h : VMapInv st) :
    VMapInv (extractTri st t) := by
  have h3 := vmapInv_getVertexIndex _ t.2.2
    (vmapInv_getVertexIndex _ t.2.1 (vmapInv_getVertexIndex st t.1 h))
  rcases h3 with ⟨hb, hinj⟩
  simp only [extractTri]
  split
  · exact ⟨hb, hinj⟩
  · constructor
    · intro k j hk
      have := hb k j hk
      simpa [length_updAt] using this
    · exact hinj

theorem vmapInv_extractFull (positions : List JNum) : VMapInv (extractFull positions) := by
  unfold extractFull
  have hgen : ∀ (ts : List (Vec3 × Vec3 × Vec3)) (st : ExtractSt), VMapInv st →
      VMapInv (ts.foldl extractTri st) := by
    intro ts
    induction ts with
    | nil => intro st h; exact h
    | cons t rest ih => intro st h; exact ih _ (vmapInv_extractTri st t h)
  exact hgen _ _ vmapInv_empty

theorem extractTri_drop (st : ExtractSt) (t : Vec3 × Vec3 × Vec3)
    (h : (resolvedTriple st t).1 = (resolvedTriple st t).2.1 ∨
         (resolvedTriple st t).2.1 = (resolvedTriple st t).2.2 ∨
         (resolvedTriple st t).2.2 = (resolvedTriple st t).1) :
    extractTri st t = (getVertexIndex (getVertexIndex (getVertexIndex st t.1).2 t.2.1).2 t.2.2).2 := by
  simp only [resolvedTriple] at h
  simp only [extractTri]
  rw [if_pos h]

theorem extractTri_keep (st : ExtractSt) (t : Vec3 × Vec3 × Vec3)
    (h : ¬((resolvedTriple st t).1 = (resolvedTriple st t).2.1 ∨
           (resolvedTriple st t).2.1 = (resolvedTriple st t).2.2 ∨
           (resolvedTriple st t).2.2 = (resolvedTriple st t).1)) :
    (extractTri st t).faces.length = st.faces.length + 1 := by
  simp only [resolvedTriple] at h
  simp only [extractTri]
  rw [if_neg h]
  simp only [List.length_append, List.length_cons, List.length_nil]
  rw [getVertexIndex_faces, getVertexIndex_faces, getVertexIndex_faces]

/-- C4: extraction deduplicates by the exact 6-decimal quantization key:
resolving two corner points against the extraction state yields the same
vertex index exactly when their quantized keys coincide; points whose
x coordinates differ by at least 10^-6 get distinct key components and
hence distinct vertices (no tolerance-ball weld); and a source triangle
leaves the face list unchanged (is dropped entirely) precisely when two
of its three resolved vertex indices coincide. -/
theorem C4_dedup_exact_key (positions : List JNum) (p q : Vec3) (t : Vec3 × Vec3 × Vec3) :
    ((getVertexIndex (extractFull positions) p).1 =
        (getVertexIndex (getVertexIndex (extractFull positions) p).2 q).1 ↔
      vertexKey p = vertexKey q) ∧
    ((JNum.wf p.x ∧ JNum.wf q.x ∧ JNum.le ⟨1, 1000000⟩ ((p.x.sub q.x).abs)) →
      (getVertexIndex (extractFull positions) p).1 ≠
        (getVertexIndex (getVertexIndex (extractFull positions) p).2 q).1) ∧
    ((extractTri (extractFull positions) t).faces = (extractFull positions).faces ↔
      ((resolvedTriple (extractFull positions) t).1 =
          (resolvedTriple (extractFull positions) t).2.1 ∨
        (resolvedTriple (extractFull positions) t).2.1 =
          (resolvedTriple (extractFull positions) t).2.2 ∨
        (resolvedTriple (extractFull positions) t).2.2 =
          (resolvedTriple (extractFull positions) t).1)) := by
  have hiff := resolve_pair_iff (extractFull positions) p q (vmapInv_extractFull positions)
  refine ⟨hiff, ?_, ?_⟩
  · rintro ⟨hw1, hw2, hsep⟩ he
    exact coordKey_separation p.x q.x hw1 hw2 hsep (congrArg (fun k => k.1) (hiff.mp he))
  · constructor
    · intro hfe
      by_contra hc
      have hlen := extractTri_keep _ t hc
      rw [hfe] at hlen
      omega
    · intro hc
      rw [extractTri_drop _ t hc, getVertexIndex_faces, getVertexIndex_faces,
        getVertexIndex_faces]

/-- Witness for C4 at a concrete input: on the empty stream, the origin and
the point shifted by exactly 10^-6 in x resolve to distinct vertex
indices. -/
theorem C4_witness :
    (JNum.wf (JNum.mk 0 1) ∧ JNum.wf (JNum.mk 1 1000000) ∧
      JNum.le ⟨1, 1000000⟩ ((JNum.sub ⟨0, 1⟩ ⟨1, 1000000⟩).abs)) ∧
    (getVertexIndex (extractFull []) ⟨⟨0, 1⟩, ⟨0, 1⟩, ⟨0, 1⟩⟩).1 ≠
      (getVertexIndex (getVertexIndex (extractFull []) ⟨⟨0, 1⟩, ⟨0, 1⟩, ⟨0, 1⟩⟩).2
        ⟨⟨1, 1000000⟩, ⟨0, 1⟩, ⟨0, 1⟩⟩).1 :=
  ⟨by decide,
    (C4_dedup_exact_key [] ⟨⟨0, 1⟩, ⟨0, 1⟩, ⟨0, 1⟩⟩ ⟨⟨1, 1000000⟩, ⟨0, 1⟩, ⟨0, 1⟩⟩
      (⟨⟨0, 1⟩, ⟨0, 1⟩, ⟨0, 1⟩⟩, ⟨⟨0, 1⟩, ⟨0, 1⟩, ⟨0, 1⟩⟩, ⟨⟨0, 1⟩, ⟨0, 1⟩, ⟨0, 1⟩⟩)).2.1
      (by decide)⟩

theorem getI_append_lt {α : Type} [Inhabited α] (l l2 : List α) (i : Nat)
    (h : i < l.length) : getI (l ++ l2) i = getI l i := by
  induction l generalizing i with
  | nil => exact absurd h (by simp)
  | cons a t ih =>
    cases i with
    | zero => rfl
    | succ j =>
      have : j < t.length := by simpa using h
      simpa [getI] using ih j this

theorem getI_append_self {α : Type} [Inhabited α] (l : List α) (a : α) :
    getI (l ++ [a]) l.length = a := by
  induction l with
  | nil => rfl
  | cons b t ih => simpa [getI] using ih

theorem getI_lt_mem {α : Type} [Inhabited α] (l : List α) (i : Nat)
    (h : i < l.length) : getI l i ∈ l := by
  induction l generalizing i with
  | nil => exact absurd h (by simp)
  | cons a t ih =>
    cases i with
    | zero => exact List.mem_cons_self a t
    | succ j =>
      have : j < t.length := by simpa using h
      exact List.mem_cons_of_mem a (ih j this)

theorem countP_range_lt (p : Nat → Bool) (i j : Nat) (hij : i < j) (hp : p i = true) :
    (List.range i).countP p < (List.range j).countP p := by
  induction j with
  | zero => exact absurd hij (Nat.not_lt_zero i)
  | succ j ih =>
    rcases Nat.lt_succ_iff_lt_or_eq.mp hij with h | h
    · have h1 := ih h
      have h2 : (List.range (j + 1)).countP p = (List.range j).countP p + [j].countP p := by
        rw [List.range_succ, List.countP_append]
      omega
    · subst h
      rw [List.range_succ, List.countP_append]
      have h1 : [i].countP p = 1 := by simp [List.countP_cons, hp]
      omega

theorem targetFaceCount_zero (F : Nat) : targetFaceCount F jzero = max 4 (F : Int) := by
  unfold targetFaceCount
  have h1 : jone.sub jzero = jone := by decide
  rw [h1]
  have h2 : (JNum.ofNat F).mul jone = ⟨(F : Int), 1⟩ := by
    show JNum.norm ⟨(F : Int) * 1, 1 * 1⟩ = ⟨(F : Int), 1⟩
    unfold JNum.norm
    rw [if_pos]
    · simp
    · simp
  rw [h2]
  have h3 : JNum.floorQ ⟨(F : Int), 1⟩ = (F : Int) := by
    show Int.fdiv (F : Int) 1 = (F : Int)
    rw [Int.fdiv_eq_ediv _ (by omega)]
    exact Int.ediv_one _
  rw [h3]

theorem presV_refl (s : SimState) : PresV s s := ⟨rfl, fun _ => ⟨rfl, rfl, rfl⟩⟩

theorem presV_trans {a b c : SimState} (h1 : PresV a b) (h2 : PresV b c) : PresV a c := by
  obtain ⟨hf1, hv1⟩ := h1
  obtain ⟨hf2, hv2⟩ := h2
  refine ⟨hf2.trans hf1, fun i => ?_⟩
  obtain ⟨d1, f1, p1⟩ := hv1 i
  obtain ⟨d2, f2, p2⟩ := hv2 i
  exact ⟨d2.trans d1, f2.trans f1, p2.trans p1⟩

theorem presV_updVtx (s : SimState) (j : Nat) (f : Vertex → Vertex)
    (hf : ∀ v, (f v).deleted = v.deleted ∧ (f v).faces = v.faces ∧
      (f v).position = v.position) : PresV s (updVtx s j f) := by
  refine ⟨rfl, fun i => ?_⟩
  show (getI (updAt s.vertices j f) i).deleted = (getI s.vertices i).deleted ∧
    (getI (updAt s.vertices j f) i).faces = (getI s.vertices i).faces ∧
    (getI (updAt s.vertices j f) i).position = (getI s.vertices i).position
  rcases getI_updAt_cases s.vertices j i f with h | h
  · rw [h]; exact ⟨rfl, rfl, rfl⟩
  · rw [h]; exact hf _

theorem presV_updEdge (s : SimState) (j : Nat) (f : Edge → Edge) :
    PresV s (updEdge s j f) := ⟨rfl, fun _ => ⟨rfl, rfl, rfl⟩⟩

theorem presV_setEdges (s : SimState) (es : List Edge) :
    PresV s { s with edges := es } := ⟨rfl, fun _ => ⟨rfl, rfl, rfl⟩⟩

theorem presV_foldl {α : Type} (step : SimState → α → SimState)
    (h : ∀ a x, PresV a (step a x)) :
    ∀ (l : List α) (s : SimState), PresV s (l.foldl step s) := by
  intro l
  induction l with
  | nil => intro s; exact presV_refl s
  | cons x rest ih => intro s; exact presV_trans (h s x) (ih (step s x))

theorem presV_addEdgePair (fi : Nat) (s : SimState) (pr : Nat × Nat) :
    PresV s (addEdgePair fi s pr) := by
  simp only [addEdgePair]
  cases hm : s.edges.findIdx? (fun e => e.v0 == min pr.1 pr.2 && e.v1 == max pr.1 pr.2) with
  | some ei =>
    exact presV_updEdge s ei _
  | none =>
    have h1 : PresV s { s with edges :=
        s.edges ++ [⟨min pr.1 pr.2, max pr.1 pr.2, [], some jzero, none, false⟩] } :=
      presV_setEdges _ _
    have h2 := presV_trans h1 (presV_updVtx _ pr.1
      (fun v => { v with edges := v.edges ++ [s.edges.length] }) (fun v => ⟨rfl, rfl, rfl⟩))
    have h3 := presV_trans h2 (presV_updVtx _ pr.2
      (fun v => { v with edges := v.edges ++ [s.edges.length] }) (fun v => ⟨rfl, rfl, rfl⟩))
    exact presV_trans h3 (presV_updEdge _ s.edges.length
      (fun e => { e with faces := e.faces ++ [fi] }))

theorem presV_buildEdges (s : SimState) : PresV s (buildEdges s) := by
  unfold buildEdges
  refine presV_trans (presV_setEdges s []) ?_
  refine presV_foldl _ ?_ _ _
  intro a fp
  by_cases hd : fp.2.deleted
  · simp only [hd]
    exact presV_refl a
  · simp only [hd]
    exact presV_foldl (addEdgePair fp.1) (presV_addEdgePair fp.1) (facePairs fp.2) a

theorem presV_computeQuadrics (s : SimState) : PresV s (computeQuadrics s) := by
  unfold computeQuadrics
  have h0 : PresV s { s with vertices := s.vertices.map (fun (v : Vertex) => { v with quadric := Quadric.zeroQ }) } := by
    refine ⟨rfl, fun i => ?_⟩
    show (getI (s.vertices.map
          (fun (v : Vertex) => { v with quadric := Quadric.zeroQ })) i).deleted
        = (getI s.vertices i).deleted ∧
      (getI (s.vertices.map
          (fun (v : Vertex) => { v with quadric := Quadric.zeroQ })) i).faces
        = (getI s.vertices i).faces ∧
      (getI (s.vertices.map
          (fun (v : Vertex) => { v with quadric := Quadric.zeroQ })) i).position
        = (getI s.vertices i).position
    rcases getI_map_cases (fun (v : Vertex) => { v with quadric := Quadric.zeroQ })
      s.vertices i with h | h
    · rw [h]; exact ⟨rfl, rfl, rfl⟩
    · rw [h]; exact ⟨rfl, rfl, rfl⟩
  refine presV_trans h0 ?_
  refine presV_foldl _ ?_ _ _
  intro a face
  by_cases hd : face.deleted || face.normal == none
  · simp only [hd]
    exact presV_refl a
  · simp only [hd, Bool.false_eq_true, if_false]
    have h1 := presV_updVtx a face.v0
      (fun v => { v with quadric := v.quadric.add (faceContrib a face) })
      (fun v => ⟨rfl, rfl, rfl⟩)
    have h2 := presV_trans h1 (presV_updVtx _ face.v1
      (fun v => { v with quadric := v.quadric.add (faceContrib a face) })
      (fun v => ⟨rfl, rfl, rfl⟩))
    exact presV_trans h2 (presV_updVtx _ face.v2
      (fun v => { v with quadric := v.quadric.add (faceContrib a face) })
      (fun v => ⟨rfl, rfl, rfl⟩))

theorem presV_computeEdgeCosts (s : SimState) : PresV s (computeEdgeCosts s) :=
  ⟨rfl, fun _ => ⟨rfl, rfl, rfl⟩⟩

theorem presV_pipeline (positions : List JNum) :
    PresV (extractMeshData positions) (pipelineState positions) := by
  unfold pipelineState
  refine presV_trans (presV_buildEdges _) ?_
  refine presV_trans (presV_computeQuadrics _) ?_
  exact presV_computeEdgeCosts _

theorem liveFaceCount_pipeline_le (positions : List JNum) :
    liveFaceCount (pipelineState positions) ≤ (extractMeshData positions).faces.length := by
  have hf := (presV_pipeline positions).1
  unfold liveFaceCount
  rw [hf]
  exact List.countP_le_length _

theorem simplifyRun_zero (positions : List JNum) :
    simplifyRun positions jzero = ⟨pipelineState positions, 0, false⟩ := by
  rw [simplifyRun_eq]
  apply loopExitGuard
  rw [targetFaceCount_zero]
  rintro ⟨hgt, _⟩
  have hle := liveFaceCount_pipeline_le positions
  have h2 : ((liveFaceCount (pipelineState positions) : Int)) ≤
      ((extractMeshData positions).faces.length : Int) := by exact_mod_cast hle
  have h3 : (((extractMeshData positions).faces.length : Int)) ≤
      max 4 ((extractMeshData positions).faces.length : Int) := le_max_right _ _
  linarith

theorem gvi_len_le (st : ExtractSt) (p : Vec3) :
    st.vertices.length ≤ (getVertexIndex st p).2.vertices.length := by
  cases hc : alookup (vertexKey p) st.vmap with
  | some i => rw [getVertexIndex_found st p i hc]
  | none =>
    rw [getVertexIndex_fresh st p hc]
    simp

theorem gvi_getI_pres (st : ExtractSt) (p : Vec3) (i : Nat) (h : i < st.vertices.length) :
    getI (getVertexIndex st p).2.vertices i = getI st.vertices i := by
  cases hc : alookup (vertexKey p) st.vmap with
  | some j => rw [getVertexIndex_found st p j hc]
  | none =>
    rw [getVertexIndex_fresh st p hc]
    exact getI_append_lt _ _ i h

theorem gvi_idx_lt (st : ExtractSt) (p : Vec3) (h : VMapInv st) :
    (getVertexIndex st p).1 < (getVertexIndex st p).2.vertices.length := by
  cases hc : alookup (vertexKey p) st.vmap with
  | some i =>
    rw [getVertexIndex_found st p i hc]
    exact h.1 _ _ hc
  | none =>
    rw [getVertexIndex_fresh st p hc]
    simp

theorem extractInv_gvi (st : ExtractSt) (p : Vec3) (h : ExtractInv st) :
    ExtractInv (getVertexIndex st p).2 := by
  obtain ⟨h1, h2, h3, h4⟩ := h
  cases hc : alookup (vertexKey p) st.vmap with
  | some i =>
    rw [getVertexIndex_found st p i hc]
    exact ⟨h1, h2, h3, h4⟩
  | none =>
    rw [getVertexIndex_fresh st p hc]
    refine ⟨?_, ?_, ?_, ?_⟩
    · intro fi hfi
      obtain ⟨hd, hne1, hne2, hne3, hb0, hb1, hb2⟩ := h1 fi hfi
      refine ⟨hd, hne1, hne2, hne3, ?_, ?_, ?_⟩ <;> simp only [List.length_append] <;> omega
    · intro vi hvi
      simp only [List.length_append, List.length_cons, List.length_nil] at hvi
      rcases Nat.lt_succ_iff_lt_or_eq.mp (by simpa using hvi) with hlt | heq
      · rw [getI_append_lt _ _ vi hlt]
        exact h2 vi hlt
      · subst heq
        rw [getI_append_self]
        rfl
    · intro fi hfi
      obtain ⟨hb0, hb1, hb2⟩ := (h1 fi hfi).2.2.2.2
      obtain ⟨hm0, hm1, hm2⟩ := h3 fi hfi
      rw [getI_append_lt _ _ _ hb0, getI_append_lt _ _ _ hb1, getI_append_lt _ _ _ hb2]
      exact ⟨hm0, hm1, hm2⟩
    · intro vi hvi
      simp only [List.length_append, List.length_cons, List.length_nil] at hvi
      rcases Nat.lt_succ_iff_lt_or_eq.mp (by simpa using hvi) with hlt | heq
      · rw [getI_append_lt _ _ vi hlt]
        exact h4 vi hlt
      · subst heq
        rw [getI_append_self]
        intro fj hfj
        exact absurd hfj (by simp [newVertexRec])

theorem mem_faces_updAt_append (l : List Vertex) (i c fi fj : Nat)
    (h : fj ∈ (getI l c).faces) :
    fj ∈ (getI (updAt l i (fun v => { v with faces := v.faces ++ [fi] })) c).faces := by
  rcases getI_updAt_cases l i c (fun v => { v with faces := v.faces ++ [fi] }) with h2 | h2
  · rw [h2]; exact h
  · rw [h2]; exact List.mem_append_left _ h

theorem deleted_updAt_faces (l : List Vertex) (i vi fi : Nat) :
    (getI (updAt l i (fun v => { v with faces := v.faces ++ [fi] })) vi).deleted
      = (getI l vi).deleted := by
  rcases getI_updAt_cases l i vi (fun v => { v with faces := v.faces ++ [fi] }) with h | h <;>
    rw [h]

theorem faces_updAt_bound (l : List Vertex) (i vi fi fj : Nat)
    (h : fj ∈ (getI (updAt l i (fun v => { v with faces := v.faces ++ [fi] })) vi).faces) :
    fj ∈ (getI l vi).faces ∨ fj = fi := by
  rcases getI_updAt_cases l i vi (fun v => { v with faces := v.faces ++ [fi] }) with h2 | h2
  · rw [h2] at h; exact Or.inl h
  · rw [h2] at h
    rcases List.mem_append.mp h with h3 | h3
    · exact Or.inl h3
    · exact Or.inr (by simpa using h3)

theorem extractInv_keepStep (st2 : ExtractSt) (i0 i1 i2 : Nat) (h : ExtractInv st2)
    (hb0 : i0 < st2.vertices.length) (hb1 : i1 < st2.vertices.length)
    (hb2 : i2 < st2.vertices.length)
    (hne1 : i0 ≠ i1) (hne2 : i1 ≠ i2) (hne3 : i2 ≠ i0) :
    ExtractInv
      ⟨updAt (updAt (updAt st2.vertices i0
            (fun v => { v with faces := v.faces ++ [st2.faces.length] })) i1
            (fun v => { v with faces := v.faces ++ [st2.faces.length] })) i2
            (fun v => { v with faces := v.faces ++ [st2.faces.length] }),
        st2.faces ++ [computeFaceNormal st2.vertices ⟨i0, i1, i2, false, none, jzero⟩],
        st2.vmap⟩ := by
  obtain ⟨h1, h2, h3, h4⟩ := h
  unfold ExtractInv
  dsimp only
  have hlen : (updAt (updAt (updAt st2.vertices i0
        (fun v => { v with faces := v.faces ++ [st2.faces.length] })) i1
        (fun v => { v with faces := v.faces ++ [st2.faces.length] })) i2
        (fun v => { v with faces := v.faces ++ [st2.faces.length] })).length
      = st2.vertices.length := by
    rw [length_updAt, length_updAt, length_updAt]
  have hfc0 : (computeFaceNormal st2.vertices ⟨i0, i1, i2, false, none, jzero⟩).v0 = i0 := rfl
  have hfc1 : (computeFaceNormal st2.vertices ⟨i0, i1, i2, false, none, jzero⟩).v1 = i1 := rfl
  have hfc2 : (computeFaceNormal st2.vertices ⟨i0, i1, i2, false, none, jzero⟩).v2 = i2 := rfl
  have hfcd : (computeFaceNormal st2.vertices ⟨i0, i1, i2, false, none, jzero⟩).deleted
      = false := rfl
  refine ⟨?_, ?_, ?_, ?_⟩
  · intro fi hfi
    rw [List.length_append, List.length_singleton] at hfi
    rcases Nat.lt_succ_iff_lt_or_eq.mp hfi with hlt | heq
    · obtain ⟨hd, hn1, hn2, hn3, hc0, hc1, hc2⟩ := h1 fi hlt
      rw [getI_append_lt _ _ _ hlt, hlen]
      exact ⟨hd, hn1, hn2, hn3, hc0, hc1, hc2⟩
    · subst heq
      rw [getI_append_self, hlen, hfc0, hfc1, hfc2, hfcd]
      exact ⟨rfl, hne1, hne2, hne3, hb0, hb1, hb2⟩
  · intro vi hvi
    rw [hlen] at hvi
    rw [deleted_updAt_faces, deleted_updAt_faces, deleted_updAt_faces]
    exact h2 vi hvi
  · intro fi hfi
    rw [List.length_append, List.length_singleton] at hfi
    rcases Nat.lt_succ_iff_lt_or_eq.mp hfi with hlt | heq
    · obtain ⟨hm0, hm1, hm2⟩ := h3 fi hlt
      rw [getI_append_lt _ _ _ hlt]
      exact ⟨mem_faces_updAt_append _ _ _ _ _ (mem_faces_updAt_append _ _ _ _ _
          (mem_faces_updAt_append _ _ _ _ _ hm0)),
        mem_faces_updAt_append _ _ _ _ _ (mem_faces_updAt_append _ _ _ _ _
          (mem_faces_updAt_append _ _ _ _ _ hm1)),
        mem_faces_updAt_append _ _ _ _ _ (mem_faces_updAt_append _ _ _ _ _
          (mem_faces_updAt_append _ _ _ _ _ hm2))⟩
    · subst heq
      rw [getI_append_self, hfc0, hfc1, hfc2]
      refine ⟨?_, ?_, ?_⟩
      · rw [getI_updAt_ne _ _ _ _ hne3, getI_updAt_ne _ _ _ _ (Ne.symm hne1),
          getI_updAt_self _ _ _ hb0]
        simp
      · rw [getI_updAt_ne _ _ _ _ (Ne.symm hne2),
          getI_updAt_self _ _ _ (by rw [length_updAt]; exact hb1)]
        simp
      · rw [getI_updAt_self _ _ _ (by rw [length_updAt, length_updAt]; exact hb2)]
        simp
  · intro vi hvi fj hfj
    rw [hlen] at hvi
    rw [List.length_append, List.length_singleton]
    rcases faces_updAt_bound _ _ _ _ _ hfj with hin | hfi
    · rcases faces_updAt_bound _ _ _ _ _ hin with hin2 | hfi
      · rcases faces_updAt_bound _ _ _ _ _ hin2 with hin3 | hfi
        · have := h4 vi hvi fj hin3
          omega
        · omega
      · omega
    · omega

theorem extractInv_extractTri (st : ExtractSt) (t : Vec3 × Vec3 × Vec3)
    (hm : VMapInv st) (h : ExtractInv st) : ExtractInv (extractTri st t) := by
  have hm1 := vmapInv_getVertexIndex st t.1 hm
  have hm2 := vmapInv_getVertexIndex _ t.2.1 hm1
  have h3 := extractInv_gvi _ t.2.2 (extractInv_gvi _ t.2.1 (extractInv_gvi st t.1 h))
  have hi0 : (getVertexIndex st t.1).1
      < (getVertexIndex (getVertexIndex (getVertexIndex st t.1).2 t.2.1).2
          t.2.2).2.vertices.length :=
    lt_of_lt_of_le (gvi_idx_lt st t.1 hm)
      (le_trans (gvi_len_le _ t.2.1) (gvi_len_le _ t.2.2))
  have hi1 : (getVertexIndex (getVertexIndex st t.1).2 t.2.1).1
      < (getVertexIndex (getVertexIndex (getVertexIndex st t.1).2 t.2.1).2
          t.2.2).2.vertices.length :=
    lt_of_lt_of_le (gvi_idx_lt _ t.2.1 hm1) (gvi_len_le _ t.2.2)
  have hi2 : (getVertexIndex (getVertexIndex (getVertexIndex st t.1).2 t.2.1).2 t.2.2).1
      < (getVertexIndex (getVertexIndex (getVertexIndex st t.1).2 t.2.1).2
          t.2.2).2.vertices.length :=
    gvi_idx_lt _ t.2.2 hm2
  simp only [extractTri]
  split
  · exact h3
  · next hcond =>
      push_neg at hcond
      exact extractInv_keepStep _ _ _ _ h3 hi0 hi1 hi2 hcond.1 hcond.2.1 hcond.2.2

theorem extractInv_empty : ExtractInv ⟨[], [], []⟩ := by
  refine ⟨?_, ?_, ?_, ?_⟩ <;> intro i hi <;> exact absurd hi (by simp)

theorem extractInv_extractFull (positions : List JNum) :
    ExtractInv (extractFull positions) := by
  unfold extractFull
  have hgen : ∀ (ts : List (Vec3 × Vec3 × Vec3)) (st : ExtractSt),
      VMapInv st → ExtractInv st →
      ExtractInv (ts.foldl extractTri st) := by
    intro ts
    induction ts with
    | nil => intro st _ h; exact h
    | cons t rest ih =>
      intro st hm h
      exact ih _ (vmapInv_extractTri st t hm) (extractInv_extractTri st t hm h)
  exact hgen _ _ vmapInv_empty extractInv_empty

theorem getI_eq_get {α : Type} [Inhabited α] (l : List α) (i : Nat) (h : i < l.length) :
    getI l i = l.get ⟨i, h⟩ := by
  induction l generalizing i with
  | nil => exact absurd h (by simp)
  | cons a t ih =>
    cases i with
    | zero => rfl
    | succ j => exact ih j (by simpa using h)

theorem foldl_emit {α β : Type} (P : α → Prop) (step : List β → α → List β) (g : α → List β)
    (hstep : ∀ out x, P x → step out x = out ++ g x) :
    ∀ (l : List α) (out : List β), (∀ x ∈ l, P x) → l.foldl step out = out ++ l.flatMap g := by
  intro l
  induction l with
  | nil => intro out _; simp
  | cons x rest ih =>
    intro out hall
    rw [List.foldl_cons, hstep out x (hall x (List.mem_cons_self x rest)),
      List.flatMap_cons, ← List.append_assoc]
    exact ih _ (fun y hy => hall y (List.mem_cons_of_mem x hy))

theorem buildGeometry_flatMap (s : SimState)
    (h : ∀ f ∈ s.faces, f.deleted = false ∧
      ∃ a b c, newIdx s f.v0 = some a ∧ newIdx s f.v1 = some b ∧ newIdx s f.v2 = some c ∧
        ¬(a = b ∨ b = c ∨ c = a)) :
    buildGeometry s = s.faces.flatMap (faceFloats s) := by
  unfold buildGeometry
  refine (foldl_emit _ _ (faceFloats s) ?_ s.faces [] h).trans (by simp)
  intro out f hf
  obtain ⟨hd, a, b, c, ha, hb, hc, hne⟩ := hf
  simp only [hd, Bool.false_eq_true, if_false, ha, hb, hc]
  rw [if_neg hne]

theorem pipeline_survives (positions : List JNum) (c fi : Nat)
    (hc : c < (extractFull positions).vertices.length)
    (hfi : fi < (extractFull positions).faces.length)
    (hmem : fi ∈ (getI (extractFull positions).vertices c).faces) :
    survives (pipelineState positions) c = true := by
  obtain ⟨h1, h2, h3, h4⟩ := extractInv_extractFull positions
  have hP := presV_pipeline positions
  have hev : (extractMeshData positions).vertices = (extractFull positions).vertices := rfl
  have hef : (extractMeshData positions).faces = (extractFull positions).faces := rfl
  unfold survives
  have hA : (!(vtx (pipelineState positions) c).deleted) = true := by
    have hd := (hP.2 c).1
    rw [hd]
    show (!(getI (extractMeshData positions).vertices c).deleted) = true
    rw [hev, h2 c hc]
    rfl
  have hB : ((vtx (pipelineState positions) c).faces.any
      (fun f => !(fce (pipelineState positions) f).deleted)) = true := by
    apply List.any_eq_true.mpr
    refine ⟨fi, ?_, ?_⟩
    · have hfl := (hP.2 c).2.1
      show fi ∈ (getI (pipelineState positions).vertices c).faces
      rw [show (getI (pipelineState positions).vertices c).faces
          = (getI (extractMeshData positions).vertices c).faces from hfl, hev]
      exact hmem
    · show (!(getI (pipelineState positions).faces fi).deleted) = true
      rw [show (pipelineState positions).faces = (extractMeshData positions).faces from hP.1,
        hef, (h1 fi hfi).1]
      rfl
  rw [hA, hB]
  rfl

theorem pipeline_geom_cond (positions : List JNum) :
    ∀ f ∈ (pipelineState positions).faces, f.deleted = false ∧
      ∃ a b c, newIdx (pipelineState positions) f.v0 = some a ∧
        newIdx (pipelineState positions) f.v1 = some b ∧
        newIdx (pipelineState positions) f.v2 = some c ∧
        ¬(a = b ∨ b = c ∨ c = a) := by
  intro f hf
  obtain ⟨h1, h2, h3, h4⟩ := extractInv_extractFull positions
  have hP := presV_pipeline positions
  have hef : (extractMeshData positions).faces = (extractFull positions).faces := rfl
  rw [show (pipelineState positions).faces = (extractMeshData positions).faces from hP.1,
    hef] at hf
  obtain ⟨⟨fi, hfi⟩, hget⟩ := List.mem_iff_get.mp hf
  have hgi : getI (extractFull positions).faces fi = f := by
    rw [getI_eq_get _ _ hfi, hget]
  obtain ⟨hd, hn1, hn2, hn3, hc0, hc1, hc2⟩ := h1 fi hfi
  obtain ⟨hm0, hm1, hm2⟩ := h3 fi hfi
  rw [hgi] at hd hn1 hn2 hn3 hc0 hc1 hc2 hm0 hm1 hm2
  have hs0 := pipeline_survives positions f.v0 fi hc0 hfi hm0
  have hs1 := pipeline_survives positions f.v1 fi hc1 hfi hm1
  have hs2 := pipeline_survives positions f.v2 fi hc2 hfi hm2
  refine ⟨hd, (List.range f.v0).countP (survives (pipelineState positions)),
    (List.range f.v1).countP (survives (pipelineState positions)),
    (List.range f.v2).countP (survives (pipelineState positions)),
    by rw [newIdx, if_pos hs0], by rw [newIdx, if_pos hs1], by rw [newIdx, if_pos hs2], ?_⟩
  rintro (he | he | he)
  · rcases Nat.lt_trichotomy f.v0 f.v1 with hlt | heq | hgt
    · exact absurd he (Nat.ne_of_lt (countP_range_lt _ _ _ hlt hs0))
    · exact hn1 heq
    · exact absurd he.symm (Nat.ne_of_lt (countP_range_lt _ _ _ hgt hs1))
  · rcases Nat.lt_trichotomy f.v1 f.v2 with hlt | heq | hgt
    · exact absurd he (Nat.ne_of_lt (countP_range_lt _ _ _ hlt hs1))
    · exact hn2 heq
    · exact absurd he.symm (Nat.ne_of_lt (countP_range_lt _ _ _ hgt hs2))
  · rcases Nat.lt_trichotomy f.v2 f.v0 with hlt | heq | hgt
    · exact absurd he (Nat.ne_of_lt (countP_range_lt _ _ _ hlt hs2))
    · exact hn3 heq
    · exact absurd he.symm (Nat.ne_of_lt (countP_range_lt _ _ _ hgt hs0))

/-- C8: with targetReduction 0 the collapse loop performs zero collapses
(it exits immediately through its guard) and the rebuilt output is
exactly the flat stream of the faces that survived extraction, each
contributing its nine vertex coordinates in face order; but the target
face count is max(4, extractedFaces), not the extracted face count
itself (the two differ whenever extraction yields fewer than 4 faces). -/
theorem C8_zero_reduction (positions : List JNum) :
    targetFaceCount (extractMeshData positions).faces.length jzero
        = max 4 ((extractMeshData positions).faces.length : Int) ∧
    simplifyRun positions jzero = ⟨pipelineState positions, 0, false⟩ ∧
    simplify positions jzero =
      (extractMeshData positions).faces.flatMap (faceFloats (extractMeshData positions)) := by
  refine ⟨targetFaceCount_zero _, simplifyRun_zero positions, ?_⟩
  unfold simplify
  rw [simplifyRun_zero]
  show buildGeometry (pipelineState positions) = _
  rw [buildGeometry_flatMap _ (pipeline_geom_cond positions)]
  have hfun : faceFloats (pipelineState positions) = faceFloats (extractMeshData positions) := by
    funext f
    simp only [faceFloats]
    have hP := presV_pipeline positions
    rw [(hP.2 f.v0).2.2, (hP.2 f.v1).2.2, (hP.2 f.v2).2.2]
  rw [show (pipelineState positions).faces = (extractMeshData positions).faces
    from (presV_pipeline positions).1, hfun]

/-- C8 counterexample: on the flat quad input the extraction yields 2
faces, but the r = 0 target face count is max(4, 2) = 4, not 2: the claim
that with targetReduction 0 the target face count equals the extracted
face count is false. -/
theorem C8_counterexample :
    (extractMeshData quadInput).faces.length = 2 ∧
    targetFaceCount (extractMeshData quadInput).faces.length jzero ≠
      ((extractMeshData quadInput).faces.length : Int) := by decide
